import Mathlib

/-!
# UE4MovementComponent: crouch / sprint / prone movement component

A shallow embedding of the two variants of `UFPSCharacterMovementComponent`:

* namespace `Prone`  : `src/FPSCharacterMovementComponent.{h,cpp}` (the prone-supporting variant);
* namespace `Player` : `src/Private/Player/FPSCharacterMovementComponent.cpp`,
  `src/Public/Player/FPSCharacterMovementComponent.h` and `FPSCharacterBase.{h,cpp}`.

Conventions of the embedding.

* `float` quantities are exact rationals (`ℚ`): comparisons, `Max3`, `Clamp`, `Lerp` and
  `FInterpConstantTo` are computed exactly. Where a statement depends on rounding (how many
  calls an interpolation takes, whether a step lands on its target) the binary32 operations
  of namespace `F32` are used instead; a `float` literal that a value is compared with is
  written as the binary32 value it denotes.
* `uint8` flag bytes are natural numbers below 256 with the bitwise operations of `Nat`.
* The objects a member function reads and writes (the movement component, its character owner,
  the owner's capsule, the class default object) are flattened into one `State` record; a member
  function becomes a function `State → State` (paired with its return value when it has one).
* Calls into the world (overlap tests, sweeps, swept moves) and the engine predicates
  `HasValidData`, `CanCrouchInCurrentState`, `IsMovingOnGround` are answered by an `Env` record.
* What a base-class (`Super::`) implementation returns is a parameter of the overriding function.
* Engine helpers that are not part of this repository (`FMath`, `UCapsuleComponent::SetCapsuleSize`,
  `GetPawnCapsuleCollisionShape`, `AdjustProxyCapsuleSize`, the early-out of `MoveComponent`) are
  written out after the engine's definitions; diagnostic logging (`UE_LOG`) is not modelled.
* Quantities that need a square root (vector sizes, safe normals, the forward-alignment dot
  product of two normalised directions) and the answer of `ComponentSweepMulti` are inputs.
* Invocations are recorded: owner callbacks in a list carried by the state, the `Crouch` /
  `UnCrouch` calls of `UpdateCharacterStateBeforeMovement` in a list returned with the state.
-/

/-! ## Engine math helpers -/

namespace FMath

/-- Engine helper `FMath::Max`: `(A >= B) ? A : B`. -/
def Max (A B : ℚ) : ℚ := if A ≥ B then A else B

/-- Engine helper `FMath::Max3`: `Max(Max(A, B), C)`. -/
def Max3 (A B C : ℚ) : ℚ := Max (Max A B) C

/-- Engine helper `FMath::Clamp`: `X < Min ? Min : X < Max ? X : Max`. -/
def Clamp (X Min Max : ℚ) : ℚ := if X < Min then Min else if X < Max then X else Max

/-- Engine helper `FMath::Lerp`: `A + Alpha * (B - A)`. -/
def Lerp (A B Alpha : ℚ) : ℚ := A + Alpha * (B - A)

/-- Engine helper `FMath::Square`. -/
def Square (A : ℚ) : ℚ := A * A

/-- Engine constant `SMALL_NUMBER` (1.e-8f). -/
def SMALL_NUMBER : ℚ := 1 / 100000000

/-- Engine constant `KINDA_SMALL_NUMBER` (1.e-4f). -/
def KINDA_SMALL_NUMBER : ℚ := 1 / 10000

/-- Engine helper `FMath::FInterpConstantTo`: move `Current` toward `Target` by at most
`InterpSpeed * DeltaTime`; a distance whose square is below `SMALL_NUMBER` snaps to the target. -/
def FInterpConstantTo (Current Target DeltaTime InterpSpeed : ℚ) : ℚ :=
  let Dist := Target - Current
  if Square Dist < SMALL_NUMBER then Target
  else
    let Step := InterpSpeed * DeltaTime
    Current + Clamp Dist (-Step) Step

end FMath

/-! ## Compressed flag bit masks (`FSavedMove_Character`, header comment lines 9-17) -/

/-- Bit mask `FLAG_JumpPressed = 0x01`. -/
def FLAG_JumpPressed : ℕ := 0x01
/-- Bit mask `FLAG_WantsToCrouch = 0x02`. -/
def FLAG_WantsToCrouch : ℕ := 0x02
/-- Bit mask `FLAG_Reserved_1 = 0x04`. -/
def FLAG_Reserved_1 : ℕ := 0x04
/-- Bit mask `FLAG_Reserved_2 = 0x08`. -/
def FLAG_Reserved_2 : ℕ := 0x08
/-- Bit mask `FLAG_Custom_0 = 0x10` (sprinting). -/
def FLAG_Custom_0 : ℕ := 0x10
/-- Bit mask `FLAG_Custom_1 = 0x20` (prone). -/
def FLAG_Custom_1 : ℕ := 0x20

/-- A three-component vector (`FVector`). -/
structure FVector where
  X : ℚ
  Y : ℚ
  Z : ℚ
  deriving DecidableEq, Repr

/-- Component-wise sum of two vectors. -/
def FVector.add (a b : FVector) : FVector := ⟨a.X + b.X, a.Y + b.Y, a.Z + b.Z⟩

/-- Component-wise difference of two vectors. -/
def FVector.sub (a b : FVector) : FVector := ⟨a.X - b.X, a.Y - b.Y, a.Z - b.Z⟩

/-- Dot product of two vectors (`A | B`). -/
def FVector.Dot (a b : FVector) : ℚ := a.X * b.X + a.Y * b.Y + a.Z * b.Z

/-- Engine method `FVector::SizeSquared`. -/
def FVector.SizeSquared (a : FVector) : ℚ := a.X * a.X + a.Y * a.Y + a.Z * a.Z

/-- Scaling of a vector (`V * Scale`). -/
def FVector.scale (a : FVector) (k : ℚ) : FVector := ⟨a.X * k, a.Y * k, a.Z * k⟩

/-- Network role of the character owner (`ENetRole`). -/
inductive ENetRole where
  | ROLE_None
  | ROLE_SimulatedProxy
  | ROLE_AutonomousProxy
  | ROLE_Authority
  deriving DecidableEq, Repr

/-- A capsule collision shape (`FCollisionShape::MakeCapsule`): radius and half-height. -/
structure FCollisionShape where
  Radius : ℚ
  HalfHeight : ℚ
  deriving DecidableEq, Repr

/-- The part of a sweep result (`FHitResult`) that the movement code reads. -/
structure FHitResult where
  bStartPenetrating : Bool
  Time : ℚ
  bBlockingHit : Bool
  ImpactNormal : FVector
  deriving DecidableEq, Repr

/-- Engine constructor `FHitResult(InTime)`: everything cleared, `Time` set. -/
def FHitResult.Init (InTime : ℚ) : FHitResult :=
  { bStartPenetrating := false, Time := InTime, bBlockingHit := false, ImpactNormal := ⟨0, 0, 0⟩ }

/-- The part of the current floor (`FFindFloorResult`) that the crouch code reads. -/
structure FFindFloorResult where
  bBlockingHit : Bool
  FloorDist : ℚ
  deriving DecidableEq, Repr

/-- Answers of the world and of the engine predicates during one call. -/
structure Env where
  /-- Engine predicate `HasValidData()`. -/
  HasValidData : Bool
  /-- Engine predicate `CanCrouchInCurrentState()`. -/
  CanCrouchInCurrentState : Bool
  /-- Engine predicate `IsMovingOnGround()`. -/
  IsMovingOnGround : Bool
  /-- World query `OverlapBlockingTestByChannel(Location, ..., Shape, ...)`: encroached? -/
  OverlapBlockingTestByChannel : FVector → FCollisionShape → Bool
  /-- World query `SweepSingleByChannel(Hit, Start, End, ..., Shape, ...)`: the hit written. -/
  SweepSingleByChannel : FVector → FVector → FCollisionShape → FHitResult
  /-- Location reached by a swept `MoveComponent(Delta, ..., bSweep = true)` from a location. -/
  SweptMove : FVector → FVector → FVector
  /-- Whether `PawnOwner->Controller` is non-null. -/
  bHasController : Bool
  /-- Dot product of the forward direction used by the sprint rule (two-dimensional safe normal
  of the actor forward vector in the prone-supporting variant, of the yaw-only control rotation
  in the Player variant) with the two-dimensional safe normal of `Acceleration`. -/
  DirectionDot : ℚ
  /-- Value of `PawnOwner->GetActorForwardVector().GetSafeNormal()`. -/
  ActorForwardNormal : FVector
  /-- Value of `Super::GetMaxSpeed()`. -/
  SuperGetMaxSpeed : ℚ
  /-- Value of `Super::GetMaxAcceleration()`. -/
  SuperGetMaxAcceleration : ℚ
  /-- Value of `Velocity.Size()`. -/
  VelocitySize : ℚ
  /-- The curve asset: `SprintAccelerationCurve->GetFloatValue`. -/
  SprintAccelerationCurve : ℚ → ℚ

/-- Engine method `UPrimitiveComponent::MoveComponent(Delta, NewRotation, bSweep = true)` called
with the component's own rotation: a move no longer than the minimum sweep distance
`4 * KINDA_SMALL_NUMBER` is skipped, otherwise the world decides where the sweep stops. -/
def MoveComponentSweep (env : Env) (Start Delta : FVector) : FVector :=
  if Delta.SizeSquared ≤ FMath.Square (4 * FMath.KINDA_SMALL_NUMBER) then Start
  else env.SweptMove Start Delta

/-- The owner's collision capsule (`UCapsuleComponent`): unscaled size and shape scale. -/
structure UCapsuleComponent where
  CapsuleRadius : ℚ
  CapsuleHalfHeight : ℚ
  /-- Value of `GetShapeScale()` (minimum axis scale of the component transform). -/
  ShapeScale : ℚ
  deriving DecidableEq, Repr

namespace UCapsuleComponent

/-- Engine accessor `GetUnscaledCapsuleRadius`. -/
def GetUnscaledCapsuleRadius (c : UCapsuleComponent) : ℚ := c.CapsuleRadius

/-- Engine accessor `GetUnscaledCapsuleHalfHeight`. -/
def GetUnscaledCapsuleHalfHeight (c : UCapsuleComponent) : ℚ := c.CapsuleHalfHeight

/-- Engine accessor `GetShapeScale`. -/
def GetShapeScale (c : UCapsuleComponent) : ℚ := c.ShapeScale

/-- Engine accessor `GetScaledCapsuleRadius`. -/
def GetScaledCapsuleRadius (c : UCapsuleComponent) : ℚ := c.CapsuleRadius * c.GetShapeScale

/-- Engine accessor `GetScaledCapsuleHalfHeight`. -/
def GetScaledCapsuleHalfHeight (c : UCapsuleComponent) : ℚ := c.CapsuleHalfHeight * c.GetShapeScale

/-- Engine method `SetCapsuleSize(NewRadius, NewHalfHeight)`: the half-height is kept at least
the radius and both are kept non-negative. -/
def SetCapsuleSize (NewRadius NewHalfHeight : ℚ) (c : UCapsuleComponent) : UCapsuleComponent :=
  { c with CapsuleHalfHeight := FMath.Max3 0 NewHalfHeight NewRadius,
           CapsuleRadius := FMath.Max 0 NewRadius }

end UCapsuleComponent

/-- Enum `EShrinkCapsuleExtent`, the two modes the crouch code uses. -/
inductive EShrinkCapsuleExtent where
  | SHRINK_None
  | SHRINK_HeightCustom
  deriving DecidableEq, Repr

/-- Engine method `GetPawnCapsuleCollisionShape(ShrinkMode, CustomShrinkAmount)`: the scaled
capsule, its half-height reduced by the custom amount but not below `KINDA_SMALL_NUMBER * 10`. -/
def GetPawnCapsuleCollisionShape (ShrinkMode : EShrinkCapsuleExtent) (CustomShrinkAmount : ℚ)
    (c : UCapsuleComponent) : FCollisionShape :=
  match ShrinkMode with
  | .SHRINK_None => ⟨c.GetScaledCapsuleRadius, c.GetScaledCapsuleHalfHeight⟩
  | .SHRINK_HeightCustom =>
    let MinExtent := FMath.KINDA_SMALL_NUMBER * 10
    ⟨FMath.Max (c.GetScaledCapsuleRadius - 0) MinExtent,
     FMath.Max (c.GetScaledCapsuleHalfHeight - CustomShrinkAmount) MinExtent⟩

/-- Engine constant `UCharacterMovementComponent::MIN_FLOOR_DIST` (1.9f). -/
def MIN_FLOOR_DIST : ℚ := 19 / 10

/-- Engine method `AdjustProxyCapsuleSize`, as a function of the deferred-shrink flag, the role,
the two shrink settings and the capsule; returns the new flag and capsule. -/
def AdjustProxyCapsuleSizeOn (bShrinkProxyCapsule : Bool) (Role : ENetRole)
    (NetProxyShrinkRadius NetProxyShrinkHalfHeight : ℚ) (c : UCapsuleComponent) :
    Bool × UCapsuleComponent :=
  if bShrinkProxyCapsule ∧ Role = ENetRole.ROLE_SimulatedProxy then
    let ShrinkRadius := FMath.Max 0 NetProxyShrinkRadius
    let ShrinkHalfHeight := FMath.Max 0 NetProxyShrinkHalfHeight
    if ShrinkRadius = 0 ∧ ShrinkHalfHeight = 0 then (false, c)
    else
      let Radius := c.GetUnscaledCapsuleRadius
      let HalfHeight := c.GetUnscaledCapsuleHalfHeight
      let ComponentScale := c.GetShapeScale
      if ComponentScale ≤ FMath.KINDA_SMALL_NUMBER then (false, c)
      else
        let NewRadius := FMath.Max 0 (Radius - ShrinkRadius / ComponentScale)
        let NewHalfHeight := FMath.Max 0 (HalfHeight - ShrinkHalfHeight / ComponentScale)
        if NewRadius = 0 ∨ NewHalfHeight = 0 then (false, c)
        else (false, c.SetCapsuleSize NewRadius NewHalfHeight)
  else (bShrinkProxyCapsule, c)

/-- An invocation of one of the two entry points of the height transition, with its
arguments; `UpdateCharacterStateBeforeMovement` reports the invocations it made, in order. -/
inductive TransitionCall where
  | Crouch (bClientSimulation : Bool) (DeltaTime : ℚ)
  | UnCrouch (bClientSimulation : Bool) (DeltaTime : ℚ)
  deriving DecidableEq, Repr

/-- Engine constant `BIG_NUMBER` (3.4e+38f). -/
def BIG_NUMBER : ℚ := 34 * 10 ^ 37

/-- Engine constant `INDEX_NONE`. -/
def INDEX_NONE : ℤ := -1

/-! ## Prone-supporting variant (`src/FPSCharacterMovementComponent.{h,cpp}`) -/

namespace Prone

/-- Enum `EMovementChange` (header lines 34-45). -/
inductive EMovementChange where
  | MOVE_CHANGE_NONE
  | STAND_TO_CROUCH
  | CROUCH_TO_STAND
  deriving DecidableEq, Repr

/-- The fields `FSavedMove_Character_FPS` adds to the base saved move (header lines 47-62). -/
structure FSavedMove_Character_FPS where
  bSavedWantsToSprint : Bool
  bSavedWantsToProne : Bool
  SavedCurrentCapsuleHalfHeight : ℚ
  deriving DecidableEq, Repr

/-- Method `FSavedMove_Character_FPS::GetCompressedFlags` (cpp lines 508-521); `SuperResult` is
the byte returned by `Super::GetCompressedFlags()`. -/
def GetCompressedFlags (SuperResult : ℕ) (m : FSavedMove_Character_FPS) : ℕ :=
  let Result := SuperResult
  let Result := if m.bSavedWantsToSprint then Result ||| FLAG_Custom_0 else Result
  let Result := if m.bSavedWantsToProne then Result ||| FLAG_Custom_1 else Result
  Result

/-- Method `FSavedMove_Character_FPS::CanCombineWith` (cpp lines 523-532); `SuperResult` is the
answer of `Super::CanCombineWith(NewMove, Character, MaxDelta)`. -/
def CanCombineWith (SuperResult : Bool) (self NewMove : FSavedMove_Character_FPS) : Bool :=
  if self.bSavedWantsToSprint != NewMove.bSavedWantsToSprint then false
  else if self.bSavedWantsToProne != NewMove.bSavedWantsToProne then false
  else SuperResult

/-- A callback of the character owner invoked by the movement component, with its arguments. -/
inductive Callback where
  | OnStartCrouch (HalfHeightAdjust ScaledHalfHeightAdjust : ℚ)
  | OnEndCrouch (HalfHeightAdjust ScaledHalfHeightAdjust : ℚ)
  deriving DecidableEq, Repr

/-- The movement component with its character owner, capsule and class default object. -/
structure State where
  /-- Flag `CharacterOwner->bIsCrouched`. -/
  bIsCrouched : Bool
  /-- Value of `CharacterOwner->Role`. -/
  Role : ENetRole
  /-- The owner's capsule component. -/
  Capsule : UCapsuleComponent
  /-- The capsule of the class default object (`DefaultCharacter`). -/
  DefaultCapsule : UCapsuleComponent
  /-- Callbacks invoked on the owner so far, oldest first. -/
  Calls : List Callback
  /-- Value of `UpdatedComponent->GetComponentLocation()`. -/
  Location : FVector
  CurrentMovementChange : EMovementChange
  CurrentCapsuleHalfHeight : ℚ
  CurrentCrouchAlpha : ℚ
  CrouchTime : ℚ
  CrouchedHalfHeight : ℚ
  bWantsToCrouch : Bool
  bWantsToSprint : Bool
  bWantsToProne : Bool
  bIsSprinting : Bool
  bCanSprint : Bool
  bIsProne : Bool
  bCrouchMaintainsBaseLocation : Bool
  bShrinkProxyCapsule : Bool
  bForceNextFloorCheck : Bool
  NetProxyShrinkRadius : ℚ
  NetProxyShrinkHalfHeight : ℚ
  CurrentFloor : FFindFloorResult
  /-- Field `MeshTranslationOffset` of the client prediction data. -/
  MeshTranslationOffset : FVector
  /-- Field `OriginalMeshTranslationOffset` of the client prediction data. -/
  OriginalMeshTranslationOffset : FVector
  Acceleration : FVector
  MaxWalkSpeedSprint : ℚ
  bJustTeleported : Bool
  bNetworkUpdateReceived : Bool
  deriving DecidableEq, Repr

/-- Engine method `AdjustProxyCapsuleSize` on the component state. -/
def AdjustProxyCapsuleSize (s : State) : State :=
  let r := AdjustProxyCapsuleSizeOn s.bShrinkProxyCapsule s.Role s.NetProxyShrinkRadius
    s.NetProxyShrinkHalfHeight s.Capsule
  { s with bShrinkProxyCapsule := r.1, Capsule := r.2 }

/-- Owner callback `OnStartCrouch(HalfHeightAdjust, ScaledHalfHeightAdjust)`: recorded. -/
def OnStartCrouch (HalfHeightAdjust ScaledHalfHeightAdjust : ℚ) (s : State) : State :=
  { s with Calls := s.Calls ++ [Callback.OnStartCrouch HalfHeightAdjust ScaledHalfHeightAdjust] }

/-- Owner callback `OnEndCrouch(HalfHeightAdjust, ScaledHalfHeightAdjust)`: recorded. -/
def OnEndCrouch (HalfHeightAdjust ScaledHalfHeightAdjust : ℚ) (s : State) : State :=
  { s with Calls := s.Calls ++ [Callback.OnEndCrouch HalfHeightAdjust ScaledHalfHeightAdjust] }

/-- Method `UFPSCharacterMovementComponent::UpdateFromCompressedFlags` (cpp lines 172-177);
`Super` is the effect of `Super::UpdateFromCompressedFlags(Flags)`. -/
def UpdateFromCompressedFlags (Super : ℕ → State → State) (Flags : ℕ) (s : State) : State :=
  let s := Super Flags s
  let s := { s with bWantsToSprint := decide ((Flags &&& FLAG_Custom_0) ≠ 0) }
  { s with bWantsToProne := decide ((Flags &&& FLAG_Custom_1) ≠ 0) }

/-- Method `FSavedMove_Character_FPS::SetMoveFor` (cpp lines 534-544): the fields read from the
movement component `FPSMov` after `Super::SetMoveFor`, which fills the base fields only. -/
def SetMoveFor (FPSMov : State) (m : FSavedMove_Character_FPS) : FSavedMove_Character_FPS :=
  let m := { m with bSavedWantsToSprint := FPSMov.bWantsToSprint }
  let m := { m with bSavedWantsToProne := FPSMov.bWantsToProne }
  { m with SavedCurrentCapsuleHalfHeight := FPSMov.CurrentCapsuleHalfHeight }

/-- Method `FSavedMove_Character_FPS::PrepMoveFor` (cpp lines 546-556); `Super` is the effect of
`Super::PrepMoveFor(Character)` on the component. -/
def PrepMoveFor (Super : State → State) (m : FSavedMove_Character_FPS) (FPSMov : State) : State :=
  let FPSMov := Super FPSMov
  let FPSMov := { FPSMov with bWantsToSprint := m.bSavedWantsToSprint }
  let FPSMov := { FPSMov with bWantsToProne := m.bSavedWantsToProne }
  { FPSMov with CurrentCapsuleHalfHeight := m.SavedCurrentCapsuleHalfHeight }

/-- Method `UFPSCharacterMovementComponent::Crouch` (cpp lines 179-299). -/
def Crouch (env : Env) (bClientSimulation : Bool) (DeltaTime : ℚ) (s : State) : State :=
  if ¬ env.HasValidData then s
  else if ¬ bClientSimulation ∧ ¬ env.CanCrouchInCurrentState then s
  -- See if collision is already at desired size.
  else if s.Capsule.GetUnscaledCapsuleHalfHeight = s.CrouchedHalfHeight then
    let s : State := if ¬ bClientSimulation then
        { s with bIsCrouched := true, CurrentMovementChange := EMovementChange.MOVE_CHANGE_NONE }
      else s
    OnStartCrouch 0 0 s
  else
    -- restore collision size before crouching
    let s : State := if bClientSimulation ∧ s.Role = ENetRole.ROLE_SimulatedProxy then
        { s with Capsule := s.Capsule.SetCapsuleSize s.DefaultCapsule.GetUnscaledCapsuleRadius
                   s.DefaultCapsule.GetUnscaledCapsuleHalfHeight,
                 bShrinkProxyCapsule := true }
      else s
    -- Change collision size to crouching dimensions
    let ComponentScale := s.Capsule.GetShapeScale
    let OldUnscaledHalfHeight := s.Capsule.GetUnscaledCapsuleHalfHeight
    let OldUnscaledRadius := s.Capsule.GetUnscaledCapsuleRadius
    -- Height is not allowed to be smaller than radius.
    let r : State × ℚ :=
      if ¬ bClientSimulation then
        let DefaultStandingHalfHeight := s.DefaultCapsule.GetUnscaledCapsuleHalfHeight
        let s : State := if s.CurrentMovementChange = EMovementChange.MOVE_CHANGE_NONE ∧ s.bWantsToCrouch
              ∧ ¬ s.bIsCrouched then
            { s with CurrentMovementChange := EMovementChange.STAND_TO_CROUCH,
                     CurrentCrouchAlpha := 0,
                     CurrentCapsuleHalfHeight := DefaultStandingHalfHeight,
                     bWantsToSprint := false }
          else s
        let NewAlpha := FMath.Clamp (s.CurrentCrouchAlpha + DeltaTime / s.CrouchTime) 0 1
        let s := { s with CurrentCrouchAlpha := NewAlpha }
        let ClampedCrouchedHalfHeight :=
          FMath.Lerp DefaultStandingHalfHeight s.CrouchedHalfHeight s.CurrentCrouchAlpha
        let ClampedCrouchedHalfHeight := FMath.Max3 0 OldUnscaledRadius ClampedCrouchedHalfHeight
        ({ s with CurrentCapsuleHalfHeight := ClampedCrouchedHalfHeight }, ClampedCrouchedHalfHeight)
      else
        (s, FMath.Max3 0 OldUnscaledRadius s.CurrentCapsuleHalfHeight)
    let s := r.1
    let ClampedCrouchedHalfHeight := r.2
    let s := { s with Capsule := s.Capsule.SetCapsuleSize OldUnscaledRadius ClampedCrouchedHalfHeight }
    let HalfHeightAdjust := OldUnscaledHalfHeight - ClampedCrouchedHalfHeight
    let ScaledHalfHeightAdjust := HalfHeightAdjust * ComponentScale
    -- Crouching to a larger height? If encroached, cancel
    if ¬ bClientSimulation ∧ ClampedCrouchedHalfHeight > OldUnscaledHalfHeight ∧
        env.OverlapBlockingTestByChannel (s.Location.sub ⟨0, 0, ScaledHalfHeightAdjust⟩)
          (GetPawnCapsuleCollisionShape EShrinkCapsuleExtent.SHRINK_None 0 s.Capsule) then
      { s with Capsule := s.Capsule.SetCapsuleSize OldUnscaledRadius OldUnscaledHalfHeight }
    else
      let s : State := if ¬ bClientSimulation then
          let s : State := if s.bCrouchMaintainsBaseLocation then
              { s with Location := MoveComponentSweep env s.Location ⟨0, 0, -ScaledHalfHeightAdjust⟩ }
            else s
          -- only set bIsCrouched to true if its fully crouched
          if s.Capsule.GetUnscaledCapsuleHalfHeight = s.CrouchedHalfHeight then
            { s with bIsCrouched := true, CurrentMovementChange := EMovementChange.MOVE_CHANGE_NONE }
          else s
        else s
      let s := { s with bForceNextFloorCheck := true }
      -- OnStartCrouch takes the change from the Default size, not the current one
      let MeshAdjust := ScaledHalfHeightAdjust
      let HalfHeightAdjust :=
        s.DefaultCapsule.GetUnscaledCapsuleHalfHeight - ClampedCrouchedHalfHeight
      let ScaledHalfHeightAdjust := HalfHeightAdjust * ComponentScale
      let s := AdjustProxyCapsuleSize s
      let s := OnStartCrouch HalfHeightAdjust ScaledHalfHeightAdjust s
      -- Don't smooth this change in mesh position
      if bClientSimulation ∧ s.Role = ENetRole.ROLE_SimulatedProxy
          ∧ s.MeshTranslationOffset.Z ≠ 0 then
        let off := s.MeshTranslationOffset.sub ⟨0, 0, MeshAdjust⟩
        { s with MeshTranslationOffset := off, OriginalMeshTranslationOffset := off }
      else s

/-- Engine method `IsCrouching()`: `CharacterOwner && CharacterOwner->bIsCrouched`. -/
def IsCrouching (s : State) : Bool := s.bIsCrouched

/-- Method `UFPSCharacterMovementComponent::UnCrouch` (cpp lines 301-482). -/
def UnCrouch (env : Env) (bClientSimulation : Bool) (DeltaTime : ℚ) (s : State) : State :=
  if ¬ env.HasValidData then s
  else
    -- See if collision is already at desired size.
    let DefaultStandingHalfHeight := s.DefaultCapsule.GetUnscaledCapsuleHalfHeight
    if s.Capsule.GetUnscaledCapsuleHalfHeight = DefaultStandingHalfHeight then
      let s : State := if ¬ bClientSimulation then
          { s with bIsCrouched := false, CurrentMovementChange := EMovementChange.MOVE_CHANGE_NONE }
        else s
      OnEndCrouch 0 0 s
    else
      let CurrentCrouchedHalfHeight := s.Capsule.GetScaledCapsuleHalfHeight
      let ComponentScale := s.Capsule.GetShapeScale
      let OldUnscaledHalfHeight := s.Capsule.GetUnscaledCapsuleHalfHeight
      let OldUnscaledRadius := s.Capsule.GetUnscaledCapsuleRadius
      -- the state after the reset of the transition (local calls only)
      let s : State := if ¬ bClientSimulation ∧
            (s.CurrentMovementChange = EMovementChange.MOVE_CHANGE_NONE ∧ ¬ s.bWantsToCrouch
              ∧ s.bIsCrouched) then
          { s with CurrentMovementChange := EMovementChange.CROUCH_TO_STAND,
                   CurrentCrouchAlpha := 1,
                   CurrentCapsuleHalfHeight := s.CrouchedHalfHeight }
        else s
      -- only read on the local path
      let newCrouchAlpha := FMath.Clamp (s.CurrentCrouchAlpha - DeltaTime / s.CrouchTime) 0 1
      let ClampedCrouchedHalfHeight :=
        if ¬ bClientSimulation then
          FMath.Max3 0 OldUnscaledRadius
            (FMath.Lerp DefaultStandingHalfHeight s.CrouchedHalfHeight s.CurrentCrouchAlpha)
        else FMath.Max3 0 OldUnscaledRadius s.CurrentCapsuleHalfHeight
      -- calculate the amount to increase by
      let HalfHeightAdjust := ClampedCrouchedHalfHeight - OldUnscaledHalfHeight
      let ScaledHalfHeightAdjust := HalfHeightAdjust * ComponentScale
      let PawnLocation := s.Location
      -- first component: the final value of bEncroached (false on the client-simulation path)
      let r : Bool × State :=
        if ¬ bClientSimulation then
          -- Try to stay in place and see if the larger capsule fits.
          let SweepInflation := FMath.KINDA_SMALL_NUMBER * 10
          let StandingCapsuleShape := GetPawnCapsuleCollisionShape
            EShrinkCapsuleExtent.SHRINK_HeightCustom (-SweepInflation - ScaledHalfHeightAdjust)
            s.Capsule
          if ¬ s.bCrouchMaintainsBaseLocation then
            -- Expand in place
            let bEncroached := env.OverlapBlockingTestByChannel PawnLocation StandingCapsuleShape
            if bEncroached then
              -- Try adjusting capsule position to see if we can avoid encroachment.
              if ScaledHalfHeightAdjust > 0 then
                let PawnRadius := s.Capsule.GetScaledCapsuleRadius
                let PawnHalfHeight := s.Capsule.GetScaledCapsuleHalfHeight
                let ShrinkHalfHeight := PawnHalfHeight - PawnRadius
                let TraceDist := PawnHalfHeight - ShrinkHalfHeight
                let Down : FVector := ⟨0, 0, -TraceDist⟩
                let ShortCapsuleShape := GetPawnCapsuleCollisionShape
                  EShrinkCapsuleExtent.SHRINK_HeightCustom ShrinkHalfHeight s.Capsule
                let Hit := env.SweepSingleByChannel PawnLocation (PawnLocation.add Down)
                  ShortCapsuleShape
                if Hit.bStartPenetrating then (true, s)
                else
                  -- Compute where the base of the sweep ended up, and see if we can stand there
                  let DistanceToBase := Hit.Time * TraceDist + ShortCapsuleShape.HalfHeight
                  let NewLoc : FVector := ⟨PawnLocation.X, PawnLocation.Y,
                    PawnLocation.Z - DistanceToBase + StandingCapsuleShape.HalfHeight
                      + SweepInflation + MIN_FLOOR_DIST / 2⟩
                  let bEncroached := env.OverlapBlockingTestByChannel NewLoc StandingCapsuleShape
                  if ¬ bEncroached then
                    (false, { s with Location := s.Location.add (NewLoc.sub PawnLocation) })
                  else (true, s)
              else (true, s)
            else (false, s)
          else
            -- Expand while keeping base location the same.
            let StandingLocation : FVector :=
              PawnLocation.add ⟨0, 0, StandingCapsuleShape.HalfHeight - CurrentCrouchedHalfHeight⟩
            let bEncroached :=
              env.OverlapBlockingTestByChannel StandingLocation StandingCapsuleShape
            let MinFloorDist := FMath.KINDA_SMALL_NUMBER * 10
            let q : Bool × FVector :=
              if bEncroached ∧ env.IsMovingOnGround ∧ s.CurrentFloor.bBlockingHit
                  ∧ s.CurrentFloor.FloorDist > MinFloorDist then
                -- Something might be just barely overhead, try moving down closer to the floor.
                let Lowered : FVector := { StandingLocation with
                  Z := StandingLocation.Z - (s.CurrentFloor.FloorDist - MinFloorDist) }
                (env.OverlapBlockingTestByChannel Lowered StandingCapsuleShape, Lowered)
              else (bEncroached, StandingLocation)
            if ¬ q.1 then
              -- Commit the change in location.
              (false, { s with Location := s.Location.add (q.2.sub PawnLocation),
                               bForceNextFloorCheck := true })
            else (true, s)
        else (false, { s with bShrinkProxyCapsule := true })
      -- If still encroached then abort.
      if r.1 then r.2
      else
        let s := r.2
        let s : State := if ¬ bClientSimulation then
            { s with CurrentCrouchAlpha := newCrouchAlpha,
                     CurrentCapsuleHalfHeight := ClampedCrouchedHalfHeight }
          else s
        -- Now call SetCapsuleSize() to actually grow the capsule
        let DefaultRadius := s.DefaultCapsule.GetUnscaledCapsuleRadius
        let s : State :=
          { s with Capsule := s.Capsule.SetCapsuleSize DefaultRadius ClampedCrouchedHalfHeight }
        -- only set bIsCrouched to true if its fully crouched
        let s : State :=
          if s.Capsule.GetUnscaledCapsuleHalfHeight = DefaultStandingHalfHeight then
            { s with bIsCrouched := false,
                     CurrentMovementChange := EMovementChange.MOVE_CHANGE_NONE }
          else s
        let MeshAdjust := ScaledHalfHeightAdjust
        let s := AdjustProxyCapsuleSize s
        let s := OnEndCrouch HalfHeightAdjust ScaledHalfHeightAdjust s
        -- Don't smooth this change in mesh position
        if bClientSimulation ∧ s.Role = ENetRole.ROLE_SimulatedProxy
            ∧ s.MeshTranslationOffset.Z ≠ 0 then
          let off := s.MeshTranslationOffset.add ⟨0, 0, MeshAdjust⟩
          { s with MeshTranslationOffset := off, OriginalMeshTranslationOffset := off }
        else s

/-- Method `UFPSCharacterMovementComponent::GetMaxSpeed` (cpp lines 87-94). -/
def GetMaxSpeed (env : Env) (s : State) : ℚ :=
  let MaxSpeed := env.SuperGetMaxSpeed
  if s.bIsSprinting then s.MaxWalkSpeedSprint else MaxSpeed

/-- Method `UFPSCharacterMovementComponent::GetMaxAcceleration` (cpp lines 96-108). -/
def GetMaxAcceleration (env : Env) (s : State) : ℚ :=
  let CurrentMaxAccel := env.SuperGetMaxAcceleration
  if s.bIsSprinting then
    let CurrentSpeed := env.VelocitySize
    let MaxSpeed := GetMaxSpeed env s
    let SprintMultiplier := env.SprintAccelerationCurve (CurrentSpeed / MaxSpeed)
    CurrentMaxAccel * SprintMultiplier
  else CurrentMaxAccel

/-- Method `UFPSCharacterMovementComponent::UpdateCharacterStateBeforeMovement`
(cpp lines 110-145): the state after the call and the `Crouch` / `UnCrouch` invocations it
made, in order. -/
def UpdateCharacterStateBeforeMovement (env : Env) (DeltaSeconds : ℚ) (s : State) :
    State × List TransitionCall :=
  -- Check for a change in crouch state.
  let bIsCrouching := IsCrouching s
  let r : State × List TransitionCall :=
    if (¬ bIsCrouching ∧ s.bWantsToCrouch ∧ env.CanCrouchInCurrentState)
        ∨ (s.bWantsToCrouch ∧ s.CurrentMovementChange ≠ EMovementChange.MOVE_CHANGE_NONE) then
      (Crouch env false DeltaSeconds s, [TransitionCall.Crouch false DeltaSeconds])
    else if (bIsCrouching ∧ (¬ s.bWantsToCrouch ∨ ¬ env.CanCrouchInCurrentState))
        ∨ (¬ s.bWantsToCrouch ∧ s.CurrentMovementChange ≠ EMovementChange.MOVE_CHANGE_NONE) then
      (UnCrouch env false DeltaSeconds s, [TransitionCall.UnCrouch false DeltaSeconds])
    else (s, [])
  let s := r.1
  let DirectionDot := env.DirectionDot
  -- the literal `0.2f` is the binary32 value 13421773 / 2 ^ 26
  let IsMovingForward : Bool := decide (DirectionDot > 13421773 / 67108864)
  if s.bIsSprinting ∧ (¬ s.bWantsToSprint ∨ ¬ env.IsMovingOnGround ∨ ¬ IsMovingForward
      ∨ ¬ s.bCanSprint) then
    ({ s with bIsSprinting := false }, r.2)
  else if IsMovingForward ∧ s.bWantsToSprint ∧ env.IsMovingOnGround ∧ s.bCanSprint then
    let s : State := { s with bWantsToCrouch := false }
    let u : State × List TransitionCall :=
      if bIsCrouching then
        (UnCrouch env false DeltaSeconds s, r.2 ++ [TransitionCall.UnCrouch false DeltaSeconds])
      else (s, r.2)
    let s : State := { u.1 with bIsSprinting := true }
    ({ s with Acceleration := env.ActorForwardNormal.scale (GetMaxAcceleration env s) }, u.2)
  else (s, r.2)

/-- What `SimulateProneComponent` reads besides its arguments: the answer of
`ComponentSweepMulti` for the trace it computes, the movement flags and owner, and the
quantities it derives from `NewDelta` with a square root. -/
structure FProneSweep where
  /-- Return value of `ComponentSweepMulti`. -/
  bHadBlockingHit : Bool
  /-- The hits written by `ComponentSweepMulti`, in order. -/
  Hits : List FHitResult
  /-- Value of `NewDelta.Size()`. -/
  NewDeltaSize : ℚ
  /-- Value of `NewDelta.GetSafeNormal()`. -/
  MovementDir : FVector
  /-- Whether `GetOwner()` is non-null. -/
  bMovingActor : Bool
  /-- Flag `MoveComponentFlags & MOVECOMP_IgnoreBases`. -/
  bIgnoreBases : Bool
  /-- Flag `MoveComponentFlags & MOVECOMP_NeverIgnoreBlockingOverlaps`. -/
  bNeverIgnoreBlockingOverlaps : Bool
  /-- Whether the hit has an actor that is the base of the moving actor or based on it. -/
  IsBasedOnActor : FHitResult → Bool
  /-- Console variable `p.InitialOverlapTolerance` (default 0). -/
  InitialOverlapToleranceCVar : ℚ

namespace SimulateProneComponent

/-- Function `SimulateProneComponent::PullBackHit` (cpp lines 1074-1078). A division by a zero
`Dist` yields 0. -/
def PullBackHit (Hit : FHitResult) (Dist : ℚ) : FHitResult :=
  let DesiredTimeBack := FMath.Clamp (1 / 10) ((1 / 10) / Dist) (1 / Dist) + 1 / 1000
  { Hit with Time := FMath.Clamp (Hit.Time - DesiredTimeBack) 0 1 }

/-- Function `SimulateProneComponent::ShouldIgnoreHitResult` (cpp lines 1080-1119). -/
def ShouldIgnoreHitResult (w : FProneSweep) (TestHit : FHitResult) : Bool :=
  if TestHit.bBlockingHit then
    -- check "ignore bases" functionality
    if w.bIgnoreBases ∧ w.bMovingActor ∧ w.IsBasedOnActor TestHit then true
    -- If we started penetrating, we may want to ignore it if we are moving out of penetration.
    else if TestHit.bStartPenetrating ∧ ¬ w.bNeverIgnoreBlockingOverlaps then
      let DotTolerance := w.InitialOverlapToleranceCVar
      let MovementDir := w.MovementDir
      let MoveDot := TestHit.ImpactNormal.Dot MovementDir
      let bMovingOut : Bool := decide (MoveDot > DotTolerance)
      if bMovingOut then true else false
    else false
  else false

/-- The selection loop of `SimulateProneComponent` (cpp lines 1161-1188) over the remaining
hits, from index `HitIdx`, with the current `BlockingHitIndex` and
`BlockingHitNormalDotDelta`; the result is the final `BlockingHitIndex`. -/
def SelectBlockingHit (w : FProneSweep) (NewDelta : FVector) :
    List FHitResult → ℕ → ℤ → ℚ → ℤ
  | [], _, BlockingHitIndex, _ => BlockingHitIndex
  | TestHit :: rest, HitIdx, BlockingHitIndex, BlockingHitNormalDotDelta =>
    if TestHit.bBlockingHit ∧ ¬ ShouldIgnoreHitResult w TestHit then
      if TestHit.Time = 0 then
        -- We may have multiple initial hits, and want to choose the one with the normal most
        -- opposed to our movement.
        let NormalDotDelta := TestHit.ImpactNormal.Dot NewDelta
        if NormalDotDelta < BlockingHitNormalDotDelta then
          SelectBlockingHit w NewDelta rest (HitIdx + 1) HitIdx NormalDotDelta
        else
          SelectBlockingHit w NewDelta rest (HitIdx + 1) BlockingHitIndex
            BlockingHitNormalDotDelta
      else if BlockingHitIndex = INDEX_NONE then
        -- First non-overlapping blocking hit should be used, if an overlapping hit was not.
        HitIdx
      else
        SelectBlockingHit w NewDelta rest (HitIdx + 1) BlockingHitIndex BlockingHitNormalDotDelta
    else
      SelectBlockingHit w NewDelta rest (HitIdx + 1) BlockingHitIndex BlockingHitNormalDotDelta

end SimulateProneComponent

/-- The hits of the sweep after the pull-back loop of `SimulateProneComponent`
(cpp lines 1144-1151). -/
def PulledBackHits (w : FProneSweep) : List FHitResult :=
  if w.Hits.length > 0 then
    w.Hits.map (fun Hit => SimulateProneComponent.PullBackHit Hit w.NewDeltaSize)
  else w.Hits

/-- Method `UFPSCharacterMovementComponent::SimulateProneComponent` (cpp lines 1122-1207), from
the answer of the sweep on: the return value and the content of `*OutHit` after the call
(`OutHit` being its content before). -/
def SimulateProneComponent (w : FProneSweep) (NewDelta : FVector) (OutHit : FHitResult) :
    Bool × FHitResult :=
  let Hits := PulledBackHits w
  if w.bHadBlockingHit then
    let BlockingHitIndex :=
      SimulateProneComponent.SelectBlockingHit w NewDelta Hits 0 INDEX_NONE BIG_NUMBER
    -- Update blocking hit, if there was a valid one.
    if BlockingHitIndex ≥ 0 then
      let BlockingHit := Hits.getD BlockingHitIndex.toNat (FHitResult.Init 1)
      (false, BlockingHit)
    else (true, OutHit)
  else (true, OutHit)

end Prone

/-! ## Player variant (`src/Private/Player`, `src/Public/Player`) -/

namespace Player

/-- Enum `EMovementTransition` (header lines 35-41). -/
inductive EMovementTransition where
  | None
  | Stand_to_Crouch
  | Crouch_to_Stand
  deriving DecidableEq, Repr

/-- The fields `FSavedMove_Character_FPS` adds to the base saved move (header lines 43-56). -/
structure FSavedMove_Character_FPS where
  bSavedWantsToSprint : Bool
  SavedCapsuleHeight : ℚ
  SavedTransition : EMovementTransition
  deriving DecidableEq, Repr

/-- Method `FSavedMove_Character_FPS::GetCompressedFlags` (cpp lines 566-575); `SuperResult` is
the byte returned by `Super::GetCompressedFlags()`. -/
def GetCompressedFlags (SuperResult : ℕ) (m : FSavedMove_Character_FPS) : ℕ :=
  let Result := SuperResult
  let Result := if m.bSavedWantsToSprint then Result ||| FLAG_Custom_0 else Result
  Result

/-- Method `FSavedMove_Character_FPS::CanCombineWith` (cpp lines 577-589); `SuperResult` is the
answer of `Super::CanCombineWith(NewMove, Character, MaxDelta)`. -/
def CanCombineWith (SuperResult : Bool) (self NewMove : FSavedMove_Character_FPS) : Bool :=
  if self.bSavedWantsToSprint != NewMove.bSavedWantsToSprint then false
  else if self.SavedCapsuleHeight ≠ NewMove.SavedCapsuleHeight then false
  else if self.SavedTransition ≠ NewMove.SavedTransition then false
  else SuperResult

/-- The movement component with its `AFPSCharacterBase` owner, capsule and class default
object. -/
structure State where
  /-- Flag `CharacterOwner->bIsCrouched`. -/
  bIsCrouched : Bool
  /-- Flag `FPSCharacterOwner->bIsSprinting`. -/
  bIsSprinting : Bool
  /-- Flag `CharacterOwner->bPressedJump`. -/
  bPressedJump : Bool
  /-- Value of `CharacterOwner->Role`. -/
  Role : ENetRole
  BaseEyeHeight : ℚ
  DefaultEyeHeight : ℚ
  CrouchedEyeHeight : ℚ
  /-- Whether the owner's `CameraComponent` is non-null. -/
  bHasCameraComponent : Bool
  /-- Value of `CameraComponent->RelativeLocation`. -/
  CameraRelativeLocation : FVector
  /-- Whether `GetMesh() && DefaultChar->GetMesh()` holds. -/
  bHasMesh : Bool
  /-- Value of `GetMesh()->RelativeLocation.Z`. -/
  MeshRelativeLocationZ : ℚ
  /-- Value of `DefaultChar->GetMesh()->RelativeLocation.Z`. -/
  DefaultMeshRelativeLocationZ : ℚ
  /-- Value of `BaseTranslationOffset.Z`. -/
  BaseTranslationOffsetZ : ℚ
  /-- Value of `DefaultChar->GetBaseTranslationOffset().Z`. -/
  DefaultBaseTranslationOffsetZ : ℚ
  /-- The owner's capsule component. -/
  Capsule : UCapsuleComponent
  /-- The capsule of the class default object (`DefaultCharacter`). -/
  DefaultCapsule : UCapsuleComponent
  /-- Arguments of the `CapsuleAdjusted` invocations so far, oldest first. -/
  CapsuleAdjustedCalls : List (ℚ × ℚ)
  /-- Value of `UpdatedComponent->GetComponentLocation()`. -/
  Location : FVector
  CurrentTransition : EMovementTransition
  InternalCapsuleHeight : ℚ
  bWantsToSprint : Bool
  bWantsToCrouch : Bool
  bCanSprint : Bool
  bCheckCrouch : Bool
  CrouchTime : ℚ
  CrouchedHalfHeight : ℚ
  bCrouchMaintainsBaseLocation : Bool
  bShrinkProxyCapsule : Bool
  bForceNextFloorCheck : Bool
  NetProxyShrinkRadius : ℚ
  NetProxyShrinkHalfHeight : ℚ
  CurrentFloor : FFindFloorResult
  /-- Field `MeshTranslationOffset` of the client prediction data. -/
  MeshTranslationOffset : FVector
  /-- Field `OriginalMeshTranslationOffset` of the client prediction data. -/
  OriginalMeshTranslationOffset : FVector
  MaxSprintSpeed : ℚ
  deriving DecidableEq, Repr

/-- Method `UFPSCharacterMovementComponent::UpdateFromCompressedFlags` (cpp lines 170-174);
`Super` is the effect of `Super::UpdateFromCompressedFlags(Flags)`. -/
def UpdateFromCompressedFlags (Super : ℕ → State → State) (Flags : ℕ) (s : State) : State :=
  let s := Super Flags s
  { s with bWantsToSprint := decide ((Flags &&& FLAG_Custom_0) ≠ 0) }

/-- Method `FSavedMove_Character_FPS::SetMoveFor` (cpp lines 591-601): the fields read from the
movement component `FPSMov` after `Super::SetMoveFor`, which fills the base fields only. -/
def SetMoveFor (FPSMov : State) (m : FSavedMove_Character_FPS) : FSavedMove_Character_FPS :=
  let m := { m with bSavedWantsToSprint := FPSMov.bWantsToSprint }
  let m := { m with SavedTransition := FPSMov.CurrentTransition }
  { m with SavedCapsuleHeight := FPSMov.InternalCapsuleHeight }

/-- Method `FSavedMove_Character_FPS::PrepMoveFor` (cpp lines 603-613); `Super` is the effect of
`Super::PrepMoveFor(Character)` on the component. -/
def PrepMoveFor (Super : State → State) (m : FSavedMove_Character_FPS) (FPSMov : State) : State :=
  let FPSMov := Super FPSMov
  let FPSMov := { FPSMov with bWantsToSprint := m.bSavedWantsToSprint }
  let FPSMov := { FPSMov with CurrentTransition := m.SavedTransition }
  { FPSMov with InternalCapsuleHeight := m.SavedCapsuleHeight }

/-- Engine method `IsCrouching()`: `CharacterOwner && CharacterOwner->bIsCrouched`. -/
def IsCrouching (s : State) : Bool := s.bIsCrouched

/-- Engine method `AdjustProxyCapsuleSize` on the component state. -/
def AdjustProxyCapsuleSize (s : State) : State :=
  let r := AdjustProxyCapsuleSizeOn s.bShrinkProxyCapsule s.Role s.NetProxyShrinkRadius
    s.NetProxyShrinkHalfHeight s.Capsule
  { s with bShrinkProxyCapsule := r.1, Capsule := r.2 }

/-- Method `AFPSCharacterBase::RecalculateBaseEyeHeight` (FPSCharacterBase.cpp lines 168-187). -/
def RecalculateBaseEyeHeight (s : State) : State :=
  if ¬ s.bHasCameraComponent then s
  else
    let ComponentScale := s.Capsule.GetShapeScale
    let OldUnscaledHalfHeight := s.Capsule.GetUnscaledCapsuleHalfHeight
    let HalfHeightAdjust := OldUnscaledHalfHeight - s.InternalCapsuleHeight
    let ScaledHalfHeightAdjust := HalfHeightAdjust * ComponentScale
    let NewRelativeLoc :=
      if s.bCrouchMaintainsBaseLocation then s.BaseEyeHeight - ScaledHalfHeightAdjust
      else s.BaseEyeHeight
    { s with CameraRelativeLocation := ⟨0, 0, NewRelativeLoc⟩ }

/-- Method `AFPSCharacterBase::CapsuleAdjusted` (FPSCharacterBase.cpp lines 189-203); the
invocation is appended to `CapsuleAdjustedCalls`. -/
def CapsuleAdjusted (HalfHeightAdjust ScaledHalfHeightAdjust : ℚ) (s : State) : State :=
  let s := { s with CapsuleAdjustedCalls :=
                      s.CapsuleAdjustedCalls ++ [(HalfHeightAdjust, ScaledHalfHeightAdjust)] }
  let s := RecalculateBaseEyeHeight s
  if s.bHasMesh then
    let s := { s with MeshRelativeLocationZ := s.DefaultMeshRelativeLocationZ + HalfHeightAdjust }
    { s with BaseTranslationOffsetZ := s.MeshRelativeLocationZ }
  else
    { s with BaseTranslationOffsetZ := s.DefaultBaseTranslationOffsetZ + HalfHeightAdjust }

/-- Method `UFPSCharacterMovementComponent::ShrinkCapsule` (cpp lines 326-393). -/
def ShrinkCapsule (env : Env) (NewUnscaledHalfHeight : ℚ) (bClientSimulation : Bool)
    (s : State) : Bool × State :=
  -- Change collision size to crouching dimensions
  let ComponentScale := s.Capsule.GetShapeScale
  let OldUnscaledHalfHeight := s.Capsule.GetUnscaledCapsuleHalfHeight
  let OldUnscaledRadius := s.Capsule.GetUnscaledCapsuleRadius
  let s : State :=
    { s with Capsule := s.Capsule.SetCapsuleSize OldUnscaledRadius NewUnscaledHalfHeight }
  let HalfHeightAdjust := OldUnscaledHalfHeight - NewUnscaledHalfHeight
  let ScaledHalfHeightAdjust := HalfHeightAdjust * ComponentScale
  -- Crouching to a larger height? If encroached, cancel
  if ¬ bClientSimulation ∧ NewUnscaledHalfHeight > OldUnscaledHalfHeight ∧
      env.OverlapBlockingTestByChannel (s.Location.sub ⟨0, 0, ScaledHalfHeightAdjust⟩)
        (GetPawnCapsuleCollisionShape EShrinkCapsuleExtent.SHRINK_None 0 s.Capsule) then
    (false, { s with Capsule := s.Capsule.SetCapsuleSize OldUnscaledRadius OldUnscaledHalfHeight })
  else
    let s : State := if ¬ bClientSimulation ∧ s.bCrouchMaintainsBaseLocation then
        { s with Location := MoveComponentSweep env s.Location ⟨0, 0, -ScaledHalfHeightAdjust⟩ }
      else s
    let s : State := { s with bForceNextFloorCheck := true }
    -- CapsuleAdjusted takes the change from the Default size, not the current one
    let MeshAdjust := ScaledHalfHeightAdjust
    let HalfHeightAdjust := s.DefaultCapsule.GetUnscaledCapsuleHalfHeight - NewUnscaledHalfHeight
    let ScaledHalfHeightAdjust := HalfHeightAdjust * ComponentScale
    let s := AdjustProxyCapsuleSize s
    let s := CapsuleAdjusted HalfHeightAdjust ScaledHalfHeightAdjust s
    -- Don't smooth this change in mesh position
    if bClientSimulation ∧ s.Role = ENetRole.ROLE_SimulatedProxy
        ∧ s.MeshTranslationOffset.Z ≠ 0 then
      let off := s.MeshTranslationOffset.sub ⟨0, 0, MeshAdjust⟩
      (true, { s with MeshTranslationOffset := off, OriginalMeshTranslationOffset := off })
    else (true, s)

/-- Method `UFPSCharacterMovementComponent::ExpandCapsule` (cpp lines 395-531). -/
def ExpandCapsule (env : Env) (NewUnscaledHalfHeight : ℚ) (bClientSimulation : Bool)
    (s : State) : Bool × State :=
  let CurrentHalfHeight := s.Capsule.GetScaledCapsuleHalfHeight
  let ComponentScale := s.Capsule.GetShapeScale
  let OldUnscaledHalfHeight := s.Capsule.GetUnscaledCapsuleHalfHeight
  -- calculate the amount to increase by
  let HalfHeightAdjust := NewUnscaledHalfHeight - OldUnscaledHalfHeight
  let ScaledHalfHeightAdjust := HalfHeightAdjust * ComponentScale
  let PawnLocation := s.Location
  -- first component: the final value of bEncroached (false on the client-simulation path)
  let r : Bool × State :=
    if ¬ bClientSimulation then
      -- Try to stay in place and see if the larger capsule fits.
      let SweepInflation := FMath.KINDA_SMALL_NUMBER * 10
      let StandingCapsuleShape := GetPawnCapsuleCollisionShape
        EShrinkCapsuleExtent.SHRINK_HeightCustom (-SweepInflation - ScaledHalfHeightAdjust) s.Capsule
      if ¬ s.bCrouchMaintainsBaseLocation then
        -- Expand in place
        let bEncroached := env.OverlapBlockingTestByChannel PawnLocation StandingCapsuleShape
        if bEncroached then
          -- Try adjusting capsule position to see if we can avoid encroachment.
          if ScaledHalfHeightAdjust > 0 then
            let PawnRadius := s.Capsule.GetScaledCapsuleRadius
            let PawnHalfHeight := s.Capsule.GetScaledCapsuleHalfHeight
            let ShrinkHalfHeight := PawnHalfHeight - PawnRadius
            let TraceDist := PawnHalfHeight - ShrinkHalfHeight
            let Down : FVector := ⟨0, 0, -TraceDist⟩
            let ShortCapsuleShape := GetPawnCapsuleCollisionShape
              EShrinkCapsuleExtent.SHRINK_HeightCustom ShrinkHalfHeight s.Capsule
            let Hit := env.SweepSingleByChannel PawnLocation (PawnLocation.add Down)
              ShortCapsuleShape
            if Hit.bStartPenetrating then (true, s)
            else
              -- Compute where the base of the sweep ended up, and see if we can stand there
              let DistanceToBase := Hit.Time * TraceDist + ShortCapsuleShape.HalfHeight
              let NewLoc : FVector := ⟨PawnLocation.X, PawnLocation.Y,
                PawnLocation.Z - DistanceToBase + StandingCapsuleShape.HalfHeight
                  + SweepInflation + MIN_FLOOR_DIST / 2⟩
              let bEncroached := env.OverlapBlockingTestByChannel NewLoc StandingCapsuleShape
              if ¬ bEncroached then
                (false, { s with Location := s.Location.add (NewLoc.sub PawnLocation) })
              else (true, s)
          else (true, s)
        else (false, s)
      else
        -- Expand while keeping base location the same.
        let StandingLocation : FVector :=
          PawnLocation.add ⟨0, 0, StandingCapsuleShape.HalfHeight - CurrentHalfHeight⟩
        let bEncroached := env.OverlapBlockingTestByChannel StandingLocation StandingCapsuleShape
        let MinFloorDist := FMath.KINDA_SMALL_NUMBER * 10
        let q : Bool × FVector :=
          if bEncroached ∧ env.IsMovingOnGround ∧ s.CurrentFloor.bBlockingHit
              ∧ s.CurrentFloor.FloorDist > MinFloorDist then
            -- Something might be just barely overhead, try moving down closer to the floor.
            let Lowered : FVector := { StandingLocation with
              Z := StandingLocation.Z - (s.CurrentFloor.FloorDist - MinFloorDist) }
            (env.OverlapBlockingTestByChannel Lowered StandingCapsuleShape, Lowered)
          else (bEncroached, StandingLocation)
        if ¬ q.1 then
          -- Commit the change in location.
          (false, { s with Location := s.Location.add (q.2.sub PawnLocation),
                           bForceNextFloorCheck := true })
        else (true, s)
    else (false, { s with bShrinkProxyCapsule := true })
  -- If still encroached then abort.
  if r.1 then (false, r.2)
  else
    let s := r.2
    -- Now call SetCapsuleSize() to actually grow the capsule
    let s : State := { s with Capsule :=
      s.Capsule.SetCapsuleSize s.DefaultCapsule.GetUnscaledCapsuleRadius NewUnscaledHalfHeight }
    let MeshAdjust := ScaledHalfHeightAdjust
    let s := AdjustProxyCapsuleSize s
    let s := CapsuleAdjusted HalfHeightAdjust ScaledHalfHeightAdjust s
    -- Don't smooth this change in mesh position
    if bClientSimulation ∧ s.Role = ENetRole.ROLE_SimulatedProxy
        ∧ s.MeshTranslationOffset.Z ≠ 0 then
      let off := s.MeshTranslationOffset.add ⟨0, 0, MeshAdjust⟩
      (true, { s with MeshTranslationOffset := off, OriginalMeshTranslationOffset := off })
    else (true, s)

/-- Method `UFPSCharacterMovementComponent::Crouch` (cpp lines 181-248). A division by a zero
`CrouchTime` or by a zero height difference yields 0. -/
def Crouch (env : Env) (bClientSimulation : Bool) (DeltaTime : ℚ) (s : State) : State :=
  if ¬ env.HasValidData then s
  else if ¬ bClientSimulation ∧ ¬ env.CanCrouchInCurrentState then s
  -- So we can force the player the crouch
  else if ¬ s.bCheckCrouch ∧ bClientSimulation then s
  else
    -- restore collision size before crouching
    let s : State := if bClientSimulation ∧ s.Role = ENetRole.ROLE_SimulatedProxy then
        { s with Capsule := s.Capsule.SetCapsuleSize s.DefaultCapsule.GetUnscaledCapsuleRadius
                   s.DefaultCapsule.GetUnscaledCapsuleHalfHeight,
                 bShrinkProxyCapsule := true }
      else s
    let s : State := if ¬ bClientSimulation then { s with bIsCrouched := true } else s
    -- The radius before we change anything
    let OldUnscaledRadius := s.Capsule.GetUnscaledCapsuleRadius
    let DefaultStandingHalfHeight := s.DefaultCapsule.GetUnscaledCapsuleHalfHeight
    let InterpSpeed := (DefaultStandingHalfHeight - s.CrouchedHalfHeight) / s.CrouchTime
    let r : ℚ × State :=
      if s.CurrentTransition = EMovementTransition.Stand_to_Crouch
          ∨ s.CurrentTransition = EMovementTransition.Crouch_to_Stand
          ∨ (IsCrouching s ∧ s.CurrentTransition = EMovementTransition.None) then
        ((DefaultStandingHalfHeight - s.CrouchedHalfHeight) / s.CrouchTime,
         { s with CurrentTransition := EMovementTransition.Stand_to_Crouch })
      else (InterpSpeed, s)
    let InterpSpeed := r.1
    let s := r.2
    let ClampedCharacterHalfHeight := FMath.Max3 0 OldUnscaledRadius
      (FMath.FInterpConstantTo s.InternalCapsuleHeight s.CrouchedHalfHeight DeltaTime InterpSpeed)
    let s : State := { s with InternalCapsuleHeight := ClampedCharacterHalfHeight }
    let s : State := if s.CurrentTransition = EMovementTransition.Stand_to_Crouch then
        let NormalisedAlpha := (DefaultStandingHalfHeight - s.InternalCapsuleHeight)
          / (DefaultStandingHalfHeight - s.CrouchedHalfHeight)
        { s with BaseEyeHeight :=
                   FMath.Lerp s.DefaultEyeHeight s.CrouchedEyeHeight NormalisedAlpha }
      else s
    -- Shrink the capsule if we are fully crouched
    if ClampedCharacterHalfHeight ≠ s.CrouchedHalfHeight then
      RecalculateBaseEyeHeight s
    else
      let s := (ShrinkCapsule env s.CrouchedHalfHeight bClientSimulation s).2
      { s with CurrentTransition := EMovementTransition.None, bCheckCrouch := false }

/-- Method `UFPSCharacterMovementComponent::UnCrouch` (cpp lines 250-324). A division by a zero
`CrouchTime` or by a zero height difference yields 0. -/
def UnCrouch (env : Env) (bClientSimulation : Bool) (DeltaTime : ℚ) (s : State) : State :=
  if ¬ env.HasValidData then s
  -- This might be called when !CanCrouchInCurrentState(), which wouldn't set bCheckCrouch
  else if ¬ s.bCheckCrouch ∧ bClientSimulation then s
  else
    -- first component: did the function return because the un-crouch is blocked?
    let r : Bool × State :=
      if ¬ bClientSimulation ∧ s.bIsCrouched then
        let e := ExpandCapsule env s.DefaultCapsule.GetUnscaledCapsuleHalfHeight bClientSimulation s
        if e.1 then (false, { e.2 with bIsCrouched := false })
        else (true, e.2)
      else if bClientSimulation ∧ ¬ s.bIsCrouched then
        (false, (ExpandCapsule env s.DefaultCapsule.GetUnscaledCapsuleHalfHeight
          bClientSimulation s).2)
      else (false, s)
    if r.1 then r.2
    else
      let s := r.2
      let OldUnscaledRadius := s.Capsule.GetUnscaledCapsuleRadius
      let DefaultStandingHalfHeight := s.DefaultCapsule.GetUnscaledCapsuleHalfHeight
      let InterpSpeed := (DefaultStandingHalfHeight - s.CrouchedHalfHeight) / s.CrouchTime
      let r : ℚ × State :=
        if s.CurrentTransition = EMovementTransition.Stand_to_Crouch
            ∨ s.CurrentTransition = EMovementTransition.Crouch_to_Stand
            ∨ (¬ IsCrouching s ∧ s.CurrentTransition = EMovementTransition.None) then
          ((DefaultStandingHalfHeight - s.CrouchedHalfHeight) / s.CrouchTime,
           { s with CurrentTransition := EMovementTransition.Crouch_to_Stand })
        else (InterpSpeed, s)
      let InterpSpeed := r.1
      let s := r.2
      let ClampedCharacterHalfHeight := FMath.Max3 0 OldUnscaledRadius
        (FMath.FInterpConstantTo s.InternalCapsuleHeight DefaultStandingHalfHeight DeltaTime
          InterpSpeed)
      let s : State := { s with InternalCapsuleHeight := ClampedCharacterHalfHeight }
      let s : State := if s.CurrentTransition = EMovementTransition.Crouch_to_Stand then
          let NormalisedAlpha := (s.InternalCapsuleHeight - s.CrouchedHalfHeight)
            / (DefaultStandingHalfHeight - s.CrouchedHalfHeight)
          { s with BaseEyeHeight :=
                     FMath.Lerp s.CrouchedEyeHeight s.DefaultEyeHeight NormalisedAlpha }
        else s
      if ClampedCharacterHalfHeight ≠ DefaultStandingHalfHeight then
        RecalculateBaseEyeHeight s
      else
        { s with CurrentTransition := EMovementTransition.None, bCheckCrouch := false }

/-- The state after `n` successive `Crouch(bClientSimulation, DeltaTime)` calls. -/
def CrouchN (env : Env) (bClientSimulation : Bool) (DeltaTime : ℚ) : ℕ → State → State
  | 0, s => s
  | n + 1, s => Crouch env bClientSimulation DeltaTime (CrouchN env bClientSimulation DeltaTime n s)

/-- The state after successive `UnCrouch(bClientSimulation, dt)` calls, one per element of
`dts`, in order. -/
def UnCrouchSeq (env : Env) (bClientSimulation : Bool) (dts : List ℚ) (s : State) : State :=
  dts.foldl (fun acc dt => UnCrouch env bClientSimulation dt acc) s

/-- Method `UFPSCharacterMovementComponent::IsSprinting` (cpp lines 176-179). -/
def IsSprinting (s : State) : Bool := s.bIsSprinting

/-- Method `UFPSCharacterMovementComponent::GetMaxSpeed` (cpp lines 49-56). -/
def GetMaxSpeed (env : Env) (s : State) : ℚ :=
  let MaxSpeed := env.SuperGetMaxSpeed
  if IsSprinting s then s.MaxSprintSpeed else MaxSpeed

/-- Method `UFPSCharacterMovementComponent::IsMovingForward` (cpp lines 116-132). The literal
`0.7071f` is the binary32 value `11863169 / 2 ^ 24`, about 0.70709997. -/
def IsMovingForward (env : Env) : Bool :=
  if ¬ env.bHasController then false
  else
    let DirectionDot := env.DirectionDot
    if DirectionDot < 11863169 / 16777216 then false else true

/-- Method `UFPSCharacterMovementComponent::UpdateCharacterStateBeforeMovement`
(cpp lines 71-114): the state after the call and the `Crouch` / `UnCrouch` invocations it
made, in order. -/
def UpdateCharacterStateBeforeMovement (env : Env) (DeltaSeconds : ℚ) (s : State) :
    State × List TransitionCall :=
  let bIsCrouching := IsCrouching s
  let bIsSprinting := IsSprinting s
  let bPressedJump := s.bPressedJump
  let s : State := if bPressedJump ∧ (s.CurrentTransition ≠ EMovementTransition.None
        ∨ bIsCrouching) then
      { s with bPressedJump := false, bWantsToCrouch := false, bCheckCrouch := true }
    else s
  let bIsMovingForward := IsMovingForward env
  let s : State :=
    if bIsSprinting ∧ (¬ s.bWantsToSprint ∨ ¬ env.IsMovingOnGround ∨ ¬ bIsMovingForward
        ∨ ¬ s.bCanSprint ∨ s.bWantsToCrouch) then
      let s : State := { s with bIsSprinting := false }
      if s.bWantsToCrouch then { s with bWantsToSprint := false } else s
    else if bIsMovingForward ∧ s.bWantsToSprint ∧ env.IsMovingOnGround ∧ s.bCanSprint then
      let s : State := { s with bWantsToCrouch := false }
      if s.CurrentTransition = EMovementTransition.None ∧ ¬ bIsCrouching then
        { s with bIsSprinting := true }
      else s
    else s
  if env.CanCrouchInCurrentState ∧ s.bWantsToCrouch
      ∧ ¬ (bIsCrouching ∧ s.CurrentTransition = EMovementTransition.None) then
    (Crouch env false DeltaSeconds s, [TransitionCall.Crouch false DeltaSeconds])
  -- we want to carry on with prone if we press crouch and we can't crouch at this time
  else if ¬ env.CanCrouchInCurrentState ∨ s.bWantsToSprint
      ∨ (¬ s.bWantsToCrouch ∧ (bIsCrouching ∨ s.CurrentTransition ≠ EMovementTransition.None)) then
    (UnCrouch env false DeltaSeconds s, [TransitionCall.UnCrouch false DeltaSeconds])
  else (s, [])

end Player

/-- The intent and sprint flags of two states agree: the fields that `Crouch`, `UnCrouch` and
their helpers never write. -/
def Player.SameIntent (a b : Player.State) : Prop :=
  a.bWantsToCrouch = b.bWantsToCrouch ∧ a.bWantsToSprint = b.bWantsToSprint
    ∧ a.bPressedJump = b.bPressedJump ∧ a.bIsSprinting = b.bIsSprinting
    ∧ a.bCanSprint = b.bCanSprint

/-- The first part of `UpdateCharacterStateBeforeMovement` (Player variant, cpp lines 76-102):
the state after the jump rule and the sprint rules, before the crouch dispatch of
lines 104-113. -/
def Player.StateAfterJumpAndSprintRules (env : Env) (s : Player.State) : Player.State :=
  let bIsCrouching := Player.IsCrouching s
  let bIsSprinting := Player.IsSprinting s
  let bPressedJump := s.bPressedJump
  let s : Player.State :=
    if bPressedJump ∧ (s.CurrentTransition ≠ Player.EMovementTransition.None
        ∨ bIsCrouching) then
      { s with bPressedJump := false, bWantsToCrouch := false, bCheckCrouch := true }
    else s
  let bIsMovingForward := Player.IsMovingForward env
  if bIsSprinting ∧ (¬ s.bWantsToSprint ∨ ¬ env.IsMovingOnGround ∨ ¬ bIsMovingForward
      ∨ ¬ s.bCanSprint ∨ s.bWantsToCrouch) then
    let s : Player.State := { s with bIsSprinting := false }
    if s.bWantsToCrouch then { s with bWantsToSprint := false } else s
  else if bIsMovingForward ∧ s.bWantsToSprint ∧ env.IsMovingOnGround ∧ s.bCanSprint then
    let s : Player.State := { s with bWantsToCrouch := false }
    if s.CurrentTransition = Player.EMovementTransition.None ∧ ¬ bIsCrouching then
      { s with bIsSprinting := true }
    else s
  else s

/-- State `a` has the sprint flags of state `b`, except that sprint intent may have been
dropped: what `Crouch` and `UnCrouch` of the prone-supporting variant do to these flags. -/
def Prone.SprintFrame (a b : Prone.State) : Prop :=
  a.bIsSprinting = b.bIsSprinting ∧ a.bCanSprint = b.bCanSprint
    ∧ (a.bWantsToSprint = true → b.bWantsToSprint = true)

/-- Engine helper `FMath::Min`. -/
def FMath.Min (A B : ℚ) : ℚ := if A ≤ B then A else B

/-- Engine method `FVector::IsZero`. -/
def FVector.IsZero (a : FVector) : Bool := decide (a.X = 0 ∧ a.Y = 0 ∧ a.Z = 0)

/-- Method `UFPSCharacterMovementComponent::OnRep_OnCapsuleHalfHeight` (cpp lines 484-499): the
state after the call and the `Crouch` / `UnCrouch` invocations it made, in order; `DeltaTime`
takes its default value 0. -/
def Prone.OnRep_OnCapsuleHalfHeight (env : Env) (s : Prone.State) :
    Prone.State × List TransitionCall :=
  let r : Prone.State × List TransitionCall :=
    if s.CurrentMovementChange = Prone.EMovementChange.STAND_TO_CROUCH ∧ ¬ s.bIsCrouched then
      let s : Prone.State := { s with bWantsToCrouch := true }
      (Prone.Crouch env true 0 s, [TransitionCall.Crouch true 0])
    else if s.CurrentMovementChange = Prone.EMovementChange.CROUCH_TO_STAND then
      let s : Prone.State := { s with bWantsToCrouch := false }
      (Prone.UnCrouch env true 0 s, [TransitionCall.UnCrouch true 0])
    else (s, [])
  ({ r.1 with bNetworkUpdateReceived := true }, r.2)

/-- What `ResolvePronePenetrationImpl` reads from its surroundings: the constrained vectors,
the three pointers it tests, the answer of the overlap test and the answers of its swept
`MoveProneComponent` calls (made with `MOVECOMP_NeverIgnoreBlockingOverlaps` cleared). -/
structure Prone.FPenetrationQuery where
  /-- Value of `ConstrainDirectionToPlane(ProposedAdjustment)`. -/
  Adjustment : FVector
  /-- Whether `UpdatedPrimitive` is non-null. -/
  bUpdatedPrimitive : Bool
  /-- Whether `ProneComponent` is non-null. -/
  bProneComponent : Bool
  /-- Whether `UpdatedComponent->GetOwner()` is non-null. -/
  bActorOwner : Bool
  /-- Answer of `OverlapTest(Hit.TraceStart + Adjustment, ...)`. -/
  bEncroached : Bool
  /-- Return value and `SweepOutHit` of the swept `MoveProneComponent(Adjustment, ...)`. -/
  SweepByAdjustment : Bool × FHitResult
  /-- Value of `GetPenetrationAdjustment(SweepOutHit)`. -/
  SecondMTD : FVector
  /-- Return value of the swept `MoveProneComponent(CombinedMTD, ...)`. -/
  SweepByCombinedMTD : FVector → Bool
  /-- Value of `ConstrainDirectionToPlane(Hit.TraceEnd - Hit.TraceStart)`. -/
  MoveDelta : FVector
  /-- Return value of the swept `MoveProneComponent(Adjustment + MoveDelta, ...)`. -/
  SweepByAdjustedMove : FVector → Bool

/-- Method `UFPSCharacterMovementComponent::ResolvePronePenetrationImpl` (cpp lines 1228-1304):
the return value and the `MoveProneComponent` calls made, in order, each with its delta and
its `bSweep` argument. -/
def Prone.ResolvePronePenetrationImpl (q : Prone.FPenetrationQuery) :
    Bool × List (FVector × Bool) :=
  let Adjustment := q.Adjustment
  if ¬ Adjustment.IsZero ∧ q.bUpdatedPrimitive ∧ q.bProneComponent then
    -- See if we can fit at the adjusted location without overlapping anything.
    if ¬ q.bActorOwner then (false, [])
    else
      let bEncroached := q.bEncroached
      if ¬ bEncroached then
        -- Move without sweeping.
        (true, [(Adjustment, false)])
      else
        -- Try sweeping as far as possible...
        let bMoved := q.SweepByAdjustment.1
        let SweepOutHit := q.SweepByAdjustment.2
        let r : Bool × List (FVector × Bool) := (bMoved, [(Adjustment, true)])
        -- Still stuck?
        let r : Bool × List (FVector × Bool) :=
          if ¬ r.1 ∧ SweepOutHit.bStartPenetrating then
            -- Combine two MTD results to get a new direction that gets out of multiple surfaces.
            let SecondMTD := q.SecondMTD
            let CombinedMTD := Adjustment.add SecondMTD
            if SecondMTD ≠ Adjustment ∧ ¬ CombinedMTD.IsZero then
              (q.SweepByCombinedMTD CombinedMTD, r.2 ++ [(CombinedMTD, true)])
            else r
          else r
        -- Still stuck?
        if ¬ r.1 then
          -- Try moving the proposed adjustment plus the attempted move direction.
          let MoveDelta := q.MoveDelta
          if ¬ MoveDelta.IsZero then
            (q.SweepByAdjustedMove (Adjustment.add MoveDelta),
              r.2 ++ [(Adjustment.add MoveDelta, true)])
          else r
        else r
  else (false, [])

/-- Method `UFPSCharacterMovementComponent::ResolvePronePenetration` (cpp lines 1211-1216): the
return value, the state after the call and the `MoveProneComponent` calls made. -/
def Prone.ResolvePronePenetration (q : Prone.FPenetrationQuery) (s : Prone.State) :
    Bool × Prone.State × List (FVector × Bool) :=
  let r := Prone.ResolvePronePenetrationImpl q
  let s : Prone.State := { s with bJustTeleported := s.bJustTeleported || r.1 }
  (s.bJustTeleported, s, r.2)

/-- The state after `n` successive `Crouch(bClientSimulation, DeltaTime)` calls of the
prone-supporting variant. -/
def Prone.CrouchN (env : Env) (bClientSimulation : Bool) (DeltaTime : ℚ) :
    ℕ → Prone.State → Prone.State
  | 0, s => s
  | n + 1, s =>
    Prone.Crouch env bClientSimulation DeltaTime (Prone.CrouchN env bClientSimulation DeltaTime n s)

/-- The state after `n` successive `UnCrouch(bClientSimulation, DeltaTime)` calls of the
prone-supporting variant. -/
def Prone.UnCrouchN (env : Env) (bClientSimulation : Bool) (DeltaTime : ℚ) :
    ℕ → Prone.State → Prone.State
  | 0, s => s
  | n + 1, s =>
    Prone.UnCrouch env bClientSimulation DeltaTime
      (Prone.UnCrouchN env bClientSimulation DeltaTime n s)

namespace F32

/-- Rounding of a rational to the nearest integer, ties to the even one. -/
def roundHalfEven (q : ℚ) : ℤ :=
  if q - ⌊q⌋ < 1 / 2 then ⌊q⌋
  else if 1 / 2 < q - ⌊q⌋ then ⌊q⌋ + 1
  else if ⌊q⌋ % 2 = 0 then ⌊q⌋ else ⌊q⌋ + 1

/-- Search for the binary exponent of `a`: the first `k` from `e` on with `a < 2 ^ (k + 1)`,
giving up after `n` steps. -/
def expoFrom : ℕ → ℤ → ℚ → ℤ
  | 0, e, _ => e
  | n + 1, e, a => if a < 2 ^ (e + 1) then e else expoFrom n (e + 1) a

/-- Exponent of the unit in the last place of `x`: `floor (log2 |x|) - 23`, where the binary
exponent is kept within the normal range `-126 .. 127` of binary32 (below it the spacing is
that of the subnormal numbers, `2 ^ (-149)`). -/
def ulpExp (x : ℚ) : ℤ := expoFrom 253 (-126) |x| - 23

/-- Rounding of a non-negative rational to 24 significant bits. -/
def roundAbs (a : ℚ) : ℚ := roundHalfEven (a / 2 ^ ulpExp a) * 2 ^ ulpExp a

/-- Rounding to the nearest binary32 value, ties to even. -/
def round (x : ℚ) : ℚ := if x < 0 then - roundAbs (-x) else roundAbs x

/-- The rational `x` is a binary32 value. -/
@[reducible] def IsFloat (x : ℚ) : Prop := round x = x

/-- Binary32 sum. -/
def add (a b : ℚ) : ℚ := round (a + b)
/-- Binary32 difference. -/
def sub (a b : ℚ) : ℚ := round (a - b)
/-- Binary32 product. -/
def mul (a b : ℚ) : ℚ := round (a * b)
/-- Binary32 quotient (of a non-zero divisor). -/
def div (a b : ℚ) : ℚ := round (a / b)

/-- Engine constant `SMALL_NUMBER`: the binary32 value of the literal `1.e-8f`. -/
def SMALL_NUMBER : ℚ := round (1 / 100000000)

/-- Engine helper `FMath::Square` in binary32. -/
def Square (A : ℚ) : ℚ := mul A A

/-- Engine helper `FMath::Lerp` in binary32: `A + Alpha * (B - A)`. -/
def Lerp (A B Alpha : ℚ) : ℚ := add A (mul Alpha (sub B A))

/-- Engine helper `FMath::FInterpConstantTo` in binary32. -/
def FInterpConstantTo (Current Target DeltaTime InterpSpeed : ℚ) : ℚ :=
  let Dist := sub Target Current
  if Square Dist < SMALL_NUMBER then Target
  else
    let Step := mul InterpSpeed DeltaTime
    add Current (FMath.Clamp Dist (-Step) Step)

end F32

/-! ## The tracked half-height in binary32

The part of `Crouch` and `UnCrouch` that computes the new tracked half-height (and, in the
Player variant, the transition it leaves), with every arithmetic operation rounded to
binary32. The expressions are those of the definitions above, where the operations are
exact (for the full embedding they are isolated by `Player.Crouch_local_eq`,
`Player.CrouchN_track`, `Player.UnCrouch_local_track`, `Prone.Crouch_prone_track` and
`Prone.UnCrouch_prone_track`); comparisons, `Clamp` and `Max3` round nothing. -/

/-- Player variant, accepted local `Crouch` (cpp lines 213-247): the value stored in
`InternalCapsuleHeight` and the transition left, in binary32. `R` is `OldUnscaledRadius`, `H`
the standing half-height of the default capsule, `C` is `CrouchedHalfHeight`, `T` is
`CrouchTime` and `h` is `InternalCapsuleHeight` before the call. -/
def Player.CrouchTrackF32 (R H C T DeltaTime h : ℚ) : ℚ × Player.EMovementTransition :=
  let InterpSpeed := F32.div (F32.sub H C) T
  let ClampedCharacterHalfHeight :=
    FMath.Max3 0 R (F32.FInterpConstantTo h C DeltaTime InterpSpeed)
  (ClampedCharacterHalfHeight,
    if ClampedCharacterHalfHeight ≠ C then Player.EMovementTransition.Stand_to_Crouch
    else Player.EMovementTransition.None)

/-- Player variant: `InternalCapsuleHeight` after `n` accepted local `Crouch` calls with the
same `DeltaTime`, in binary32, starting from the height `h`. -/
def Player.CrouchHeightNF32 (R H C T DeltaTime : ℚ) (n : ℕ) (h : ℚ) : ℚ :=
  (fun x => (Player.CrouchTrackF32 R H C T DeltaTime x).1)^[n] h

/-- Player variant: `CurrentTransition` after the `n`-th of these calls (`n ≥ 1`). -/
def Player.CrouchTransitionNF32 (R H C T DeltaTime : ℚ) (n : ℕ) (h : ℚ) :
    Player.EMovementTransition :=
  (Player.CrouchTrackF32 R H C T DeltaTime
    (Player.CrouchHeightNF32 R H C T DeltaTime (n - 1) h)).2

/-- Prone-supporting variant, accepted local `Crouch` step (cpp lines 231-234): the new
`CurrentCrouchAlpha` and the value stored in `CurrentCapsuleHalfHeight`, in binary32. `Alpha`
is `CurrentCrouchAlpha` after the reset of cpp lines 223-229, if that applies. -/
def Prone.CrouchTrackF32 (R H C T DeltaTime Alpha : ℚ) : ℚ × ℚ :=
  let CurrentCrouchAlpha := FMath.Clamp (F32.add Alpha (F32.div DeltaTime T)) 0 1
  (CurrentCrouchAlpha, FMath.Max3 0 R (F32.Lerp H C CurrentCrouchAlpha))

/-- World in which the component data is valid, crouching is allowed and nothing encroaches:
every overlap test is clear, the downward sweep hits nothing, a swept move is never stopped. -/
def Env.Unobstructed : Env where
  HasValidData := true
  CanCrouchInCurrentState := true
  IsMovingOnGround := true
  OverlapBlockingTestByChannel := fun _ _ => false
  SweepSingleByChannel := fun _ _ _ => FHitResult.Init 1
  SweptMove := fun Start Delta => Start.add Delta
  bHasController := true
  DirectionDot := 1
  ActorForwardNormal := ⟨1, 0, 0⟩
  SuperGetMaxSpeed := 600
  SuperGetMaxAcceleration := 2048
  VelocitySize := 0
  SprintAccelerationCurve := fun _ => 1

/-- World in which every overlap test reports encroachment. -/
def Env.Blocked : Env where
  HasValidData := true
  CanCrouchInCurrentState := true
  IsMovingOnGround := true
  OverlapBlockingTestByChannel := fun _ _ => true
  SweepSingleByChannel := fun _ _ _ => FHitResult.Init 1
  SweptMove := fun Start Delta => Start.add Delta
  bHasController := true
  DirectionDot := 1
  ActorForwardNormal := ⟨1, 0, 0⟩
  SuperGetMaxSpeed := 600
  SuperGetMaxAcceleration := 2048
  VelocitySize := 0
  SprintAccelerationCurve := fun _ => 1

/-- Player variant: a locally controlled character standing still; standing half-height 88,
crouched half-height 60, radius 34, `CrouchTime` 2, eye heights 64 and 50. -/
def Player.Standing : Player.State where
  bIsCrouched := false
  bIsSprinting := false
  bPressedJump := false
  Role := ENetRole.ROLE_AutonomousProxy
  BaseEyeHeight := 64
  DefaultEyeHeight := 64
  CrouchedEyeHeight := 50
  bHasCameraComponent := true
  CameraRelativeLocation := ⟨0, 0, 64⟩
  bHasMesh := true
  MeshRelativeLocationZ := -88
  DefaultMeshRelativeLocationZ := -88
  BaseTranslationOffsetZ := -88
  DefaultBaseTranslationOffsetZ := -88
  Capsule := ⟨34, 88, 1⟩
  DefaultCapsule := ⟨34, 88, 1⟩
  CapsuleAdjustedCalls := []
  Location := ⟨0, 0, 90⟩
  CurrentTransition := Player.EMovementTransition.None
  InternalCapsuleHeight := 88
  bWantsToSprint := false
  bWantsToCrouch := true
  bCanSprint := true
  bCheckCrouch := false
  CrouchTime := 2
  CrouchedHalfHeight := 60
  bCrouchMaintainsBaseLocation := true
  bShrinkProxyCapsule := false
  bForceNextFloorCheck := false
  NetProxyShrinkRadius := 0
  NetProxyShrinkHalfHeight := 0
  CurrentFloor := ⟨true, 2⟩
  MeshTranslationOffset := ⟨0, 0, 0⟩
  OriginalMeshTranslationOffset := ⟨0, 0, 0⟩
  MaxSprintSpeed := 800

/-- Player variant: the same character fully crouched (capsule and tracked height at 60,
`bIsCrouched` set, no transition pending) and no longer wanting to crouch. -/
def Player.Crouched : Player.State :=
  { Player.Standing with
    bIsCrouched := true
    bWantsToCrouch := false
    BaseEyeHeight := 50
    CameraRelativeLocation := ⟨0, 0, 50⟩
    Capsule := ⟨34, 60, 1⟩
    Location := ⟨0, 0, 62⟩
    InternalCapsuleHeight := 60 }

/-- Prone-supporting variant: a locally controlled character a quarter of the way through a
stand-to-crouch transition (standing half-height 88, crouched half-height 50, `CrouchTime` 2). -/
def Prone.MidCrouch : Prone.State where
  bIsCrouched := false
  Role := ENetRole.ROLE_AutonomousProxy
  Capsule := ⟨34, 157 / 2, 1⟩
  DefaultCapsule := ⟨34, 88, 1⟩
  Calls := []
  Location := ⟨0, 0, 90⟩
  CurrentMovementChange := Prone.EMovementChange.STAND_TO_CROUCH
  CurrentCapsuleHalfHeight := 157 / 2
  CurrentCrouchAlpha := 1 / 4
  CrouchTime := 2
  CrouchedHalfHeight := 50
  bWantsToCrouch := true
  bWantsToSprint := false
  bWantsToProne := false
  bIsSprinting := false
  bCanSprint := true
  bIsProne := false
  bCrouchMaintainsBaseLocation := true
  bShrinkProxyCapsule := false
  bForceNextFloorCheck := false
  NetProxyShrinkRadius := 0
  NetProxyShrinkHalfHeight := 0
  CurrentFloor := ⟨true, 2⟩
  MeshTranslationOffset := ⟨0, 0, 0⟩
  OriginalMeshTranslationOffset := ⟨0, 0, 0⟩
  Acceleration := ⟨0, 0, 0⟩
  MaxWalkSpeedSprint := 800
  bJustTeleported := false
  bNetworkUpdateReceived := false

/-- Prone-supporting variant: the state `Prone.MidCrouch` with a different
`CurrentCrouchAlpha` (one fifth, the value a single `UnCrouch(false, 0.1)` step leaves behind
while the capsule stays at 78.5) and every other field the same. -/
def Prone.MidCrouchOtherAlpha : Prone.State :=
  { Prone.MidCrouch with CurrentCrouchAlpha := 1 / 5 }

/-- World in which crouching is currently not allowed. -/
def Env.NoCrouch : Env :=
  { Env.Unobstructed with CanCrouchInCurrentState := false }

/-- World in which the forward-alignment dot product is exactly `0.7071f`, the binary32 value
`11863169 / 2 ^ 24`. -/
def Env.AtThreshold : Env :=
  { Env.Unobstructed with DirectionDot := 11863169 / 16777216 }

/-- World in which the forward-alignment dot product is the binary32 value just below
`0.7071f`, `11863168 / 2 ^ 24`. -/
def Env.BelowThreshold : Env :=
  { Env.Unobstructed with DirectionDot := 11863168 / 16777216 }

/-- Player variant: the standing character wanting to sprint and not to crouch. -/
def Player.WantsSprint : Player.State :=
  { Player.Standing with bWantsToSprint := true, bWantsToCrouch := false }

/-- Player variant: the standing character sprinting while sprint is no longer wanted. -/
def Player.Sprinting : Player.State :=
  { Player.Standing with bIsSprinting := true, bWantsToCrouch := false }

/-- Player variant: the fully crouched character holding crouch with a jump pending. -/
def Player.CrouchedJump : Player.State :=
  { Player.Crouched with bPressedJump := true, bWantsToCrouch := true }

/-- Prone-supporting variant: the character standing (capsule at 88, no transition pending)
and sprinting while sprint is no longer wanted. -/
def Prone.Sprinting : Prone.State :=
  { Prone.MidCrouch with
    Capsule := ⟨34, 88, 1⟩
    CurrentMovementChange := Prone.EMovementChange.MOVE_CHANGE_NONE
    CurrentCapsuleHalfHeight := 88
    CurrentCrouchAlpha := 0
    bWantsToCrouch := false
    bIsSprinting := true }

/-- Prone-supporting variant: the capsule has reached the crouched half-height 50 while
`bIsCrouched` and `CurrentMovementChange` are still those of the transition. -/
def Prone.AtCrouchHeight : Prone.State :=
  { Prone.MidCrouch with
    Capsule := ⟨34, 50, 1⟩
    CurrentCapsuleHalfHeight := 50
    CurrentCrouchAlpha := 1 }

/-- Player variant: a simulated proxy at the end of a replicated crouch: `Crouch(true, dt)` has
restored the standing capsule and set `bShrinkProxyCapsule`; the shrink settings are the
engine defaults 0.01. -/
def Player.ProxyCrouching : Player.State :=
  { Player.Standing with
    Role := ENetRole.ROLE_SimulatedProxy
    bShrinkProxyCapsule := true
    NetProxyShrinkRadius := 1 / 100
    NetProxyShrinkHalfHeight := 1 / 100 }

/-- Prone-supporting variant: the character fully crouched (capsule and tracked height at 50,
alpha 1, `bIsCrouched` set, no transition pending) and no longer wanting to crouch. -/
def Prone.Crouched : Prone.State :=
  { Prone.AtCrouchHeight with
    bIsCrouched := true
    CurrentMovementChange := Prone.EMovementChange.MOVE_CHANGE_NONE
    bWantsToCrouch := false }

/-- A penetration query whose constrained adjustment is zero. -/
def Prone.ZeroAdjustment : Prone.FPenetrationQuery where
  Adjustment := ⟨0, 0, 0⟩
  bUpdatedPrimitive := true
  bProneComponent := true
  bActorOwner := true
  bEncroached := false
  SweepByAdjustment := (true, FHitResult.Init 1)
  SecondMTD := ⟨0, 0, 0⟩
  SweepByCombinedMTD := fun _ => true
  MoveDelta := ⟨1, 0, 0⟩
  SweepByAdjustedMove := fun _ => true

/-- A penetration query with adjustment `(0, 0, 1)` whose destination is clear. -/
def Prone.ClearAdjustment : Prone.FPenetrationQuery :=
  { Prone.ZeroAdjustment with Adjustment := ⟨0, 0, 1⟩ }

/-- Prone-supporting variant: the mid-crouch character with `bJustTeleported` already set. -/
def Prone.JustTeleported : Prone.State :=
  { Prone.MidCrouch with bJustTeleported := true }

/-- Prone-supporting variant: a replicated stand-to-crouch transition with `bIsCrouched`
already set. -/
def Prone.MidCrouchFlagged : Prone.State :=
  { Prone.MidCrouch with bIsCrouched := true }

/-- Prone-supporting variant: the sprinting character with the sprint setting at 2, inside
the range 1 to 10 that the property declares. -/
def Prone.SprintingFactorTwo : Prone.State :=
  { Prone.Sprinting with MaxWalkSpeedSprint := 2 }

/-- Player variant: the crouched character one local `UnCrouch` step of 1/2 s into standing
up in the unobstructed world (transition `Crouch_to_Stand`, tracked height 67). -/
def Player.StandingUp : Player.State :=
  Player.UnCrouch Env.Unobstructed false (1 / 2) Player.Crouched

/-- Player variant: the standing character one local `Crouch` step of 1/2 s into crouching in
the unobstructed world (transition `Stand_to_Crouch`, tracked height 81). -/
def Player.CrouchingDown : Player.State :=
  Player.Crouch Env.Unobstructed false (1 / 2) Player.Standing

/-- Prone-supporting variant: the character standing (capsule at 88, alpha 0, no transition
pending), not sprinting and wanting to crouch. -/
def Prone.StandingWantsCrouch : Prone.State :=
  { Prone.Sprinting with bIsSprinting := false, bWantsToCrouch := true }

/-- Prone-supporting variant: the fully crouched character with sprint intent set. -/
def Prone.CrouchedWantsSprint : Prone.State :=
  { Prone.Crouched with bWantsToSprint := true }

/-- Prone-supporting variant: a crouched character half-way through standing up (capsule at
69, alpha 1/2, `CROUCH_TO_STAND`) with both crouch intent and sprint intent set. -/
def Prone.RisingWantsBoth : Prone.State :=
  { Prone.Crouched with
    Capsule := ⟨34, 69, 1⟩
    CurrentMovementChange := Prone.EMovementChange.CROUCH_TO_STAND
    CurrentCapsuleHalfHeight := 69
    CurrentCrouchAlpha := 1 / 2
    bWantsToCrouch := true
    bWantsToSprint := true }

/-- Masking with a single-bit mask is non-zero exactly when that bit is set. -/
theorem and_two_pow_ne_zero_iff (x k : ℕ) : (x &&& 2 ^ k ≠ 0) ↔ x.testBit k = true := by
  constructor
  · intro h
    obtain ⟨i, hi⟩ := Nat.ne_zero_implies_bit_true h
    rw [Nat.testBit_and, Nat.testBit_two_pow] at hi
    simp only [Bool.and_eq_true, decide_eq_true_eq] at hi
    obtain ⟨hx, rfl⟩ := hi
    exact hx
  · intro h h0
    have : (x &&& 2 ^ k).testBit k = true := by
      rw [Nat.testBit_and, Nat.testBit_two_pow_self, h]; rfl
    rw [h0] at this
    simp at this

/-- The sprint mask selects bit 4. -/
theorem and_FLAG_Custom_0 (x : ℕ) : (x &&& FLAG_Custom_0 ≠ 0) ↔ x.testBit 4 = true :=
  and_two_pow_ne_zero_iff x 4

/-- The prone mask selects bit 5. -/
theorem and_FLAG_Custom_1 (x : ℕ) : (x &&& FLAG_Custom_1 ≠ 0) ↔ x.testBit 5 = true :=
  and_two_pow_ne_zero_iff x 5

/-- Bits of the sprint mask. -/
theorem testBit_FLAG_Custom_0 (i : ℕ) : FLAG_Custom_0.testBit i = decide (4 = i) :=
  @Nat.testBit_two_pow 4 i

/-- Bits of the prone mask. -/
theorem testBit_FLAG_Custom_1 (i : ℕ) : FLAG_Custom_1.testBit i = decide (5 = i) :=
  @Nat.testBit_two_pow 5 i

/-- Bits of the byte packed by the prone-supporting variant. -/
theorem Prone.testBit_GetCompressedFlags (b : ℕ) (m : Prone.FSavedMove_Character_FPS) (i : ℕ) :
    (Prone.GetCompressedFlags b m).testBit i =
      (b.testBit i || (m.bSavedWantsToSprint && decide (4 = i))
        || (m.bSavedWantsToProne && decide (5 = i))) := by
  unfold Prone.GetCompressedFlags
  cases m.bSavedWantsToSprint <;> cases m.bSavedWantsToProne <;>
    simp [Nat.testBit_or, testBit_FLAG_Custom_0, testBit_FLAG_Custom_1]

/-- Bits of the byte packed by the Player variant. -/
theorem Player.testBit_GetCompressedFlags_sprint (b : ℕ) (m : Player.FSavedMove_Character_FPS) (i : ℕ) :
    (Player.GetCompressedFlags b m).testBit i =
      (b.testBit i || (m.bSavedWantsToSprint && decide (4 = i))) := by
  unfold Player.GetCompressedFlags
  cases m.bSavedWantsToSprint <;> simp [Nat.testBit_or, testBit_FLAG_Custom_0]

/-- C1: in the prone-supporting variant `GetCompressedFlags` returns, for every base flag
byte `b` and every saved move, exactly `b` OR `0x10` (when `bSavedWantsToSprint`) OR `0x20`
(when `bSavedWantsToProne`); the result is again a byte, every bit other than bits 4 and 5
(so bits 0-3 and 6-7) equals that bit of `b`, and no bit set in `b` is cleared. -/
theorem C1_GetCompressedFlags_packs (b : ℕ) (m : Prone.FSavedMove_Character_FPS)
    (hb : b < 256) :
    Prone.GetCompressedFlags b m
        = (b ||| (if m.bSavedWantsToSprint then 0x10 else 0))
            ||| (if m.bSavedWantsToProne then 0x20 else 0)
      ∧ Prone.GetCompressedFlags b m < 256
      ∧ (∀ i, i ≠ 4 → i ≠ 5 → (Prone.GetCompressedFlags b m).testBit i = b.testBit i)
      ∧ (∀ i, b.testBit i = true → (Prone.GetCompressedFlags b m).testBit i = true) := by
  refine ⟨?_, ?_, ?_, ?_⟩
  · unfold Prone.GetCompressedFlags FLAG_Custom_0 FLAG_Custom_1
    cases m.bSavedWantsToSprint <;> cases m.bSavedWantsToProne <;> simp
  · unfold Prone.GetCompressedFlags FLAG_Custom_0 FLAG_Custom_1
    have h16 : (0x10 : ℕ) < 2 ^ 8 := by norm_num
    have h32 : (0x20 : ℕ) < 2 ^ 8 := by norm_num
    have hb8 : b < 2 ^ 8 := by simpa using hb
    have h1 : b ||| 0x10 < 2 ^ 8 := Nat.or_lt_two_pow hb8 h16
    have h2 : b ||| 0x20 < 2 ^ 8 := Nat.or_lt_two_pow hb8 h32
    have h3 : (b ||| 0x10) ||| 0x20 < 2 ^ 8 := Nat.or_lt_two_pow h1 h32
    cases m.bSavedWantsToSprint <;> cases m.bSavedWantsToProne <;> simp <;> simpa using ‹_›
  · intro i h4 h5
    rw [Prone.testBit_GetCompressedFlags]
    have e4 : decide (4 = i) = false := by simpa using fun h => h4 h.symm
    have e5 : decide (5 = i) = false := by simpa using fun h => h5 h.symm
    simp [e4, e5]
  · intro i hi
    rw [Prone.testBit_GetCompressedFlags, hi]
    simp

/-- C1, witness: base byte `0x4B`, sprint wanted, prone not wanted. -/
theorem C1_GetCompressedFlags_packs_witness :
    (0x4B : ℕ) < 256 ∧ Prone.GetCompressedFlags 0x4B ⟨true, false, 88⟩ = 0x5B :=
  ⟨by decide,
   ((C1_GetCompressedFlags_packs 0x4B ⟨true, false, 88⟩ (by decide)).1).trans (by decide)⟩

/-- C2: unpacking undoes packing for the custom bits. For a base flag byte `b` with bits 4 and
5 clear, `UpdateFromCompressedFlags` applied to `GetCompressedFlags` of a saved move sets
`bWantsToSprint` to `bSavedWantsToSprint` (both variants) and `bWantsToProne` to
`bSavedWantsToProne` (prone variant); and unpacking reads only bit 4 (and bit 5 in the prone
variant): two flag bytes that agree on those bits give the same sprint / prone intent, whatever
the base-class unpacking does and whatever the component states are. -/
theorem C2_unpack_pack_roundtrip (b : ℕ) (h4 : b.testBit 4 = false) (h5 : b.testBit 5 = false) :
    (∀ (Super : ℕ → Player.State → Player.State) (m : Player.FSavedMove_Character_FPS)
        (s : Player.State),
        (Player.UpdateFromCompressedFlags Super (Player.GetCompressedFlags b m) s).bWantsToSprint
          = m.bSavedWantsToSprint)
    ∧ (∀ (Super : ℕ → Prone.State → Prone.State) (m : Prone.FSavedMove_Character_FPS)
        (s : Prone.State),
        (Prone.UpdateFromCompressedFlags Super (Prone.GetCompressedFlags b m) s).bWantsToSprint
          = m.bSavedWantsToSprint
        ∧ (Prone.UpdateFromCompressedFlags Super (Prone.GetCompressedFlags b m) s).bWantsToProne
          = m.bSavedWantsToProne)
    ∧ (∀ (Super : ℕ → Player.State → Player.State) (f g : ℕ) (s t : Player.State),
        f.testBit 4 = g.testBit 4 →
        (Player.UpdateFromCompressedFlags Super f s).bWantsToSprint
          = (Player.UpdateFromCompressedFlags Super g t).bWantsToSprint)
    ∧ (∀ (Super : ℕ → Prone.State → Prone.State) (f g : ℕ) (s t : Prone.State),
        f.testBit 4 = g.testBit 4 → f.testBit 5 = g.testBit 5 →
        (Prone.UpdateFromCompressedFlags Super f s).bWantsToSprint
          = (Prone.UpdateFromCompressedFlags Super g t).bWantsToSprint
        ∧ (Prone.UpdateFromCompressedFlags Super f s).bWantsToProne
          = (Prone.UpdateFromCompressedFlags Super g t).bWantsToProne) := by
  have sprintP : ∀ (Super : ℕ → Player.State → Player.State) (f : ℕ) (s : Player.State),
      (Player.UpdateFromCompressedFlags Super f s).bWantsToSprint = f.testBit 4 := by
    intro Super f s
    simp only [Player.UpdateFromCompressedFlags]
    rw [Bool.eq_iff_iff, decide_eq_true_eq]
    exact and_FLAG_Custom_0 f
  have sprintQ : ∀ (Super : ℕ → Prone.State → Prone.State) (f : ℕ) (s : Prone.State),
      (Prone.UpdateFromCompressedFlags Super f s).bWantsToSprint = f.testBit 4 := by
    intro Super f s
    simp only [Prone.UpdateFromCompressedFlags]
    rw [Bool.eq_iff_iff, decide_eq_true_eq]
    exact and_FLAG_Custom_0 f
  have proneQ : ∀ (Super : ℕ → Prone.State → Prone.State) (f : ℕ) (s : Prone.State),
      (Prone.UpdateFromCompressedFlags Super f s).bWantsToProne = f.testBit 5 := by
    intro Super f s
    simp only [Prone.UpdateFromCompressedFlags]
    rw [Bool.eq_iff_iff, decide_eq_true_eq]
    exact and_FLAG_Custom_1 f
  refine ⟨?_, ?_, ?_, ?_⟩
  · intro Super m s
    rw [sprintP, Player.testBit_GetCompressedFlags_sprint, h4]
    simp
  · intro Super m s
    rw [sprintQ, proneQ, Prone.testBit_GetCompressedFlags, Prone.testBit_GetCompressedFlags,
      h4, h5]
    simp
  · intro Super f g s t h
    rw [sprintP, sprintP, h]
  · intro Super f g s t hf hg
    rw [sprintQ, sprintQ, proneQ, proneQ, hf, hg]
    exact ⟨rfl, rfl⟩

/-- C2, witness: base byte `0x03` (jump and crouch bits, bits 4 and 5 clear), a Player-variant
move that wants to sprint, the standing character, and a base-class unpacking that changes
nothing. -/
theorem C2_unpack_pack_roundtrip_witness :
    Nat.testBit 0x03 4 = false ∧ Nat.testBit 0x03 5 = false
      ∧ (Player.UpdateFromCompressedFlags (fun _ t => t)
          (Player.GetCompressedFlags 0x03 ⟨true, 60, Player.EMovementTransition.None⟩)
          Player.Standing).bWantsToSprint = true :=
  ⟨by decide, by decide,
   (C2_unpack_pack_roundtrip 0x03 (by decide) (by decide)).1 (fun _ t => t)
     ⟨true, 60, Player.EMovementTransition.None⟩ Player.Standing⟩

/-- C3: in the Player variant `CanCombineWith` returns true exactly when the two saved moves
have equal `bSavedWantsToSprint`, equal `SavedCapsuleHeight`, equal `SavedTransition` and the
base-class test accepts; hence moves equal in the three fields combine whenever the base test
accepts, and a difference in any one of the three fields makes the answer false whatever the
base test says. -/
theorem C3_CanCombineWith_iff (SuperResult : Bool) (a b : Player.FSavedMove_Character_FPS) :
    (Player.CanCombineWith SuperResult a b = true ↔
        (a.bSavedWantsToSprint = b.bSavedWantsToSprint
          ∧ a.SavedCapsuleHeight = b.SavedCapsuleHeight
          ∧ a.SavedTransition = b.SavedTransition ∧ SuperResult = true))
    ∧ Player.CanCombineWith SuperResult a a = SuperResult
    ∧ (a.bSavedWantsToSprint ≠ b.bSavedWantsToSprint →
        Player.CanCombineWith SuperResult a b = false)
    ∧ (a.SavedCapsuleHeight ≠ b.SavedCapsuleHeight →
        Player.CanCombineWith SuperResult a b = false)
    ∧ (a.SavedTransition ≠ b.SavedTransition →
        Player.CanCombineWith SuperResult a b = false) := by
  have key : Player.CanCombineWith SuperResult a b = true ↔
      (a.bSavedWantsToSprint = b.bSavedWantsToSprint
        ∧ a.SavedCapsuleHeight = b.SavedCapsuleHeight
        ∧ a.SavedTransition = b.SavedTransition ∧ SuperResult = true) := by
    unfold Player.CanCombineWith
    by_cases h1 : a.bSavedWantsToSprint = b.bSavedWantsToSprint
    · by_cases h2 : a.SavedCapsuleHeight = b.SavedCapsuleHeight
      · by_cases h3 : a.SavedTransition = b.SavedTransition
        · simp [h1, h2, h3]
        · simp [h1, h2, h3]
      · simp [h1, h2]
    · simp [h1]
  refine ⟨key, ?_, ?_, ?_, ?_⟩
  · unfold Player.CanCombineWith
    simp
  · intro h
    cases hc : Player.CanCombineWith SuperResult a b
    · rfl
    · exact absurd (key.mp hc).1 h
  · intro h
    cases hc : Player.CanCombineWith SuperResult a b
    · rfl
    · exact absurd (key.mp hc).2.1 h
  · intro h
    cases hc : Player.CanCombineWith SuperResult a b
    · rfl
    · exact absurd (key.mp hc).2.2.1 h

/-- C4, the code at the failing input: in the prone-supporting variant two saved moves that
differ only in `SavedCurrentCapsuleHalfHeight` (88 against 50) are reported combinable as soon
as the base-class test accepts, because `CanCombineWith` never compares that field. -/
theorem C4_CanCombineWith_ignores_height :
    Prone.CanCombineWith true ⟨false, false, 88⟩ ⟨false, false, 50⟩ = true
      ∧ (⟨false, false, 88⟩ : Prone.FSavedMove_Character_FPS).SavedCurrentCapsuleHalfHeight
          ≠ (⟨false, false, 50⟩ : Prone.FSavedMove_Character_FPS).SavedCurrentCapsuleHalfHeight := by
  constructor
  · rfl
  · norm_num

/-- C5: capture then restore is the identity on the snapshot fields (Player variant). If
`SetMoveFor` captures the component state `s` into a saved move, then `PrepMoveFor` with that
saved move, applied to any later component state `t` (so after arbitrary changes of
`bWantsToSprint`, `CurrentTransition` and `InternalCapsuleHeight`) and for any base-class
`PrepMoveFor`, sets those three fields back to their values in `s`. -/
theorem C5_PrepMoveFor_SetMoveFor (Super : Player.State → Player.State)
    (m : Player.FSavedMove_Character_FPS) (s t : Player.State) :
    (Player.PrepMoveFor Super (Player.SetMoveFor s m) t).bWantsToSprint = s.bWantsToSprint
      ∧ (Player.PrepMoveFor Super (Player.SetMoveFor s m) t).CurrentTransition
          = s.CurrentTransition
      ∧ (Player.PrepMoveFor Super (Player.SetMoveFor s m) t).InternalCapsuleHeight
          = s.InternalCapsuleHeight :=
  ⟨rfl, rfl, rfl⟩

/-- C6, the code at the failing input (prone-supporting variant): the states `Prone.MidCrouch`
and `Prone.MidCrouchOtherAlpha` differ in `CurrentCrouchAlpha` only (one quarter against one
fifth), so they agree on every field of the saved-move record, on `CurrentMovementChange`, on
crouch intent, on the capsule and on the configuration; yet the same local `Crouch(false, 0.1)`
in the same world leaves `CurrentCapsuleHalfHeight` and the capsule half-height at 76.6 from
the first and at 78.5 from the second. -/
theorem C6_crouch_depends_on_alpha :
    Prone.MidCrouchOtherAlpha = { Prone.MidCrouch with CurrentCrouchAlpha := 1 / 5 }
      ∧ (Prone.Crouch Env.Unobstructed false (1 / 10) Prone.MidCrouch).CurrentCapsuleHalfHeight
          = 383 / 5
      ∧ (Prone.Crouch Env.Unobstructed false (1 / 10)
          Prone.MidCrouchOtherAlpha).CurrentCapsuleHalfHeight = 157 / 2
      ∧ (Prone.Crouch Env.Unobstructed false (1 / 10) Prone.MidCrouch).Capsule.CapsuleHalfHeight
          = 383 / 5
      ∧ (Prone.Crouch Env.Unobstructed false (1 / 10)
          Prone.MidCrouchOtherAlpha).Capsule.CapsuleHalfHeight = 157 / 2 := by
  decide!

/-! ### Arithmetic of the engine helpers -/

/-- The engine maximum is the order-theoretic maximum. -/
theorem FMath.Max_eq_max (A B : ℚ) : FMath.Max A B = max A B := by
  unfold FMath.Max
  split_ifs with h
  · exact (max_eq_left h).symm
  · exact (max_eq_right (le_of_lt (not_le.mp h))).symm

/-- The three-way maximum is the order-theoretic maximum. -/
theorem FMath.Max3_eq_max (A B C : ℚ) : FMath.Max3 A B C = max (max A B) C := by
  unfold FMath.Max3
  rw [FMath.Max_eq_max, FMath.Max_eq_max]

/-- The floor `Max3(0, Radius, x)` leaves a value that is already above both bounds. -/
theorem FMath.Max3_floor_eq (R x : ℚ) (h0 : 0 ≤ x) (hR : R ≤ x) : FMath.Max3 0 R x = x := by
  rw [FMath.Max3_eq_max]
  exact max_eq_right (max_le h0 hR)

/-- Interpolating down toward a target below the current value: the result is the target or
one full step below the current value, and in the latter case still above the target. -/
theorem FMath.FInterpConstantTo_down (h C dt v : ℚ) (hC : C ≤ h) :
    FMath.FInterpConstantTo h C dt v = C
      ∨ (FMath.FInterpConstantTo h C dt v = h - v * dt ∧ C < h - v * dt) := by
  unfold FMath.FInterpConstantTo FMath.Clamp
  simp only []
  split_ifs with h1 h2 h3
  · exact Or.inl rfl
  · right
    constructor
    · ring
    · linarith
  · left
    ring
  · exfalso
    have h4 : v * dt ≤ C - h := not_lt.mp h3
    have h6 : C - h = 0 := le_antisymm (by linarith) (by linarith)
    apply h1
    rw [h6]
    unfold FMath.Square FMath.SMALL_NUMBER
    norm_num


/-- Interpolating down with a positive step strictly lowers a value above the target. -/
theorem FMath.FInterpConstantTo_down_lt (h C dt v : ℚ) (hC : C < h) (hstep : 0 < v * dt) :
    FMath.FInterpConstantTo h C dt v < h := by
  rcases FMath.FInterpConstantTo_down h C dt v (le_of_lt hC) with e | ⟨e, _⟩
  · rw [e]; exact hC
  · rw [e]; linarith

/-- Interpolating down never undershoots the target. -/
theorem FMath.FInterpConstantTo_down_ge (h C dt v : ℚ) (hC : C ≤ h) :
    C ≤ FMath.FInterpConstantTo h C dt v := by
  rcases FMath.FInterpConstantTo_down h C dt v hC with e | ⟨e, h2⟩
  · rw [e]
  · rw [e]; exact le_of_lt h2

/-! ### Frame lemmas of the Player variant -/

/-- The eye-height recalculation changes the camera location only. -/
@[simp] theorem Player.RecalculateBaseEyeHeight_fields (s : Player.State) :
    (Player.RecalculateBaseEyeHeight s).InternalCapsuleHeight = s.InternalCapsuleHeight
      ∧ (Player.RecalculateBaseEyeHeight s).CurrentTransition = s.CurrentTransition
      ∧ (Player.RecalculateBaseEyeHeight s).bIsCrouched = s.bIsCrouched
      ∧ (Player.RecalculateBaseEyeHeight s).bCheckCrouch = s.bCheckCrouch
      ∧ (Player.RecalculateBaseEyeHeight s).CrouchedHalfHeight = s.CrouchedHalfHeight
      ∧ (Player.RecalculateBaseEyeHeight s).CrouchTime = s.CrouchTime
      ∧ (Player.RecalculateBaseEyeHeight s).DefaultCapsule = s.DefaultCapsule
      ∧ (Player.RecalculateBaseEyeHeight s).Capsule = s.Capsule
      ∧ (Player.RecalculateBaseEyeHeight s).Location = s.Location := by
  unfold Player.RecalculateBaseEyeHeight
  split_ifs <;> exact ⟨rfl, rfl, rfl, rfl, rfl, rfl, rfl, rfl, rfl⟩

/-- The fields `CapsuleAdjusted` leaves alone. -/
@[simp] theorem Player.CapsuleAdjusted_fields (a b : ℚ) (s : Player.State) :
    (Player.CapsuleAdjusted a b s).InternalCapsuleHeight = s.InternalCapsuleHeight
      ∧ (Player.CapsuleAdjusted a b s).CurrentTransition = s.CurrentTransition
      ∧ (Player.CapsuleAdjusted a b s).bIsCrouched = s.bIsCrouched
      ∧ (Player.CapsuleAdjusted a b s).bCheckCrouch = s.bCheckCrouch
      ∧ (Player.CapsuleAdjusted a b s).CrouchedHalfHeight = s.CrouchedHalfHeight
      ∧ (Player.CapsuleAdjusted a b s).CrouchTime = s.CrouchTime
      ∧ (Player.CapsuleAdjusted a b s).DefaultCapsule = s.DefaultCapsule
      ∧ (Player.CapsuleAdjusted a b s).Capsule = s.Capsule
      ∧ (Player.CapsuleAdjusted a b s).Location = s.Location := by
  unfold Player.CapsuleAdjusted
  dsimp only
  split_ifs <;> simp only [Player.RecalculateBaseEyeHeight_fields, and_self]

/-- The fields `AdjustProxyCapsuleSize` leaves alone. -/
@[simp] theorem Player.AdjustProxyCapsuleSize_fields (s : Player.State) :
    (Player.AdjustProxyCapsuleSize s).InternalCapsuleHeight = s.InternalCapsuleHeight
      ∧ (Player.AdjustProxyCapsuleSize s).CurrentTransition = s.CurrentTransition
      ∧ (Player.AdjustProxyCapsuleSize s).bIsCrouched = s.bIsCrouched
      ∧ (Player.AdjustProxyCapsuleSize s).bCheckCrouch = s.bCheckCrouch
      ∧ (Player.AdjustProxyCapsuleSize s).CrouchedHalfHeight = s.CrouchedHalfHeight
      ∧ (Player.AdjustProxyCapsuleSize s).CrouchTime = s.CrouchTime
      ∧ (Player.AdjustProxyCapsuleSize s).DefaultCapsule = s.DefaultCapsule
      ∧ (Player.AdjustProxyCapsuleSize s).Location = s.Location :=
  ⟨rfl, rfl, rfl, rfl, rfl, rfl, rfl, rfl⟩

/-- The fields `ShrinkCapsule` leaves alone. -/
@[simp] theorem Player.ShrinkCapsule_fields (env : Env) (N : ℚ) (b : Bool) (s : Player.State) :
    (Player.ShrinkCapsule env N b s).2.InternalCapsuleHeight = s.InternalCapsuleHeight
      ∧ (Player.ShrinkCapsule env N b s).2.CurrentTransition = s.CurrentTransition
      ∧ (Player.ShrinkCapsule env N b s).2.bIsCrouched = s.bIsCrouched
      ∧ (Player.ShrinkCapsule env N b s).2.bCheckCrouch = s.bCheckCrouch
      ∧ (Player.ShrinkCapsule env N b s).2.CrouchedHalfHeight = s.CrouchedHalfHeight
      ∧ (Player.ShrinkCapsule env N b s).2.CrouchTime = s.CrouchTime
      ∧ (Player.ShrinkCapsule env N b s).2.DefaultCapsule = s.DefaultCapsule := by
  unfold Player.ShrinkCapsule
  dsimp only
  split
  · exact ⟨rfl, rfl, rfl, rfl, rfl, rfl, rfl⟩
  · split <;> split <;>
      simp only [Player.CapsuleAdjusted_fields, Player.AdjustProxyCapsuleSize_fields, and_self]

/-- An accepted local `Crouch` call in closed form: the crouched flag is set, the transition
is entered, the tracked height is advanced and the eye height interpolated; the capsule is
shrunk and the transition cleared exactly when the tracked height has reached the target. -/
theorem Player.Crouch_local_eq (env : Env) (dt : ℚ) (s : Player.State)
    (hv : env.HasValidData = true) (hc : env.CanCrouchInCurrentState = true) :
    Player.Crouch env false dt s =
      (let h := FMath.Max3 0 s.Capsule.CapsuleRadius
          (FMath.FInterpConstantTo s.InternalCapsuleHeight s.CrouchedHalfHeight dt
            ((s.DefaultCapsule.CapsuleHalfHeight - s.CrouchedHalfHeight) / s.CrouchTime))
       let s2 : Player.State :=
         { s with bIsCrouched := true,
                  CurrentTransition := Player.EMovementTransition.Stand_to_Crouch,
                  InternalCapsuleHeight := h,
                  BaseEyeHeight := FMath.Lerp s.DefaultEyeHeight s.CrouchedEyeHeight
                    ((s.DefaultCapsule.CapsuleHalfHeight - h)
                      / (s.DefaultCapsule.CapsuleHalfHeight - s.CrouchedHalfHeight)) }
       if h ≠ s.CrouchedHalfHeight then Player.RecalculateBaseEyeHeight s2
       else { (Player.ShrinkCapsule env s.CrouchedHalfHeight false s2).2 with
                CurrentTransition := Player.EMovementTransition.None, bCheckCrouch := false }) := by
  unfold Player.Crouch
  rw [if_neg (by simp [hv]), if_neg (by simp [hc]), if_neg (by simp)]
  cases s with
  | mk _ _ _ _ _ _ _ _ _ _ _ _ _ _ _ _ _ _ tr _ _ _ _ _ _ _ _ _ _ _ _ _ _ _ _ =>
    cases tr <;> rfl

/-- The deferred proxy shrink keeps a non-negative radius non-negative and never enlarges it. -/
theorem AdjustProxyCapsuleSizeOn_radius (f : Bool) (role : ENetRole) (a b : ℚ)
    (c : UCapsuleComponent) (h0 : 0 ≤ c.CapsuleRadius) :
    0 ≤ (AdjustProxyCapsuleSizeOn f role a b c).2.CapsuleRadius
      ∧ (AdjustProxyCapsuleSizeOn f role a b c).2.CapsuleRadius ≤ c.CapsuleRadius := by
  unfold AdjustProxyCapsuleSizeOn
  dsimp only
  split_ifs with h1 h2 h3 h4
  · exact ⟨h0, le_refl _⟩
  · exact ⟨h0, le_refl _⟩
  · exact ⟨h0, le_refl _⟩
  · have hs : 0 < c.GetShapeScale :=
      lt_trans (by unfold FMath.KINDA_SMALL_NUMBER; norm_num) (not_le.mp h3)
    have hx : 0 ≤ FMath.Max 0 a / c.GetShapeScale := by
      apply div_nonneg _ (le_of_lt hs)
      rw [FMath.Max_eq_max]; exact le_max_left _ _
    simp only [UCapsuleComponent.SetCapsuleSize, UCapsuleComponent.GetUnscaledCapsuleRadius,
      FMath.Max_eq_max]
    rw [FMath.Max_eq_max] at hx
    constructor
    · exact le_max_left _ _
    · apply max_le h0
      apply max_le h0
      linarith
  · exact ⟨h0, le_refl _⟩

/-- The engine setter stores a non-negative radius unchanged. -/
theorem UCapsuleComponent.SetCapsuleSize_radius (R N : ℚ) (c : UCapsuleComponent) (h0 : 0 ≤ R) :
    (c.SetCapsuleSize R N).CapsuleRadius = R := by
  simp only [UCapsuleComponent.SetCapsuleSize, FMath.Max_eq_max]
  exact max_eq_right h0

/-- After `ShrinkCapsule` a non-negative capsule radius is still non-negative and no larger. -/
theorem Player.ShrinkCapsule_radius (env : Env) (N : ℚ) (b : Bool) (s : Player.State)
    (h0 : 0 ≤ s.Capsule.CapsuleRadius) :
    0 ≤ (Player.ShrinkCapsule env N b s).2.Capsule.CapsuleRadius
      ∧ (Player.ShrinkCapsule env N b s).2.Capsule.CapsuleRadius ≤ s.Capsule.CapsuleRadius := by
  have hA := AdjustProxyCapsuleSizeOn_radius
  unfold Player.ShrinkCapsule
  dsimp only
  split
  · dsimp only [UCapsuleComponent.GetUnscaledCapsuleRadius]
    rw [UCapsuleComponent.SetCapsuleSize_radius _ _ _ h0]
    exact ⟨h0, le_refl _⟩
  · have key : ∀ t : Player.State, t.Capsule.CapsuleRadius = s.Capsule.CapsuleRadius →
        0 ≤ (Player.CapsuleAdjusted
              ((s.DefaultCapsule.GetUnscaledCapsuleHalfHeight - N) )
              ((s.DefaultCapsule.GetUnscaledCapsuleHalfHeight - N) * s.Capsule.GetShapeScale)
              (Player.AdjustProxyCapsuleSize t)).Capsule.CapsuleRadius
          ∧ (Player.CapsuleAdjusted
              ((s.DefaultCapsule.GetUnscaledCapsuleHalfHeight - N) )
              ((s.DefaultCapsule.GetUnscaledCapsuleHalfHeight - N) * s.Capsule.GetShapeScale)
              (Player.AdjustProxyCapsuleSize t)).Capsule.CapsuleRadius ≤ s.Capsule.CapsuleRadius := by
      intro t ht
      simp only [Player.CapsuleAdjusted_fields]
      have := hA t.bShrinkProxyCapsule t.Role t.NetProxyShrinkRadius t.NetProxyShrinkHalfHeight
        t.Capsule (ht ▸ h0)
      rw [ht] at this
      exact this
    have hr : (s.Capsule.SetCapsuleSize s.Capsule.GetUnscaledCapsuleRadius N).CapsuleRadius
        = s.Capsule.CapsuleRadius := UCapsuleComponent.SetCapsuleSize_radius _ _ _ h0
    split <;> split <;> first | exact key _ hr

/-- One accepted local `Crouch` call from a tracked height at or above the crouched target, with
a well-formed capsule whose radius does not exceed the target: the tracked height is the
interpolated one (the radius floor is inactive), the transition is cleared exactly when the
target is reached, the configuration is kept, the radius stays within its bounds, and the
capsule is untouched while the target is not reached. -/
theorem Player.Crouch_local_step (env : Env) (dt : ℚ) (s : Player.State)
    (hv : env.HasValidData = true) (hc : env.CanCrouchInCurrentState = true)
    (hR0 : 0 ≤ s.Capsule.CapsuleRadius) (hRC : s.Capsule.CapsuleRadius ≤ s.CrouchedHalfHeight)
    (hCh : s.CrouchedHalfHeight ≤ s.InternalCapsuleHeight) :
    (Player.Crouch env false dt s).InternalCapsuleHeight
        = FMath.FInterpConstantTo s.InternalCapsuleHeight s.CrouchedHalfHeight dt
            ((s.DefaultCapsule.CapsuleHalfHeight - s.CrouchedHalfHeight) / s.CrouchTime)
      ∧ (Player.Crouch env false dt s).CurrentTransition
        = (if (Player.Crouch env false dt s).InternalCapsuleHeight = s.CrouchedHalfHeight
            then Player.EMovementTransition.None else Player.EMovementTransition.Stand_to_Crouch)
      ∧ (Player.Crouch env false dt s).CrouchedHalfHeight = s.CrouchedHalfHeight
      ∧ (Player.Crouch env false dt s).CrouchTime = s.CrouchTime
      ∧ (Player.Crouch env false dt s).DefaultCapsule = s.DefaultCapsule
      ∧ 0 ≤ (Player.Crouch env false dt s).Capsule.CapsuleRadius
      ∧ (Player.Crouch env false dt s).Capsule.CapsuleRadius ≤ s.Capsule.CapsuleRadius
      ∧ ((Player.Crouch env false dt s).InternalCapsuleHeight ≠ s.CrouchedHalfHeight →
          (Player.Crouch env false dt s).Capsule = s.Capsule) := by
  have hge := FMath.FInterpConstantTo_down_ge s.InternalCapsuleHeight s.CrouchedHalfHeight dt
    ((s.DefaultCapsule.CapsuleHalfHeight - s.CrouchedHalfHeight) / s.CrouchTime) hCh
  have hM := FMath.Max3_floor_eq s.Capsule.CapsuleRadius _ (le_trans (le_trans hR0 hRC) hge)
    (le_trans hRC hge)
  rw [Player.Crouch_local_eq env dt s hv hc]
  dsimp only
  rw [hM]
  split
  · rename_i hne
    have hF := Player.RecalculateBaseEyeHeight_fields
    refine ⟨by rw [(hF _).1], ?_, by rw [(hF _).2.2.2.2.1], by rw [(hF _).2.2.2.2.2.1],
      by rw [(hF _).2.2.2.2.2.2.1], by rw [(hF _).2.2.2.2.2.2.2.1]; exact hR0,
      by rw [(hF _).2.2.2.2.2.2.2.1], fun _ => by rw [(hF _).2.2.2.2.2.2.2.1]⟩
    rw [(hF _).1, (hF _).2.1, if_neg hne]
  · rename_i heq
    have heq : FMath.FInterpConstantTo s.InternalCapsuleHeight s.CrouchedHalfHeight dt
        ((s.DefaultCapsule.CapsuleHalfHeight - s.CrouchedHalfHeight) / s.CrouchTime)
          = s.CrouchedHalfHeight := not_not.mp heq
    dsimp only
    have hF := Player.ShrinkCapsule_fields env s.CrouchedHalfHeight false
    have hrad := Player.ShrinkCapsule_radius env s.CrouchedHalfHeight false
      { s with bIsCrouched := true,
               CurrentTransition := Player.EMovementTransition.Stand_to_Crouch,
               InternalCapsuleHeight := FMath.FInterpConstantTo s.InternalCapsuleHeight
                 s.CrouchedHalfHeight dt
                 ((s.DefaultCapsule.CapsuleHalfHeight - s.CrouchedHalfHeight) / s.CrouchTime),
               BaseEyeHeight := FMath.Lerp s.DefaultEyeHeight s.CrouchedEyeHeight
                 ((s.DefaultCapsule.CapsuleHalfHeight
                     - FMath.FInterpConstantTo s.InternalCapsuleHeight s.CrouchedHalfHeight dt
                       ((s.DefaultCapsule.CapsuleHalfHeight - s.CrouchedHalfHeight) / s.CrouchTime))
                   / (s.DefaultCapsule.CapsuleHalfHeight - s.CrouchedHalfHeight)) } hR0
    refine ⟨by rw [(hF _).1], ?_, by rw [(hF _).2.2.2.2.1], by rw [(hF _).2.2.2.2.2.1],
      by rw [(hF _).2.2.2.2.2.2], hrad.1, hrad.2, fun h => absurd ?_ h⟩
    · rw [(hF _).1, if_pos heq]
    · rw [(hF _).1]
      exact heq

/-! ### The height sequence of repeated local `Crouch` calls -/

/-- Interpolating from the target itself stays at the target. -/
theorem FMath.FInterpConstantTo_self (C dt v : ℚ) : FMath.FInterpConstantTo C C dt v = C := by
  unfold FMath.FInterpConstantTo
  dsimp only
  rw [if_pos]
  unfold FMath.Square FMath.SMALL_NUMBER
  norm_num

/-- A full step down: when the remaining distance is at least one step (and not within the
snapping distance), the result is exactly one step below the current value. -/
theorem FMath.FInterpConstantTo_full_step (h C dt v : ℚ) (hs : 0 < v * dt)
    (h1 : ¬ FMath.Square (C - h) < FMath.SMALL_NUMBER) (h2 : v * dt ≤ h - C) :
    FMath.FInterpConstantTo h C dt v = h - v * dt := by
  unfold FMath.FInterpConstantTo FMath.Clamp
  dsimp only
  rw [if_neg h1]
  split_ifs with h3 h4
  · ring
  · have : C - h = -(v * dt) := le_antisymm (by linarith) (not_lt.mp h3)
    linarith
  · exfalso
    apply h4
    linarith

/-- Iterating the interpolation from `H` down toward `C`: after `k` steps the value is the
target, or exactly `k` steps below `H` and still above the target. -/
theorem FMath.iterate_FInterpConstantTo_down (H C dt v : ℚ) (hC : C ≤ H) (k : ℕ) :
    (fun h => FMath.FInterpConstantTo h C dt v)^[k] H = C
      ∨ ((fun h => FMath.FInterpConstantTo h C dt v)^[k] H = H - k * (v * dt)
          ∧ C < H - k * (v * dt)) := by
  induction k with
  | zero =>
    rcases eq_or_lt_of_le hC with h | h
    · left; simp [h]
    · right; simp [h]
  | succ n ih =>
    rw [Function.iterate_succ_apply']
    rcases ih with e | ⟨e, hlt⟩
    · left
      rw [e]
      exact FMath.FInterpConstantTo_self C dt v
    · rw [e]
      rcases FMath.FInterpConstantTo_down (H - n * (v * dt)) C dt v (le_of_lt hlt) with e2 | ⟨e2, h2⟩
      · left; exact e2
      · right
        rw [e2]
        push_cast
        constructor
        · ring
        · have : H - (n + 1 : ℚ) * (v * dt) = H - n * (v * dt) - v * dt := by ring
          rw [this]; exact h2

/-- The iterated interpolation never undershoots the target. -/
theorem FMath.iterate_FInterpConstantTo_ge (H C dt v : ℚ) (hC : C ≤ H) (k : ℕ) :
    C ≤ (fun h => FMath.FInterpConstantTo h C dt v)^[k] H := by
  rcases FMath.iterate_FInterpConstantTo_down H C dt v hC k with e | ⟨e, h⟩
  · rw [e]
  · rw [e]; exact le_of_lt h

/-- Once the accumulated steps cover the whole distance the iterated interpolation is at the
target. -/
theorem FMath.iterate_FInterpConstantTo_reach (H C dt v : ℚ) (hC : C ≤ H) (k : ℕ)
    (hk : H - C ≤ k * (v * dt)) :
    (fun h => FMath.FInterpConstantTo h C dt v)^[k] H = C := by
  rcases FMath.iterate_FInterpConstantTo_down H C dt v hC k with e | ⟨_, h⟩
  · exact e
  · exfalso; linarith

/-- State after `k` accepted local `Crouch` calls: configuration kept, radius within bounds,
tracked height given by the iterated interpolation, and (after at least one call) the
transition cleared exactly when the tracked height is at the crouched target. -/
theorem Player.CrouchN_track (env : Env) (dt : ℚ) (s : Player.State)
    (hv : env.HasValidData = true) (hc : env.CanCrouchInCurrentState = true)
    (hR0 : 0 ≤ s.Capsule.CapsuleRadius) (hRC : s.Capsule.CapsuleRadius ≤ s.CrouchedHalfHeight)
    (hCh : s.CrouchedHalfHeight ≤ s.InternalCapsuleHeight) (k : ℕ) :
    (Player.CrouchN env false dt k s).CrouchedHalfHeight = s.CrouchedHalfHeight
      ∧ (Player.CrouchN env false dt k s).CrouchTime = s.CrouchTime
      ∧ (Player.CrouchN env false dt k s).DefaultCapsule = s.DefaultCapsule
      ∧ 0 ≤ (Player.CrouchN env false dt k s).Capsule.CapsuleRadius
      ∧ (Player.CrouchN env false dt k s).Capsule.CapsuleRadius ≤ s.Capsule.CapsuleRadius
      ∧ (Player.CrouchN env false dt k s).InternalCapsuleHeight
          = (fun h => FMath.FInterpConstantTo h s.CrouchedHalfHeight dt
              ((s.DefaultCapsule.CapsuleHalfHeight - s.CrouchedHalfHeight) / s.CrouchTime))^[k]
              s.InternalCapsuleHeight
      ∧ (1 ≤ k → (Player.CrouchN env false dt k s).CurrentTransition
          = (if (Player.CrouchN env false dt k s).InternalCapsuleHeight = s.CrouchedHalfHeight
              then Player.EMovementTransition.None
              else Player.EMovementTransition.Stand_to_Crouch)) := by
  induction k with
  | zero =>
    refine ⟨rfl, rfl, rfl, hR0, le_refl _, rfl, fun h => absurd h (by decide)⟩
  | succ n ih =>
    obtain ⟨i1, i2, i3, i4, i5, i6, _⟩ := ih
    have hge := FMath.iterate_FInterpConstantTo_ge s.InternalCapsuleHeight s.CrouchedHalfHeight dt
      ((s.DefaultCapsule.CapsuleHalfHeight - s.CrouchedHalfHeight) / s.CrouchTime) hCh n
    have step := Player.Crouch_local_step env dt (Player.CrouchN env false dt n s) hv hc i4
      (by rw [i1]; exact le_trans i5 hRC) (by rw [i1, i6]; exact hge)
    obtain ⟨s1, s2, s3, s4, s5, s6, s7, _⟩ := step
    rw [i1, i2, i3] at s1
    rw [i1] at s2 s3
    rw [i2] at s4
    rw [i3] at s5
    rw [i6] at s1
    show (Player.Crouch env false dt (Player.CrouchN env false dt n s)).CrouchedHalfHeight = _ ∧ _
    exact ⟨s3, s4, s5, s6, le_trans s7 i5,
      s1.trans (Function.iterate_succ_apply'
        (fun h => FMath.FInterpConstantTo h s.CrouchedHalfHeight dt
          ((s.DefaultCapsule.CapsuleHalfHeight - s.CrouchedHalfHeight) / s.CrouchTime))
        n s.InternalCapsuleHeight).symm, fun _ => s2⟩

/-- Full steps all the way: while every remaining distance is at least one step and outside the
snapping distance, `k` iterations lower the value by exactly `k` steps. -/
theorem FMath.iterate_FInterpConstantTo_full_steps (H C dt v : ℚ) (hs : 0 < v * dt) (k : ℕ)
    (hk : ∀ j : ℕ, j < k →
      ¬ FMath.Square (C - (H - j * (v * dt))) < FMath.SMALL_NUMBER
        ∧ v * dt ≤ H - j * (v * dt) - C) :
    (fun h => FMath.FInterpConstantTo h C dt v)^[k] H = H - k * (v * dt) := by
  induction k with
  | zero => simp
  | succ n ih =>
    rw [Function.iterate_succ_apply', ih (fun j hj => hk j (Nat.lt_succ_of_lt hj))]
    obtain ⟨h1, h2⟩ := hk n (Nat.lt_succ_self n)
    show FMath.FInterpConstantTo (H - n * (v * dt)) C dt v = _
    rw [FMath.FInterpConstantTo_full_step _ _ _ _ hs h1 h2]
    push_cast
    ring

/-- Accepted local `Crouch` calls whose accumulated time covers `CrouchTime` end at the crouched
target with the transition cleared. -/
theorem Player.CrouchN_reaches (env : Env) (dt : ℚ) (s : Player.State)
    (hv : env.HasValidData = true) (hc : env.CanCrouchInCurrentState = true)
    (hR0 : 0 ≤ s.Capsule.CapsuleRadius) (hRC : s.Capsule.CapsuleRadius ≤ s.CrouchedHalfHeight)
    (hCH : s.CrouchedHalfHeight ≤ s.DefaultCapsule.CapsuleHalfHeight)
    (hT : 0 < s.CrouchTime)
    (hI : s.InternalCapsuleHeight = s.DefaultCapsule.CapsuleHalfHeight)
    (k : ℕ) (hk1 : 1 ≤ k) (hk : s.CrouchTime ≤ k * dt) :
    (Player.CrouchN env false dt k s).InternalCapsuleHeight = s.CrouchedHalfHeight
      ∧ (Player.CrouchN env false dt k s).CurrentTransition = Player.EMovementTransition.None := by
  have hCh : s.CrouchedHalfHeight ≤ s.InternalCapsuleHeight := by rw [hI]; exact hCH
  obtain ⟨_, _, _, _, _, t6, t7⟩ := Player.CrouchN_track env dt s hv hc hR0 hRC hCh k
  have hreach := FMath.iterate_FInterpConstantTo_reach s.InternalCapsuleHeight
    s.CrouchedHalfHeight dt
    ((s.DefaultCapsule.CapsuleHalfHeight - s.CrouchedHalfHeight) / s.CrouchTime) hCh k
    (by
      rw [hI]
      have h1 : (1 : ℚ) ≤ k * dt / s.CrouchTime := (one_le_div hT).mpr hk
      have h2 : 0 ≤ s.DefaultCapsule.CapsuleHalfHeight - s.CrouchedHalfHeight := by linarith
      have h3 : (k : ℚ) * ((s.DefaultCapsule.CapsuleHalfHeight - s.CrouchedHalfHeight)
          / s.CrouchTime * dt)
          = (s.DefaultCapsule.CapsuleHalfHeight - s.CrouchedHalfHeight)
            * (k * dt / s.CrouchTime) := by ring
      rw [h3]
      nlinarith)
  have hh : (Player.CrouchN env false dt k s).InternalCapsuleHeight = s.CrouchedHalfHeight :=
    t6.trans hreach
  exact ⟨hh, by rw [t7 hk1, if_pos hh]⟩

/-- The height sequence of the scenario (standing 88, crouched 60, `CrouchTime` 2, step 0.1):
after `k` calls, `k ≤ 20`, the tracked height is `88 - 7k/5`. -/
theorem Player.Standing_heights (k : ℕ) (hk : k ≤ 20) :
    (Player.CrouchN Env.Unobstructed false (1 / 10) k Player.Standing).InternalCapsuleHeight
      = 88 - 7 / 5 * k := by
  have hR0 : (0 : ℚ) ≤ Player.Standing.Capsule.CapsuleRadius := by
    show (0 : ℚ) ≤ 34
    norm_num
  have hRC : Player.Standing.Capsule.CapsuleRadius ≤ Player.Standing.CrouchedHalfHeight := by
    show (34 : ℚ) ≤ 60
    norm_num
  have hCh : Player.Standing.CrouchedHalfHeight ≤ Player.Standing.InternalCapsuleHeight := by
    show (60 : ℚ) ≤ 88
    norm_num
  have ht := (Player.CrouchN_track Env.Unobstructed (1 / 10) Player.Standing rfl rfl
    hR0 hRC hCh k).2.2.2.2.2.1
  have hs : (0 : ℚ) < (88 - 60) / 2 * (1 / 10) := by norm_num
  have hfull := FMath.iterate_FInterpConstantTo_full_steps 88 60 (1 / 10) ((88 - 60) / 2) hs k
    (by
      intro j hj
      have hj19 : (j : ℚ) ≤ 19 := by
        have : j ≤ 19 := by omega
        exact_mod_cast this
      have hj0 : (0 : ℚ) ≤ j := Nat.cast_nonneg j
      constructor
      · unfold FMath.Square FMath.SMALL_NUMBER
        rw [not_lt]
        nlinarith
      · linarith)
  rw [ht]
  show (fun h => FMath.FInterpConstantTo h 60 (1 / 10) ((88 - 60) / 2))^[k] 88 = _
  rw [hfull]
  ring

/-- When every overlap test reports encroachment a local `ExpandCapsule` fails and changes
nothing, whatever the downward sweep returns. -/
theorem Player.ExpandCapsule_blocked (env : Env) (N : ℚ) (s : Player.State)
    (hover : ∀ loc shape, env.OverlapBlockingTestByChannel loc shape = true) :
    Player.ExpandCapsule env N false s = (false, s) := by
  unfold Player.ExpandCapsule
  lift_lets
  extract_lets CurrentHalfHeight ComponentScale OldUnscaledHalfHeight HalfHeightAdjust
    ScaledHalfHeightAdjust PawnLocation SweepInflation StandingCapsuleShape bEnc1 PawnRadius
    ShrinkHalfHeight TraceDist Down ShortCapsuleShape Hit DistanceToBase NewLoc bEnc2
    StandingLocation bEnc3 Lowered q r
  have h1 : bEnc1 = true := hover _ _
  have h2 : bEnc2 = true := hover _ _
  have h3 : bEnc3 = true := hover _ _
  have hq : q.1 = true := by
    show (if _ then _ else _ : Bool × FVector).1 = true
    split
    · exact hover _ _
    · exact h3
  have hr : r = (true, s) := by
    show (if _ then _ else _ : Bool × Player.State) = (true, s)
    rw [if_pos (by simp)]
    by_cases hb : s.bCrouchMaintainsBaseLocation = true
    · rw [if_neg (not_not.mpr hb), if_neg (not_not.mpr hq)]
    · rw [if_pos hb, if_pos h1]
      by_cases hS : ScaledHalfHeightAdjust > 0
      · rw [if_pos hS]
        by_cases hH : Hit.bStartPenetrating = true
        · rw [if_pos hH]
        · rw [if_neg hH, if_neg (not_not.mpr h2)]
      · rw [if_neg hS]
  have hr1 : r.1 = true := by rw [hr]
  have hr2 : r.2 = s := by rw [hr]
  split
  · rw [hr2]
  · rename_i h
    exact absurd hr1 h

/-- A local `UnCrouch` of a crouched character in a world where every overlap test reports
encroachment returns the state it was given. -/
theorem Player.UnCrouch_blocked (env : Env) (dt : ℚ) (s : Player.State)
    (hcr : s.bIsCrouched = true)
    (hover : ∀ loc shape, env.OverlapBlockingTestByChannel loc shape = true) :
    Player.UnCrouch env false dt s = s := by
  unfold Player.UnCrouch
  rw [Player.ExpandCapsule_blocked env _ s hover]
  split
  · rfl
  · split
    · rfl
    · lift_lets
      extract_lets e src r
      have hr : r = (true, s) := by
        show (if _ then _ else _ : Bool × Player.State) = _
        rw [if_pos ⟨by simp, hcr⟩]
        rfl
      have hr1 : r.1 = true := by rw [hr]
      have hr2 : r.2 = s := by rw [hr]
      split
      · exact hr2
      · rename_i h
        exact absurd hr1 h

/-- An accepted local `UnCrouch` call of a character whose crouched flag is clear, in closed
form: `ExpandCapsule` is not called, the transition is entered, the tracked height is advanced
toward the standing half-height and the eye height interpolated; the transition is cleared
exactly when the tracked height has reached the standing half-height. -/
theorem Player.UnCrouch_local_standing_eq (env : Env) (dt : ℚ) (s : Player.State)
    (hv : env.HasValidData = true) (hcr : s.bIsCrouched = false) :
    Player.UnCrouch env false dt s =
      (let h := FMath.Max3 0 s.Capsule.CapsuleRadius
          (FMath.FInterpConstantTo s.InternalCapsuleHeight s.DefaultCapsule.CapsuleHalfHeight dt
            ((s.DefaultCapsule.CapsuleHalfHeight - s.CrouchedHalfHeight) / s.CrouchTime))
       let s2 : Player.State :=
         { s with CurrentTransition := Player.EMovementTransition.Crouch_to_Stand,
                  InternalCapsuleHeight := h,
                  BaseEyeHeight := FMath.Lerp s.CrouchedEyeHeight s.DefaultEyeHeight
                    ((h - s.CrouchedHalfHeight)
                      / (s.DefaultCapsule.CapsuleHalfHeight - s.CrouchedHalfHeight)) }
       if h ≠ s.DefaultCapsule.CapsuleHalfHeight then Player.RecalculateBaseEyeHeight s2
       else { s2 with CurrentTransition := Player.EMovementTransition.None,
                      bCheckCrouch := false }) := by
  unfold Player.UnCrouch
  rw [if_neg (by simp [hv]), if_neg (by simp)]
  cases s with
  | mk cr _ _ _ _ _ _ _ _ _ _ _ _ _ _ _ _ _ tr _ _ _ _ _ _ _ _ _ _ _ _ _ _ _ _ =>
    simp only at hcr
    subst hcr
    cases tr <;> rfl

/-- C9: blocked growth (Player variant). If the crouched flag is set and every overlap test
reports encroachment (whatever the downward sweep returns), a local `UnCrouch(false, dt)`
returns the very state it was given, for every `dt`: `InternalCapsuleHeight`,
`CurrentTransition`, `bIsCrouched`, the capsule radius and half-height and the component
location are unchanged. Hence after any sequence of such calls the state is still the initial
one: `UnCrouch` never completes, the tracked height does not exceed its prior value and
`bIsCrouched` stays true. -/
theorem C9_blocked_uncrouch (env : Env) (dt : ℚ) (s : Player.State)
    (hcr : s.bIsCrouched = true)
    (hover : ∀ loc shape, env.OverlapBlockingTestByChannel loc shape = true) :
    Player.UnCrouch env false dt s = s
      ∧ (Player.UnCrouch env false dt s).InternalCapsuleHeight = s.InternalCapsuleHeight
      ∧ (Player.UnCrouch env false dt s).CurrentTransition = s.CurrentTransition
      ∧ (Player.UnCrouch env false dt s).bIsCrouched = true
      ∧ (Player.UnCrouch env false dt s).Capsule = s.Capsule
      ∧ (Player.UnCrouch env false dt s).Location = s.Location
      ∧ ∀ dts : List ℚ,
          Player.UnCrouchSeq env false dts s = s
            ∧ (Player.UnCrouchSeq env false dts s).bIsCrouched = true
            ∧ (Player.UnCrouchSeq env false dts s).InternalCapsuleHeight
                ≤ s.InternalCapsuleHeight := by
  have h1 : ∀ d : ℚ, Player.UnCrouch env false d s = s :=
    fun d => Player.UnCrouch_blocked env d s hcr hover
  have hseq : ∀ dts : List ℚ, Player.UnCrouchSeq env false dts s = s := by
    intro dts
    induction dts with
    | nil => rfl
    | cons d ds ih =>
      unfold Player.UnCrouchSeq at ih ⊢
      rw [List.foldl_cons, h1 d]
      exact ih
  refine ⟨h1 dt, by rw [h1 dt], by rw [h1 dt], by rw [h1 dt]; exact hcr, by rw [h1 dt],
    by rw [h1 dt], fun dts => ⟨hseq dts, by rw [hseq dts]; exact hcr, by rw [hseq dts]⟩⟩

/-- C9, witness: the crouched character of the scenario under an all-blocking world. -/
theorem C9_blocked_uncrouch_witness :
    Player.UnCrouchSeq Env.Blocked false [1 / 10, 1 / 10, 5] Player.Crouched = Player.Crouched
      ∧ Player.Crouched.bIsCrouched = true :=
  ⟨((C9_blocked_uncrouch Env.Blocked (1 / 10) Player.Crouched rfl (fun _ _ => rfl)).2.2.2.2.2.2
      [1 / 10, 1 / 10, 5]).1, rfl⟩

/-- C10, counterexample: in the unobstructed world a local `UnCrouch(false, 0.1)` of the fully
crouched character (capsule half-height 60, standing half-height 88) grows the capsule
half-height to 88 although the tracked height after the call is 61.4, short of the target. -/
theorem C10_uncrouch_resizes_early :
    Player.Crouched.Capsule.CapsuleHalfHeight = 60
      ∧ Player.Crouched.DefaultCapsule.CapsuleHalfHeight = 88
      ∧ (Player.UnCrouch Env.Unobstructed false (1 / 10) Player.Crouched).Capsule.CapsuleHalfHeight
          = 88
      ∧ (Player.UnCrouch Env.Unobstructed false (1 / 10) Player.Crouched).InternalCapsuleHeight
          = 307 / 5
      ∧ (Player.UnCrouch Env.Unobstructed false (1 / 10) Player.Crouched).InternalCapsuleHeight
          ≠ Player.Crouched.DefaultCapsule.CapsuleHalfHeight := by
  decide!

/-- C10 (amended): discrete commit in the Player variant. A local `Crouch(false, dt)` call
after which the tracked `InternalCapsuleHeight` differs from the crouched half-height leaves the
capsule (radius and half-height) untouched, so `Crouch` resizes the capsule only on a call that
reaches its target. A local `UnCrouch(false, dt)` call that starts with `bIsCrouched` clear
leaves the capsule untouched whatever the tracked height; `UnCrouch` resizes the capsule only on
a call that starts with `bIsCrouched` set, through the `ExpandCapsule` at its very beginning. -/
theorem C10_capsule_commit (env : Env) (dt : ℚ) (s : Player.State) :
    ((Player.Crouch env false dt s).InternalCapsuleHeight ≠ s.CrouchedHalfHeight →
        (Player.Crouch env false dt s).Capsule = s.Capsule)
      ∧ (s.bIsCrouched = false → (Player.UnCrouch env false dt s).Capsule = s.Capsule) := by
  constructor
  · by_cases hv : env.HasValidData = true
    · by_cases hc : env.CanCrouchInCurrentState = true
      · rw [Player.Crouch_local_eq env dt s hv hc]
        dsimp only
        split
        · intro _
          rw [(Player.RecalculateBaseEyeHeight_fields _).2.2.2.2.2.2.2.1]
        · rename_i heq
          intro hne
          exfalso
          apply hne
          rw [(Player.ShrinkCapsule_fields env s.CrouchedHalfHeight false _).1]
          exact not_not.mp heq
      · intro _
        unfold Player.Crouch
        rw [if_neg (by simp [hv]), if_pos (by simp [hc])]
    · intro _
      unfold Player.Crouch
      rw [if_pos hv]
  · intro hcr
    by_cases hv : env.HasValidData = true
    · rw [Player.UnCrouch_local_standing_eq env dt s hv hcr]
      dsimp only
      split
      · rw [(Player.RecalculateBaseEyeHeight_fields _).2.2.2.2.2.2.2.1]
      · rfl
    · unfold Player.UnCrouch
      rw [if_pos hv]

/-- C10 (amended), witness: the first `Crouch(false, 0.1)` call from standing leaves the tracked
height (86.6) short of the crouched half-height, and the capsule is untouched. -/
theorem C10_capsule_commit_witness :
    (Player.Crouch Env.Unobstructed false (1 / 10) Player.Standing).InternalCapsuleHeight
        ≠ Player.Standing.CrouchedHalfHeight
      ∧ (Player.Crouch Env.Unobstructed false (1 / 10) Player.Standing).Capsule
        = Player.Standing.Capsule :=
  ⟨by decide!,
   (C10_capsule_commit Env.Unobstructed (1 / 10) Player.Standing).1 (by decide!)⟩

/-! ### Intent flags are not written by the crouch code (Player variant) -/

theorem Player.SameIntent.trans {a b c : Player.State} (h : Player.SameIntent a b)
    (k : Player.SameIntent b c) : Player.SameIntent a c :=
  ⟨h.1.trans k.1, h.2.1.trans k.2.1, h.2.2.1.trans k.2.2.1, h.2.2.2.1.trans k.2.2.2.1,
    h.2.2.2.2.trans k.2.2.2.2⟩

theorem Player.RecalculateBaseEyeHeight_intent (s : Player.State) :
    Player.SameIntent (Player.RecalculateBaseEyeHeight s) s := by
  unfold Player.RecalculateBaseEyeHeight
  split_ifs <;> exact ⟨rfl, rfl, rfl, rfl, rfl⟩

theorem Player.CapsuleAdjusted_intent (a b : ℚ) (s : Player.State) :
    Player.SameIntent (Player.CapsuleAdjusted a b s) s := by
  unfold Player.CapsuleAdjusted
  lift_lets
  extract_lets s1 s2 s3
  have h2 : Player.SameIntent s2 s :=
    (Player.RecalculateBaseEyeHeight_intent s1).trans ⟨rfl, rfl, rfl, rfl, rfl⟩
  split
  · exact Player.SameIntent.trans ⟨rfl, rfl, rfl, rfl, rfl⟩ h2
  · exact Player.SameIntent.trans ⟨rfl, rfl, rfl, rfl, rfl⟩ h2

theorem Player.ShrinkCapsule_intent (env : Env) (N : ℚ) (b : Bool) (s : Player.State) :
    Player.SameIntent (Player.ShrinkCapsule env N b s).2 s := by
  unfold Player.ShrinkCapsule
  lift_lets
  extract_lets ComponentScale OldH OldR s1 HA SHA s2 s3 MeshAdjust HA2 SHA2 s4 s5 off
  have h2 : Player.SameIntent s2 s := by
    unfold s2
    split_ifs <;> exact ⟨rfl, rfl, rfl, rfl, rfl⟩
  have h5 : Player.SameIntent s5 s :=
    (Player.CapsuleAdjusted_intent HA2 SHA2 s4).trans
      (Player.SameIntent.trans ⟨rfl, rfl, rfl, rfl, rfl⟩ h2)
  split
  · exact ⟨rfl, rfl, rfl, rfl, rfl⟩
  · split
    · exact Player.SameIntent.trans ⟨rfl, rfl, rfl, rfl, rfl⟩ h5
    · exact h5

theorem Player.ExpandCapsule_intent (env : Env) (N : ℚ) (b : Bool) (s : Player.State) :
    Player.SameIntent (Player.ExpandCapsule env N b s).2 s := by
  unfold Player.ExpandCapsule
  lift_lets
  extract_lets CurrentHalfHeight ComponentScale OldUnscaledHalfHeight HalfHeightAdjust
    ScaledHalfHeightAdjust PawnLocation SweepInflation StandingCapsuleShape bEnc1 PawnRadius
    ShrinkHalfHeight TraceDist Down ShortCapsuleShape Hit DistanceToBase NewLoc bEnc2
    StandingLocation bEnc3 Lowered q r s3 s4 MeshAdjust s5 s6 off
  have hr : Player.SameIntent r.2 s := by
    unfold r
    split_ifs <;> exact ⟨rfl, rfl, rfl, rfl, rfl⟩
  have h6 : Player.SameIntent s6 s :=
    (Player.CapsuleAdjusted_intent HalfHeightAdjust ScaledHalfHeightAdjust s5).trans
      (Player.SameIntent.trans ⟨rfl, rfl, rfl, rfl, rfl⟩ hr)
  split
  · exact hr
  · split
    · exact Player.SameIntent.trans ⟨rfl, rfl, rfl, rfl, rfl⟩ h6
    · exact h6

theorem Player.Crouch_intent (env : Env) (b : Bool) (dt : ℚ) (s : Player.State) :
    Player.SameIntent (Player.Crouch env b dt s) s := by
  unfold Player.Crouch
  split
  · exact ⟨rfl, rfl, rfl, rfl, rfl⟩
  split
  · exact ⟨rfl, rfl, rfl, rfl, rfl⟩
  split
  · exact ⟨rfl, rfl, rfl, rfl, rfl⟩
  lift_lets
  extract_lets s1 s2 OldR DefH IS0 r IS s3 Cl s4 NA s5 s6
  have h1 : Player.SameIntent s1 s := by
    unfold s1
    split_ifs <;> exact ⟨rfl, rfl, rfl, rfl, rfl⟩
  have h2 : Player.SameIntent s2 s1 := by
    unfold s2
    split_ifs <;> exact ⟨rfl, rfl, rfl, rfl, rfl⟩
  have h3 : Player.SameIntent s3 s2 := by
    unfold s3 r
    split_ifs <;> exact ⟨rfl, rfl, rfl, rfl, rfl⟩
  have h5 : Player.SameIntent s5 s4 := by
    unfold s5
    split_ifs <;> exact ⟨rfl, rfl, rfl, rfl, rfl⟩
  have h : Player.SameIntent s5 s :=
    h5.trans (Player.SameIntent.trans ⟨rfl, rfl, rfl, rfl, rfl⟩ (h3.trans (h2.trans h1)))
  split
  · exact (Player.RecalculateBaseEyeHeight_intent s5).trans h
  · exact Player.SameIntent.trans ⟨rfl, rfl, rfl, rfl, rfl⟩
      ((Player.ShrinkCapsule_intent env _ b s5).trans h)

theorem Player.UnCrouch_intent (env : Env) (b : Bool) (dt : ℚ) (s : Player.State) :
    Player.SameIntent (Player.UnCrouch env b dt s) s := by
  unfold Player.UnCrouch
  split
  · exact ⟨rfl, rfl, rfl, rfl, rfl⟩
  split
  · exact ⟨rfl, rfl, rfl, rfl, rfl⟩
  lift_lets
  extract_lets e src r0 s1 OldR DefH IS0 r IS s3 Cl s4 NA s5
  have h1 : Player.SameIntent s1 s := by
    have he : Player.SameIntent e.2 s := Player.ExpandCapsule_intent env _ b s
    unfold s1 r0
    split_ifs
    · exact Player.SameIntent.trans ⟨rfl, rfl, rfl, rfl, rfl⟩ he
    · exact he
    · exact Player.ExpandCapsule_intent env _ b s
    · exact ⟨rfl, rfl, rfl, rfl, rfl⟩
  have h3 : Player.SameIntent s3 s1 := by
    unfold s3 r
    split_ifs <;> exact ⟨rfl, rfl, rfl, rfl, rfl⟩
  have h5 : Player.SameIntent s5 s4 := by
    unfold s5
    split_ifs <;> exact ⟨rfl, rfl, rfl, rfl, rfl⟩
  have h : Player.SameIntent s5 s :=
    h5.trans (Player.SameIntent.trans ⟨rfl, rfl, rfl, rfl, rfl⟩ (h3.trans h1))
  split
  · exact h1
  · split
    · exact (Player.RecalculateBaseEyeHeight_intent s5).trans h
    · exact Player.SameIntent.trans ⟨rfl, rfl, rfl, rfl, rfl⟩ h

/-! ### The state resolver of the Player variant -/

/-- The resolver is its jump and sprint rules followed by the crouch dispatch. -/
theorem Player.UpdateCharacterStateBeforeMovement_eq (env : Env) (dt : ℚ) (s : Player.State) :
    Player.UpdateCharacterStateBeforeMovement env dt s
      = (if env.CanCrouchInCurrentState = true
            ∧ (Player.StateAfterJumpAndSprintRules env s).bWantsToCrouch = true
            ∧ ¬ (s.bIsCrouched = true ∧ (Player.StateAfterJumpAndSprintRules env s).CurrentTransition
                  = Player.EMovementTransition.None) then
          (Player.Crouch env false dt (Player.StateAfterJumpAndSprintRules env s),
            [TransitionCall.Crouch false dt])
        else if ¬ env.CanCrouchInCurrentState = true
            ∨ (Player.StateAfterJumpAndSprintRules env s).bWantsToSprint = true
            ∨ (¬ (Player.StateAfterJumpAndSprintRules env s).bWantsToCrouch = true
                ∧ (s.bIsCrouched = true
                  ∨ (Player.StateAfterJumpAndSprintRules env s).CurrentTransition
                      ≠ Player.EMovementTransition.None)) then
          (Player.UnCrouch env false dt (Player.StateAfterJumpAndSprintRules env s),
            [TransitionCall.UnCrouch false dt])
        else (Player.StateAfterJumpAndSprintRules env s, [])) := rfl

/-- What the jump and sprint rules leave alone, and what they do to the flags. -/
theorem Player.StateAfterJumpAndSprintRules_fields (env : Env) (s : Player.State) :
    (Player.StateAfterJumpAndSprintRules env s).bIsCrouched = s.bIsCrouched
      ∧ (Player.StateAfterJumpAndSprintRules env s).CurrentTransition = s.CurrentTransition
      ∧ (Player.StateAfterJumpAndSprintRules env s).bCanSprint = s.bCanSprint
      ∧ ((Player.StateAfterJumpAndSprintRules env s).bPressedJump
          = (s.bPressedJump && !(decide (s.CurrentTransition ≠ Player.EMovementTransition.None)
              || s.bIsCrouched)))
      ∧ ((Player.StateAfterJumpAndSprintRules env s).bWantsToCrouch = true →
          s.bWantsToCrouch = true ∧ ¬ (s.bPressedJump = true
            ∧ (s.CurrentTransition ≠ Player.EMovementTransition.None ∨ s.bIsCrouched = true)))
      ∧ ((Player.StateAfterJumpAndSprintRules env s).bIsSprinting
          = if s.bIsSprinting = true then
              decide (s.bWantsToSprint = true ∧ env.IsMovingOnGround = true
                ∧ Player.IsMovingForward env = true ∧ s.bCanSprint = true
                ∧ (Player.StateAfterJumpAndSprintRules env s).bWantsToCrouch = false)
            else
              decide (Player.IsMovingForward env = true ∧ s.bWantsToSprint = true
                ∧ env.IsMovingOnGround = true ∧ s.bCanSprint = true
                ∧ s.CurrentTransition = Player.EMovementTransition.None
                ∧ s.bIsCrouched = false)) := by
  unfold Player.StateAfterJumpAndSprintRules Player.IsCrouching Player.IsSprinting
  dsimp only
  split_ifs <;> simp_all <;> aesop

/-- The crouch dispatch of the resolver leaves the intent and sprint flags as the jump and
sprint rules set them. -/
theorem Player.UpdateCharacterStateBeforeMovement_intent (env : Env) (dt : ℚ)
    (s : Player.State) :
    Player.SameIntent (Player.UpdateCharacterStateBeforeMovement env dt s).1
      (Player.StateAfterJumpAndSprintRules env s) := by
  rw [Player.UpdateCharacterStateBeforeMovement_eq]
  split_ifs
  · exact Player.Crouch_intent env false dt _
  · exact Player.UnCrouch_intent env false dt _
  · exact ⟨rfl, rfl, rfl, rfl, rfl⟩

/-- The forward test passes exactly with a controller and a dot product of at least
`0.7071f`. -/
theorem Player.IsMovingForward_iff (env : Env) :
    Player.IsMovingForward env = true
      ↔ env.bHasController = true ∧ 11863169 / 16777216 ≤ env.DirectionDot := by
  unfold Player.IsMovingForward
  dsimp only
  split_ifs with h1 h2
  · simp_all
  · simp_all
  · simp_all

/-- The invocation list of a two-way dispatch: which call it holds, and that it holds at most
one. -/
theorem dispatch_trace {α : Type} (C U : Prop) [Decidable C] [Decidable U] (dt : ℚ)
    (a b c : α) :
    ((if C then (a, [TransitionCall.Crouch false dt])
        else if U then (b, [TransitionCall.UnCrouch false dt]) else (c, [])).2
          = [TransitionCall.Crouch false dt] ↔ C)
      ∧ ((if C then (a, [TransitionCall.Crouch false dt])
        else if U then (b, [TransitionCall.UnCrouch false dt]) else (c, [])).2
          = [TransitionCall.UnCrouch false dt] ↔ (¬ C ∧ U))
      ∧ (if C then (a, [TransitionCall.Crouch false dt])
        else if U then (b, [TransitionCall.UnCrouch false dt]) else (c, [])).2.length ≤ 1
      ∧ ¬ (TransitionCall.Crouch false dt ∈ (if C then (a, [TransitionCall.Crouch false dt])
              else if U then (b, [TransitionCall.UnCrouch false dt]) else (c, [])).2
            ∧ TransitionCall.UnCrouch false dt ∈ (if C then (a, [TransitionCall.Crouch false dt])
              else if U then (b, [TransitionCall.UnCrouch false dt]) else (c, [])).2) := by
  by_cases hC : C <;> by_cases hU : U <;> simp [hC, hU]

/-! ### Sprint flags are not raised by the crouch code (prone-supporting variant) -/

theorem Prone.SprintFrame.comp {a b c : Prone.State} (h : Prone.SprintFrame a b)
    (k : Prone.SprintFrame b c) : Prone.SprintFrame a c :=
  ⟨h.1.trans k.1, h.2.1.trans k.2.1, fun x => k.2.2 (h.2.2 x)⟩

theorem Prone.Crouch_sprint (env : Env) (b : Bool) (dt : ℚ) (s : Prone.State) :
    Prone.SprintFrame (Prone.Crouch env b dt s) s := by
  unfold Prone.Crouch
  split
  · exact ⟨rfl, rfl, id⟩
  split
  · exact ⟨rfl, rfl, id⟩
  split
  · split <;> exact ⟨rfl, rfl, id⟩
  lift_lets
  extract_lets s0 CS OldH OldR DefH s8 NewAlpha s7 Cl2 Cl1 r s6 Cl s5 HA SHA s4 s3 s2 MeshAdjust
    HA2 SHA2 s1 sF off
  have h0 : Prone.SprintFrame s0 s := by
    unfold s0
    split_ifs <;> exact ⟨rfl, rfl, id⟩
  have h8 : Prone.SprintFrame s8 s0 := by
    unfold s8
    split_ifs
    · exact ⟨rfl, rfl, fun x => absurd x (by simp)⟩
    · exact ⟨rfl, rfl, id⟩
  have h6 : Prone.SprintFrame s6 s0 := by
    unfold s6 r
    by_cases hb : b = true
    · rw [if_neg (not_not.mpr hb)]
      exact ⟨rfl, rfl, id⟩
    · rw [if_pos hb]
      exact Prone.SprintFrame.comp ⟨rfl, rfl, id⟩ h8
  have h5 : Prone.SprintFrame s5 s := Prone.SprintFrame.comp ⟨rfl, rfl, id⟩ (h6.comp h0)
  have h4 : Prone.SprintFrame s4 s5 := by
    unfold s4
    split_ifs <;> exact ⟨rfl, rfl, id⟩
  have h3 : Prone.SprintFrame s3 s5 := by
    unfold s3
    by_cases hb : b = true
    · rw [if_neg (not_not.mpr hb)]
      exact ⟨rfl, rfl, id⟩
    · rw [if_pos hb]
      split
      · exact Prone.SprintFrame.comp ⟨rfl, rfl, id⟩ h4
      · exact h4
  have hF : Prone.SprintFrame sF s :=
    Prone.SprintFrame.comp ⟨rfl, rfl, id⟩ (h3.comp h5)
  split
  · exact Prone.SprintFrame.comp ⟨rfl, rfl, id⟩ h5
  · split
    · exact Prone.SprintFrame.comp ⟨rfl, rfl, id⟩ hF
    · exact hF

theorem Prone.UnCrouch_sprint (env : Env) (b : Bool) (dt : ℚ) (s : Prone.State) :
    Prone.SprintFrame (Prone.UnCrouch env b dt s) s := by
  unfold Prone.UnCrouch
  split
  · exact ⟨rfl, rfl, id⟩
  lift_lets
  extract_lets DefH s7 CCH CS OldH OldR s6 newAlpha Cl HA SHA PawnLocation SweepInflation
    StandingCapsuleShape bEnc1 PawnRadius PawnHalfHeight ShrinkHalfHeight TraceDist Down
    ShortCapsuleShape Hit DistanceToBase NewLoc bEnc2 StandingLocation bEnc3 Lowered q r s5 s4
    DefaultRadius s3 s2 MeshAdjust s1 sF off
  have h6 : Prone.SprintFrame s6 s := by
    unfold s6
    split_ifs <;> exact ⟨rfl, rfl, id⟩
  have h5 : Prone.SprintFrame s5 s := by
    have : Prone.SprintFrame s5 s6 := by
      unfold s5 r
      split_ifs <;> exact ⟨rfl, rfl, id⟩
    exact this.comp h6
  have h4 : Prone.SprintFrame s4 s5 := by
    unfold s4
    split_ifs <;> exact ⟨rfl, rfl, id⟩
  have h2 : Prone.SprintFrame s2 s3 := by
    unfold s2
    split_ifs <;> exact ⟨rfl, rfl, id⟩
  have hF : Prone.SprintFrame sF s :=
    Prone.SprintFrame.comp ⟨rfl, rfl, id⟩
      (h2.comp (Prone.SprintFrame.comp ⟨rfl, rfl, id⟩ (h4.comp h5)))
  have h7 : Prone.SprintFrame s7 s := by
    unfold s7
    split_ifs <;> exact ⟨rfl, rfl, id⟩
  split
  · exact Prone.SprintFrame.comp ⟨rfl, rfl, id⟩ h7
  · split
    · exact h5
    · split
      · exact Prone.SprintFrame.comp ⟨rfl, rfl, id⟩ hF
      · exact hF

/-! ### Geometry of `ShrinkCapsule` -/

/-- A swept move by the zero vector leaves the component where it is. -/
theorem MoveComponentSweep_zero (env : Env) (Start : FVector) :
    MoveComponentSweep env Start ⟨0, 0, 0⟩ = Start := by
  unfold MoveComponentSweep
  rw [if_pos (by decide!)]

/-- The deferred proxy shrink does nothing unless it is pending on a simulated proxy. -/
theorem AdjustProxyCapsuleSizeOn_idle (f : Bool) (role : ENetRole) (a b : ℚ)
    (c : UCapsuleComponent) (h : ¬ (f = true ∧ role = ENetRole.ROLE_SimulatedProxy)) :
    AdjustProxyCapsuleSizeOn f role a b c = (f, c) := by
  unfold AdjustProxyCapsuleSizeOn
  rw [if_neg h]

/-- The engine setter stores a well-formed size unchanged. -/
theorem UCapsuleComponent.SetCapsuleSize_eq (R N : ℚ) (c : UCapsuleComponent) (h0 : 0 ≤ R)
    (hRN : R ≤ N) :
    c.SetCapsuleSize R N = { c with CapsuleRadius := R, CapsuleHalfHeight := N } := by
  unfold UCapsuleComponent.SetCapsuleSize
  rw [FMath.Max3_eq_max, FMath.Max_eq_max, max_eq_right h0,
    max_eq_right (le_trans h0 hRN), max_eq_left hRN]

/-- `CapsuleAdjusted` records its invocation and nothing else in the callback record. -/
theorem Player.CapsuleAdjusted_calls (a b : ℚ) (s : Player.State) :
    (Player.CapsuleAdjusted a b s).CapsuleAdjustedCalls = s.CapsuleAdjustedCalls ++ [(a, b)] := by
  unfold Player.CapsuleAdjusted Player.RecalculateBaseEyeHeight
  dsimp only
  split_ifs <;> rfl

/-- Shrinking to a half-height not above the current one: it succeeds, invokes
`CapsuleAdjusted` once with the change from the default size, resizes the capsule through the
engine setter (when no proxy shrink is pending) and moves the component by the swept move on
the local base-maintaining path only. -/
theorem Player.ShrinkCapsule_geometry (env : Env) (N : ℚ) (b : Bool) (s : Player.State)
    (hN : N ≤ s.Capsule.CapsuleHalfHeight) :
    (Player.ShrinkCapsule env N b s).1 = true
      ∧ (Player.ShrinkCapsule env N b s).2.CapsuleAdjustedCalls
          = s.CapsuleAdjustedCalls ++ [(s.DefaultCapsule.CapsuleHalfHeight - N,
              (s.DefaultCapsule.CapsuleHalfHeight - N) * s.Capsule.ShapeScale)]
      ∧ (¬ (s.bShrinkProxyCapsule = true ∧ s.Role = ENetRole.ROLE_SimulatedProxy) →
          (Player.ShrinkCapsule env N b s).2.Capsule
            = s.Capsule.SetCapsuleSize s.Capsule.CapsuleRadius N)
      ∧ (Player.ShrinkCapsule env N b s).2.Location
          = (if ¬ b = true ∧ s.bCrouchMaintainsBaseLocation = true then
              MoveComponentSweep env s.Location
                ⟨0, 0, -((s.Capsule.CapsuleHalfHeight - N) * s.Capsule.ShapeScale)⟩
            else s.Location) := by
  unfold Player.ShrinkCapsule
  lift_lets
  extract_lets CS OldH OldR s1 HA SHA s2 s3 MeshAdjust HA2 SHA2 s4 s5 off
  have h2 : s2.Capsule = s1.Capsule ∧ s2.bShrinkProxyCapsule = s.bShrinkProxyCapsule
      ∧ s2.Role = s.Role ∧ s2.CapsuleAdjustedCalls = s.CapsuleAdjustedCalls
      ∧ s2.DefaultCapsule = s.DefaultCapsule := by
    unfold s2
    split_ifs <;> exact ⟨rfl, rfl, rfl, rfl, rfl⟩
  have hcalls : s5.CapsuleAdjustedCalls = s.CapsuleAdjustedCalls ++ [(HA2, SHA2)] := by
    have := Player.CapsuleAdjusted_calls HA2 SHA2 s4
    rw [this]
    show s2.CapsuleAdjustedCalls ++ _ = _
    rw [h2.2.2.2.1]
  have hHA : (HA2, SHA2) = (s.DefaultCapsule.CapsuleHalfHeight - N,
      (s.DefaultCapsule.CapsuleHalfHeight - N) * s.Capsule.ShapeScale) := by
    show (s2.DefaultCapsule.CapsuleHalfHeight - N,
      (s2.DefaultCapsule.CapsuleHalfHeight - N) * s.Capsule.ShapeScale) = _
    rw [h2.2.2.2.2]
  have hcap : ¬ (s.bShrinkProxyCapsule = true ∧ s.Role = ENetRole.ROLE_SimulatedProxy) →
      s5.Capsule = s.Capsule.SetCapsuleSize s.Capsule.CapsuleRadius N := by
    intro hp
    rw [(Player.CapsuleAdjusted_fields HA2 SHA2 s4).2.2.2.2.2.2.2.1]
    show (AdjustProxyCapsuleSizeOn s2.bShrinkProxyCapsule s2.Role _ _ s2.Capsule).2 = _
    rw [h2.2.1, h2.2.2.1, AdjustProxyCapsuleSizeOn_idle _ _ _ _ _ hp, h2.1]
    rfl
  have hloc : s5.Location = (if ¬ b = true ∧ s.bCrouchMaintainsBaseLocation = true then
      MoveComponentSweep env s.Location
        ⟨0, 0, -((s.Capsule.CapsuleHalfHeight - N) * s.Capsule.ShapeScale)⟩
      else s.Location) := by
    rw [(Player.CapsuleAdjusted_fields HA2 SHA2 s4).2.2.2.2.2.2.2.2]
    show s2.Location = _
    unfold s2
    split_ifs <;> rfl
  split
  · rename_i h
    exact absurd h.2.1 (not_lt.mpr hN)
  · split
    · exact ⟨rfl, hcalls.trans (by rw [hHA]), hcap, hloc⟩
    · exact ⟨rfl, hcalls.trans (by rw [hHA]), hcap, hloc⟩

/-! ### Bounds of the tracked half-height -/

/-- With a non-negative step the interpolation stays between the current value and the
target, however large the step. -/
theorem FMath.FInterpConstantTo_between (h T dt v : ℚ) (hs : 0 ≤ v * dt) :
    min h T ≤ FMath.FInterpConstantTo h T dt v ∧ FMath.FInterpConstantTo h T dt v ≤ max h T := by
  unfold FMath.FInterpConstantTo FMath.Clamp
  simp only []
  rcases le_total h T with hle | hle
  · rw [min_eq_left hle, max_eq_right hle]
    split_ifs <;> constructor <;> linarith
  · rw [min_eq_right hle, max_eq_left hle]
    split_ifs <;> constructor <;> linarith

/-- The interpolation speed of the Player variant is non-negative for a positive `CrouchTime`
and a crouched half-height not above the standing one. -/
theorem interp_step_nonneg (H C T dt : ℚ) (hCH : C ≤ H) (hT : 0 < T) (hdt : 0 ≤ dt) :
    0 ≤ (H - C) / T * dt :=
  mul_nonneg (div_nonneg (by linarith) (le_of_lt hT)) hdt

/-- A value at least the floor and non-negative passes the clamp unchanged, so a value within
the bounds stays within them. -/
theorem FMath.Max3_floor_between (R x C H : ℚ) (hR0 : 0 ≤ R) (hRC : R ≤ C) (hCx : C ≤ x)
    (hxH : x ≤ H) : C ≤ FMath.Max3 0 R x ∧ FMath.Max3 0 R x ≤ H := by
  rw [FMath.Max3_floor_eq R x (by linarith) (by linarith)]
  exact ⟨hCx, hxH⟩

/-- A local `Crouch` of the Player variant keeps the tracked half-height between the crouched
and the standing half-height, for every non-negative `dt`. -/
theorem Player.Crouch_local_between (env : Env) (dt : ℚ) (s : Player.State) (hdt : 0 ≤ dt)
    (hT : 0 < s.CrouchTime) (hR0 : 0 ≤ s.Capsule.CapsuleRadius)
    (hRC : s.Capsule.CapsuleRadius ≤ s.CrouchedHalfHeight)
    (hCH : s.CrouchedHalfHeight ≤ s.DefaultCapsule.CapsuleHalfHeight)
    (hCI : s.CrouchedHalfHeight ≤ s.InternalCapsuleHeight)
    (hIH : s.InternalCapsuleHeight ≤ s.DefaultCapsule.CapsuleHalfHeight) :
    s.CrouchedHalfHeight ≤ (Player.Crouch env false dt s).InternalCapsuleHeight
      ∧ (Player.Crouch env false dt s).InternalCapsuleHeight
          ≤ s.DefaultCapsule.CapsuleHalfHeight := by
  by_cases hv : env.HasValidData = true
  · by_cases hc : env.CanCrouchInCurrentState = true
    · have hB := FMath.FInterpConstantTo_between s.InternalCapsuleHeight s.CrouchedHalfHeight dt
        ((s.DefaultCapsule.CapsuleHalfHeight - s.CrouchedHalfHeight) / s.CrouchTime)
        (interp_step_nonneg _ _ _ _ hCH hT hdt)
      rw [min_eq_right hCI, max_eq_left hCI] at hB
      have hM := FMath.Max3_floor_between s.Capsule.CapsuleRadius _ _ _ hR0 hRC hB.1
        (le_trans hB.2 hIH)
      rw [Player.Crouch_local_eq env dt s hv hc]
      dsimp only
      split
      · rw [(Player.RecalculateBaseEyeHeight_fields _).1]
        exact hM
      · show _ ≤ (Player.ShrinkCapsule _ _ _ _).2.InternalCapsuleHeight
          ∧ (Player.ShrinkCapsule _ _ _ _).2.InternalCapsuleHeight ≤ _
        rw [(Player.ShrinkCapsule_fields _ _ _ _).1]
        exact hM
    · have : Player.Crouch env false dt s = s := by
        unfold Player.Crouch
        rw [if_neg (not_not.mpr hv), if_pos ⟨by simp, hc⟩]
      rw [this]
      exact ⟨hCI, hIH⟩
  · have : Player.Crouch env false dt s = s := by
      unfold Player.Crouch
      rw [if_pos hv]
    rw [this]
    exact ⟨hCI, hIH⟩

/-- The configuration and tracked height are left alone by `ExpandCapsule`, and the capsule
radius afterwards is the old one or at most the default radius (floored at zero). -/
theorem Player.ExpandCapsule_track (env : Env) (N : ℚ) (b : Bool) (s : Player.State) :
    (Player.ExpandCapsule env N b s).2.InternalCapsuleHeight = s.InternalCapsuleHeight
      ∧ (Player.ExpandCapsule env N b s).2.CrouchedHalfHeight = s.CrouchedHalfHeight
      ∧ (Player.ExpandCapsule env N b s).2.CrouchTime = s.CrouchTime
      ∧ (Player.ExpandCapsule env N b s).2.DefaultCapsule = s.DefaultCapsule
      ∧ (Player.ExpandCapsule env N b s).2.Capsule.CapsuleRadius
          ≤ max s.Capsule.CapsuleRadius (max 0 s.DefaultCapsule.CapsuleRadius) := by
  unfold Player.ExpandCapsule
  lift_lets
  extract_lets CurrentHalfHeight ComponentScale OldUnscaledHalfHeight HalfHeightAdjust
    ScaledHalfHeightAdjust PawnLocation SweepInflation StandingCapsuleShape bEnc1 PawnRadius
    ShrinkHalfHeight TraceDist Down ShortCapsuleShape Hit DistanceToBase NewLoc bEnc2
    StandingLocation bEnc3 Lowered q r s3 s4 MeshAdjust s5 s6 off
  have hr : r.2.InternalCapsuleHeight = s.InternalCapsuleHeight
      ∧ r.2.CrouchedHalfHeight = s.CrouchedHalfHeight ∧ r.2.CrouchTime = s.CrouchTime
      ∧ r.2.DefaultCapsule = s.DefaultCapsule ∧ r.2.Capsule = s.Capsule := by
    unfold r
    split_ifs <;> exact ⟨rfl, rfl, rfl, rfl, rfl⟩
  have h4 : s4.Capsule.CapsuleRadius = max 0 s.DefaultCapsule.CapsuleRadius := by
    show FMath.Max 0 r.2.DefaultCapsule.CapsuleRadius = _
    rw [FMath.Max_eq_max, hr.2.2.2.1]
  have h6 : s6.InternalCapsuleHeight = s.InternalCapsuleHeight
      ∧ s6.CrouchedHalfHeight = s.CrouchedHalfHeight ∧ s6.CrouchTime = s.CrouchTime
      ∧ s6.DefaultCapsule = s.DefaultCapsule
      ∧ s6.Capsule.CapsuleRadius
          ≤ max s.Capsule.CapsuleRadius (max 0 s.DefaultCapsule.CapsuleRadius) := by
    have hC := Player.CapsuleAdjusted_fields HalfHeightAdjust ScaledHalfHeightAdjust s5
    refine ⟨hC.1.trans hr.1, hC.2.2.2.2.1.trans hr.2.1, hC.2.2.2.2.2.1.trans hr.2.2.1,
      hC.2.2.2.2.2.2.1.trans hr.2.2.2.1, ?_⟩
    rw [hC.2.2.2.2.2.2.2.1]
    show (AdjustProxyCapsuleSizeOn s4.bShrinkProxyCapsule s4.Role _ _ s4.Capsule).2.CapsuleRadius
      ≤ _
    refine le_trans (AdjustProxyCapsuleSizeOn_radius _ _ _ _ s4.Capsule
      (by rw [h4]; exact le_max_left _ _)).2 ?_
    rw [h4]
    exact le_max_right _ _
  split
  · refine ⟨hr.1, hr.2.1, hr.2.2.1, hr.2.2.2.1, ?_⟩
    show r.2.Capsule.CapsuleRadius ≤ _
    rw [hr.2.2.2.2]
    exact le_max_left _ _
  · split
    · exact h6
    · exact h6

/-- Interpolating from the standing to the crouched half-height with an alpha in `[0, 1]`
lands between the two. -/
theorem FMath.Lerp_between (H C a : ℚ) (hCH : C ≤ H) (h0 : 0 ≤ a) (h1 : a ≤ 1) :
    C ≤ FMath.Lerp H C a ∧ FMath.Lerp H C a ≤ H := by
  unfold FMath.Lerp
  constructor
  · nlinarith
  · nlinarith

/-- A local `Crouch` of the prone-supporting variant that is rejected, or that finds the
capsule already at the crouched half-height, leaves the tracked half-height alone. -/
theorem Prone.Crouch_local_idle (env : Env) (dt : ℚ) (s : Prone.State)
    (h : ¬ (env.HasValidData = true ∧ env.CanCrouchInCurrentState = true
          ∧ s.Capsule.GetUnscaledCapsuleHalfHeight ≠ s.CrouchedHalfHeight)) :
    (Prone.Crouch env false dt s).CurrentCapsuleHalfHeight = s.CurrentCapsuleHalfHeight := by
  unfold Prone.Crouch
  by_cases hv : env.HasValidData = true
  · rw [if_neg (not_not.mpr hv)]
    by_cases hc : env.CanCrouchInCurrentState = true
    · rw [if_neg (fun x => x.2 hc)]
      by_cases hh : s.Capsule.GetUnscaledCapsuleHalfHeight = s.CrouchedHalfHeight
      · rw [if_pos hh]
        rfl
      · exact absurd ⟨hv, hc, hh⟩ h
    · rw [if_pos ⟨by simp, hc⟩]
  · rw [if_pos hv]

/-- A local `UnCrouch` of the prone-supporting variant that is rejected, or that finds the
capsule already at the standing half-height, leaves the tracked half-height alone. -/
theorem Prone.UnCrouch_local_idle (env : Env) (dt : ℚ) (s : Prone.State)
    (h : ¬ (env.HasValidData = true
          ∧ s.Capsule.GetUnscaledCapsuleHalfHeight
              ≠ s.DefaultCapsule.GetUnscaledCapsuleHalfHeight)) :
    (Prone.UnCrouch env false dt s).CurrentCapsuleHalfHeight = s.CurrentCapsuleHalfHeight := by
  unfold Prone.UnCrouch
  by_cases hv : env.HasValidData = true
  · rw [if_neg (not_not.mpr hv)]
    by_cases hh : s.Capsule.GetUnscaledCapsuleHalfHeight
        = s.DefaultCapsule.GetUnscaledCapsuleHalfHeight
    · dsimp only
      rw [if_pos hh]
      rfl
    · exact absurd ⟨hv, hh⟩ h
  · rw [if_pos hv]

/-! ### The selection loop of `SimulateProneComponent` -/

/-- C11, counterexamples to the claim as stated. (a) Shrinking the crouched character (radius
34, half-height 60) to a half-height of 10 returns true but leaves the half-height at the
radius 34, not at 10: the engine setter keeps the half-height at least the radius. (b) On a
simulated proxy with a pending proxy shrink, `ShrinkCapsule(60, true)` from half-height 88
leaves radius 33.99 and half-height 59.99: `AdjustProxyCapsuleSize` takes the configured
0.01 off both. -/
theorem C11_shrink_not_exact :
    ((10 : ℚ) ≤ Player.Crouched.Capsule.GetUnscaledCapsuleHalfHeight
        ∧ (Player.ShrinkCapsule Env.Unobstructed 10 false Player.Crouched).1 = true
        ∧ (Player.ShrinkCapsule Env.Unobstructed 10 false
            Player.Crouched).2.Capsule.GetUnscaledCapsuleHalfHeight = 34)
      ∧ ((60 : ℚ) ≤ Player.ProxyCrouching.Capsule.GetUnscaledCapsuleHalfHeight
        ∧ (Player.ShrinkCapsule Env.Unobstructed 60 true
            Player.ProxyCrouching).2.Capsule.GetUnscaledCapsuleRadius = 3399 / 100
        ∧ (Player.ShrinkCapsule Env.Unobstructed 60 true
            Player.ProxyCrouching).2.Capsule.GetUnscaledCapsuleHalfHeight = 5999 / 100) := by
  decide!

/-- C11, amended: for every state, every `NewUnscaledHalfHeight` not larger than the capsule's
current unscaled half-height, both values of `bClientSimulation` and every answer of the
overlap queries, `ShrinkCapsule` returns true; and when the capsule radius is non-negative
and not larger than `NewUnscaledHalfHeight`, and no proxy shrink is pending on a simulated
proxy, it leaves the capsule radius unchanged and sets the capsule's unscaled half-height to
`NewUnscaledHalfHeight`. -/
theorem C11_shrink_unconditional (env : Env) (N : ℚ) (b : Bool) (s : Player.State)
    (hN : N ≤ s.Capsule.GetUnscaledCapsuleHalfHeight) :
    (Player.ShrinkCapsule env N b s).1 = true
      ∧ (0 ≤ s.Capsule.GetUnscaledCapsuleRadius → s.Capsule.GetUnscaledCapsuleRadius ≤ N →
          ¬ (s.bShrinkProxyCapsule = true ∧ s.Role = ENetRole.ROLE_SimulatedProxy) →
          (Player.ShrinkCapsule env N b s).2.Capsule.GetUnscaledCapsuleRadius
              = s.Capsule.GetUnscaledCapsuleRadius
            ∧ (Player.ShrinkCapsule env N b s).2.Capsule.GetUnscaledCapsuleHalfHeight = N) := by
  have hG := Player.ShrinkCapsule_geometry env N b s hN
  refine ⟨hG.1, fun h0 hRN hp => ?_⟩
  have h0r : 0 ≤ s.Capsule.CapsuleRadius := h0
  have hRr : s.Capsule.CapsuleRadius ≤ N := hRN
  rw [hG.2.2.1 hp, UCapsuleComponent.SetCapsuleSize_eq s.Capsule.CapsuleRadius N s.Capsule h0r hRr]
  exact ⟨rfl, rfl⟩

/-- C11 at concrete inputs: the standing character (radius 34, half-height 88) shrunk to 60
in a world where every overlap test reports encroachment. -/
theorem C11_shrink_unconditional_witness :
    (Player.ShrinkCapsule Env.Blocked 60 false Player.Standing).1 = true
      ∧ (Player.ShrinkCapsule Env.Blocked 60 false
            Player.Standing).2.Capsule.GetUnscaledCapsuleRadius = 34
      ∧ (Player.ShrinkCapsule Env.Blocked 60 false
            Player.Standing).2.Capsule.GetUnscaledCapsuleHalfHeight = 60 :=
  ⟨(C11_shrink_unconditional Env.Blocked 60 false Player.Standing (by decide!)).1,
   (C11_shrink_unconditional Env.Blocked 60 false Player.Standing (by decide!)).2
      (by decide!) (by decide!) (by decide)⟩

/-- C13: idempotent finalisation in the prone-supporting variant. When the component data is
valid, crouching is allowed and the capsule's unscaled half-height already equals
`CrouchedHalfHeight`, a local `Crouch(false, dt)` changes nothing but `bIsCrouched` (set),
`CurrentMovementChange` (set to `MOVE_CHANGE_NONE`) and the callback record, which gains one
`OnStartCrouch(0, 0)`: capsule, location, `CurrentCrouchAlpha` and `CurrentCapsuleHalfHeight`
are unchanged. A second call leaves the state of the first call as it is and invokes
`OnStartCrouch(0, 0)` once more. -/
theorem C13_crouch_finalisation (env : Env) (dt : ℚ) (s : Prone.State)
    (hv : env.HasValidData = true) (hc : env.CanCrouchInCurrentState = true)
    (hh : s.Capsule.GetUnscaledCapsuleHalfHeight = s.CrouchedHalfHeight) :
    Prone.Crouch env false dt s
        = { s with bIsCrouched := true,
                   CurrentMovementChange := Prone.EMovementChange.MOVE_CHANGE_NONE,
                   Calls := s.Calls ++ [Prone.Callback.OnStartCrouch 0 0] }
      ∧ Prone.Crouch env false dt (Prone.Crouch env false dt s)
        = { Prone.Crouch env false dt s with
              Calls := (Prone.Crouch env false dt s).Calls
                ++ [Prone.Callback.OnStartCrouch 0 0] } := by
  have key : ∀ t : Prone.State, t.Capsule.GetUnscaledCapsuleHalfHeight = t.CrouchedHalfHeight →
      Prone.Crouch env false dt t
        = { t with bIsCrouched := true,
                   CurrentMovementChange := Prone.EMovementChange.MOVE_CHANGE_NONE,
                   Calls := t.Calls ++ [Prone.Callback.OnStartCrouch 0 0] } := by
    intro t ht
    unfold Prone.Crouch
    rw [if_neg (not_not.mpr hv), if_neg (fun x => x.2 hc), if_pos ht]
    rfl
  refine ⟨key s hh, ?_⟩
  rw [key s hh]
  exact key _ hh

/-- C13 at concrete inputs: the character whose capsule has just reached the crouched
half-height 50. -/
theorem C13_crouch_finalisation_witness :
    Prone.Crouch Env.Unobstructed false (1 / 60) Prone.AtCrouchHeight
        = { Prone.AtCrouchHeight with
              bIsCrouched := true,
              CurrentMovementChange := Prone.EMovementChange.MOVE_CHANGE_NONE,
              Calls := Prone.AtCrouchHeight.Calls ++ [Prone.Callback.OnStartCrouch 0 0] }
      ∧ Prone.Crouch Env.Unobstructed false (1 / 60)
          (Prone.Crouch Env.Unobstructed false (1 / 60) Prone.AtCrouchHeight)
        = { Prone.Crouch Env.Unobstructed false (1 / 60) Prone.AtCrouchHeight with
              Calls := (Prone.Crouch Env.Unobstructed false (1 / 60) Prone.AtCrouchHeight).Calls
                ++ [Prone.Callback.OnStartCrouch 0 0] } :=
  C13_crouch_finalisation Env.Unobstructed (1 / 60) Prone.AtCrouchHeight rfl rfl rfl

/-- C14, counterexample to the claim as stated: a local `Crouch(false, 1/60)` on the fully
crouched character (standing half-height 88, crouched 60, scale 1) invokes `CapsuleAdjusted`
once with (28, 28), the change from the default size, not with (0, 0). -/
theorem C14_callback_deltas_not_zero :
    (Player.Crouched.bIsCrouched = true
        ∧ Player.Crouched.CurrentTransition = Player.EMovementTransition.None
        ∧ Player.Crouched.InternalCapsuleHeight = Player.Crouched.CrouchedHalfHeight
        ∧ Player.Crouched.Capsule.GetUnscaledCapsuleHalfHeight
            = Player.Crouched.CrouchedHalfHeight)
      ∧ (Player.Crouch Env.Unobstructed false (1 / 60) Player.Crouched).CapsuleAdjustedCalls
          = Player.Crouched.CapsuleAdjustedCalls ++ [(28, 28)] := by
  decide!

/-- C14, amended: in the Player variant a local `Crouch(false, dt)` on a character whose
`InternalCapsuleHeight` and capsule half-height both equal `CrouchedHalfHeight` (capsule
radius between 0 and `CrouchedHalfHeight`, no proxy shrink pending on a simulated proxy;
whatever `bIsCrouched` and `CurrentTransition` are, so in particular when it is already fully
crouched with no transition pending) changes neither the capsule nor the component location nor `InternalCapsuleHeight`,
leaves `CurrentTransition` `None`, and invokes `CapsuleAdjusted` exactly once, with the
difference between the default standing half-height and `CrouchedHalfHeight` (unscaled and
scaled). -/
theorem C14_crouch_when_crouched (env : Env) (dt : ℚ) (s : Player.State)
    (hv : env.HasValidData = true) (hc : env.CanCrouchInCurrentState = true)
    (hI : s.InternalCapsuleHeight = s.CrouchedHalfHeight)
    (hH : s.Capsule.GetUnscaledCapsuleHalfHeight = s.CrouchedHalfHeight)
    (hR0 : 0 ≤ s.Capsule.GetUnscaledCapsuleRadius)
    (hRC : s.Capsule.GetUnscaledCapsuleRadius ≤ s.CrouchedHalfHeight)
    (hp : ¬ (s.bShrinkProxyCapsule = true ∧ s.Role = ENetRole.ROLE_SimulatedProxy)) :
    (Player.Crouch env false dt s).Capsule = s.Capsule
      ∧ (Player.Crouch env false dt s).Location = s.Location
      ∧ (Player.Crouch env false dt s).InternalCapsuleHeight = s.InternalCapsuleHeight
      ∧ (Player.Crouch env false dt s).CurrentTransition = Player.EMovementTransition.None
      ∧ (Player.Crouch env false dt s).CapsuleAdjustedCalls
          = s.CapsuleAdjustedCalls
            ++ [(s.DefaultCapsule.GetUnscaledCapsuleHalfHeight - s.CrouchedHalfHeight,
                 (s.DefaultCapsule.GetUnscaledCapsuleHalfHeight - s.CrouchedHalfHeight)
                   * s.Capsule.GetShapeScale)] := by
  have hF : FMath.FInterpConstantTo s.InternalCapsuleHeight s.CrouchedHalfHeight dt
      ((s.DefaultCapsule.CapsuleHalfHeight - s.CrouchedHalfHeight) / s.CrouchTime)
        = s.CrouchedHalfHeight := by
    rw [hI]
    exact FMath.FInterpConstantTo_self _ _ _
  have hM : FMath.Max3 0 s.Capsule.CapsuleRadius s.CrouchedHalfHeight = s.CrouchedHalfHeight :=
    FMath.Max3_floor_eq _ _ (le_trans hR0 hRC) hRC
  rw [Player.Crouch_local_eq env dt s hv hc]
  dsimp only
  rw [hF, hM, if_neg (by simp)]
  have hG := Player.ShrinkCapsule_geometry env s.CrouchedHalfHeight false
    { s with bIsCrouched := true,
             CurrentTransition := Player.EMovementTransition.Stand_to_Crouch,
             InternalCapsuleHeight := s.CrouchedHalfHeight,
             BaseEyeHeight := FMath.Lerp s.DefaultEyeHeight s.CrouchedEyeHeight
               ((s.DefaultCapsule.CapsuleHalfHeight - s.CrouchedHalfHeight)
                 / (s.DefaultCapsule.CapsuleHalfHeight - s.CrouchedHalfHeight)) }
    (le_of_eq hH.symm)
  refine ⟨?_, ?_, ?_, rfl, ?_⟩
  · show (Player.ShrinkCapsule _ _ _ _).2.Capsule = _
    rw [hG.2.2.1 hp]
    show s.Capsule.SetCapsuleSize s.Capsule.CapsuleRadius s.CrouchedHalfHeight = _
    have h0r : 0 ≤ s.Capsule.CapsuleRadius := hR0
    have hRr : s.Capsule.CapsuleRadius ≤ s.CrouchedHalfHeight := hRC
    have hH2 : s.Capsule.CapsuleHalfHeight = s.CrouchedHalfHeight := hH
    rw [UCapsuleComponent.SetCapsuleSize_eq s.Capsule.CapsuleRadius s.CrouchedHalfHeight
      s.Capsule h0r hRr, ← hH2]
  · show (Player.ShrinkCapsule _ _ _ _).2.Location = _
    rw [hG.2.2.2]
    show (if _ then MoveComponentSweep env s.Location
        ⟨0, 0, -((s.Capsule.CapsuleHalfHeight - s.CrouchedHalfHeight) * s.Capsule.ShapeScale)⟩
      else s.Location) = _
    have hH2 : s.Capsule.CapsuleHalfHeight = s.CrouchedHalfHeight := hH
    rw [hH2, sub_self, zero_mul, neg_zero, MoveComponentSweep_zero, ite_self]
  · show (Player.ShrinkCapsule _ _ _ _).2.InternalCapsuleHeight = _
    rw [(Player.ShrinkCapsule_fields _ _ _ _).1]
    exact hI.symm
  · show (Player.ShrinkCapsule _ _ _ _).2.CapsuleAdjustedCalls = _
    rw [hG.2.1]
    rfl

/-- C14 at concrete inputs: the fully crouched character (heights 88 and 60, scale 1); the
callback receives (28, 28). -/
theorem C14_crouch_when_crouched_witness :
    (Player.Crouch Env.Unobstructed false (1 / 60) Player.Crouched).Capsule
        = Player.Crouched.Capsule
      ∧ (Player.Crouch Env.Unobstructed false (1 / 60) Player.Crouched).Location
        = Player.Crouched.Location
      ∧ (Player.Crouch Env.Unobstructed false (1 / 60) Player.Crouched).InternalCapsuleHeight
        = Player.Crouched.InternalCapsuleHeight
      ∧ (Player.Crouch Env.Unobstructed false (1 / 60) Player.Crouched).CurrentTransition
        = Player.EMovementTransition.None
      ∧ (Player.Crouch Env.Unobstructed false (1 / 60) Player.Crouched).CapsuleAdjustedCalls
          = Player.Crouched.CapsuleAdjustedCalls
            ++ [(Player.Crouched.DefaultCapsule.GetUnscaledCapsuleHalfHeight
                    - Player.Crouched.CrouchedHalfHeight,
                 (Player.Crouched.DefaultCapsule.GetUnscaledCapsuleHalfHeight
                    - Player.Crouched.CrouchedHalfHeight)
                   * Player.Crouched.Capsule.GetShapeScale)] :=
  C14_crouch_when_crouched Env.Unobstructed (1 / 60) Player.Crouched rfl rfl rfl rfl
    (by decide!) (by decide!) (by decide)

/-- C15: rejected calls are no-ops in the Player variant. `Crouch(false, dt)` while
`CanCrouchInCurrentState()` is false, and `Crouch(true, dt)` or `UnCrouch(true, dt)` while
`bCheckCrouch` is false, return the state they were given: `bIsCrouched`, `CurrentTransition`,
`InternalCapsuleHeight`, `bCheckCrouch`, the eye height, the capsule, the location and the
list of callback invocations are all unchanged. -/
theorem C15_rejected_calls_noop (env : Env) (dt : ℚ) (s : Player.State) :
    (env.CanCrouchInCurrentState = false → Player.Crouch env false dt s = s)
      ∧ (s.bCheckCrouch = false → Player.Crouch env true dt s = s)
      ∧ (s.bCheckCrouch = false → Player.UnCrouch env true dt s = s) := by
  refine ⟨fun h => ?_, fun h => ?_, fun h => ?_⟩
  · unfold Player.Crouch
    by_cases hv : env.HasValidData = true
    · rw [if_neg (not_not.mpr hv), if_pos ⟨by simp, by simp [h]⟩]
    · rw [if_pos hv]
  · unfold Player.Crouch
    by_cases hv : env.HasValidData = true
    · rw [if_neg (not_not.mpr hv), if_neg (by simp), if_pos ⟨by simp [h], rfl⟩]
    · rw [if_pos hv]
  · unfold Player.UnCrouch
    by_cases hv : env.HasValidData = true
    · rw [if_neg (not_not.mpr hv), if_pos ⟨by simp [h], rfl⟩]
    · rw [if_pos hv]

/-- C15 at concrete inputs: the standing character (whose `bCheckCrouch` is clear) in a world
that forbids crouching. -/
theorem C15_rejected_calls_noop_witness :
    Player.Crouch Env.NoCrouch false (1 / 60) Player.Standing = Player.Standing
      ∧ Player.Crouch Env.NoCrouch true (1 / 60) Player.Standing = Player.Standing
      ∧ Player.UnCrouch Env.NoCrouch true (1 / 60) Player.Standing = Player.Standing :=
  ⟨(C15_rejected_calls_noop Env.NoCrouch (1 / 60) Player.Standing).1 rfl,
   (C15_rejected_calls_noop Env.NoCrouch (1 / 60) Player.Standing).2.1 rfl,
   (C15_rejected_calls_noop Env.NoCrouch (1 / 60) Player.Standing).2.2 rfl⟩

/-- C16: sprint cancellation in both variants. If the character is sprinting when
`UpdateCharacterStateBeforeMovement` starts and `bWantsToSprint` is false, then after that
same call sprinting is false, for every world: every forward-alignment dot product, on
ground or not, sprint enabled or not. -/
theorem C16_sprint_cancellation (env : Env) (dt : ℚ) :
    (∀ s : Player.State, s.bIsSprinting = true → s.bWantsToSprint = false →
        (Player.UpdateCharacterStateBeforeMovement env dt s).1.bIsSprinting = false)
      ∧ (∀ s : Prone.State, s.bIsSprinting = true → s.bWantsToSprint = false →
        (Prone.UpdateCharacterStateBeforeMovement env dt s).1.bIsSprinting = false) := by
  refine ⟨fun s h1 h2 => ?_, fun s h1 h2 => ?_⟩
  · rw [(Player.UpdateCharacterStateBeforeMovement_intent env dt s).2.2.2.1,
      (Player.StateAfterJumpAndSprintRules_fields env s).2.2.2.2.2, if_pos h1]
    simp [h2]
  · unfold Prone.UpdateCharacterStateBeforeMovement
    lift_lets
    extract_lets bIsCrouching r s1 DirectionDot IsMovingForward s2 u s3
    have hr : Prone.SprintFrame s1 s := by
      unfold s1 r
      split_ifs
      · exact Prone.Crouch_sprint env false dt s
      · exact Prone.UnCrouch_sprint env false dt s
      · exact ⟨rfl, rfl, id⟩
    have hw : ¬ s1.bWantsToSprint = true := fun x => by
      have := hr.2.2 x
      rw [h2] at this
      exact Bool.false_ne_true this
    split
    · rfl
    · rename_i hn
      exact absurd ⟨hr.1.trans h1, Or.inl hw⟩ hn

/-- C16 at concrete inputs: the sprinting characters of both variants, on ground with sprint
enabled, at a forward alignment of 1 and just below `0.7071f`. -/
theorem C16_sprint_cancellation_witness :
    ((Player.UpdateCharacterStateBeforeMovement Env.Unobstructed (1 / 60)
          Player.Sprinting).1.bIsSprinting = false
        ∧ (Prone.UpdateCharacterStateBeforeMovement Env.Unobstructed (1 / 60)
          Prone.Sprinting).1.bIsSprinting = false)
      ∧ ((Player.UpdateCharacterStateBeforeMovement Env.BelowThreshold (1 / 60)
          Player.Sprinting).1.bIsSprinting = false
        ∧ (Prone.UpdateCharacterStateBeforeMovement Env.BelowThreshold (1 / 60)
          Prone.Sprinting).1.bIsSprinting = false) :=
  ⟨⟨(C16_sprint_cancellation Env.Unobstructed (1 / 60)).1 Player.Sprinting rfl rfl,
    (C16_sprint_cancellation Env.Unobstructed (1 / 60)).2 Prone.Sprinting rfl rfl⟩,
   ⟨(C16_sprint_cancellation Env.BelowThreshold (1 / 60)).1 Player.Sprinting rfl rfl,
    (C16_sprint_cancellation Env.BelowThreshold (1 / 60)).2 Prone.Sprinting rfl rfl⟩⟩

/-- C17: sprint start gate of the Player variant. For a tick that begins with sprinting
false, sprinting is true after `UpdateCharacterStateBeforeMovement` if and only if a controller
is present, the forward-alignment dot product is at least 0.7071 (the code's literal
`0.7071f`, that is the binary32 value `11863169 / 2 ^ 24`), `bWantsToSprint` is set, the
character is moving on ground, `bCanSprint` is set, `CurrentTransition` is `None` and the
character is not crouched. -/
theorem C17_sprint_start_gate (env : Env) (dt : ℚ) (s : Player.State)
    (h : s.bIsSprinting = false) :
    (Player.UpdateCharacterStateBeforeMovement env dt s).1.bIsSprinting = true
      ↔ (env.bHasController = true ∧ 11863169 / 16777216 ≤ env.DirectionDot
          ∧ s.bWantsToSprint = true ∧ env.IsMovingOnGround = true ∧ s.bCanSprint = true
          ∧ s.CurrentTransition = Player.EMovementTransition.None ∧ s.bIsCrouched = false) := by
  rw [(Player.UpdateCharacterStateBeforeMovement_intent env dt s).2.2.2.1,
    (Player.StateAfterJumpAndSprintRules_fields env s).2.2.2.2.2, if_neg (by simp [h]),
    decide_eq_true_iff, Player.IsMovingForward_iff]
  tauto

/-- C17 at concrete inputs: the standing character wanting to sprint starts sprinting at a dot
product of exactly `0.7071f` and does not at the binary32 value just below it. -/
theorem C17_sprint_start_gate_witness :
    (Player.UpdateCharacterStateBeforeMovement Env.AtThreshold (1 / 60)
        Player.WantsSprint).1.bIsSprinting = true
      ∧ ¬ (Player.UpdateCharacterStateBeforeMovement Env.BelowThreshold (1 / 60)
        Player.WantsSprint).1.bIsSprinting = true :=
  ⟨(C17_sprint_start_gate Env.AtThreshold (1 / 60) Player.WantsSprint rfl).2
      ⟨rfl, by decide!, rfl, rfl, rfl, rfl, rfl⟩,
   fun h => absurd
      ((C17_sprint_start_gate Env.BelowThreshold (1 / 60) Player.WantsSprint rfl).1 h).2.1
      (by decide!)⟩

/-- C18: crouch dispatch of the Player variant. With `s1` the state after the jump and sprint
rules, one `UpdateCharacterStateBeforeMovement` call invokes `Crouch(false, dt)` on `s1`
exactly when crouching is allowed, `s1.bWantsToCrouch` is set and the character is not
(crouched with transition `None`); otherwise it invokes `UnCrouch(false, dt)` on `s1` exactly
when crouching is disallowed, or `s1.bWantsToSprint` is set, or (`s1.bWantsToCrouch` is clear
and (crouched or transition not `None`)); otherwise it invokes neither. The list of
invocations never holds both and never more than one. -/
theorem C18_crouch_dispatch (env : Env) (dt : ℚ) (s : Player.State) :
    (Player.UpdateCharacterStateBeforeMovement env dt s
        = if env.CanCrouchInCurrentState = true
              ∧ (Player.StateAfterJumpAndSprintRules env s).bWantsToCrouch = true
              ∧ ¬ (s.bIsCrouched = true
                    ∧ (Player.StateAfterJumpAndSprintRules env s).CurrentTransition
                        = Player.EMovementTransition.None) then
            (Player.Crouch env false dt (Player.StateAfterJumpAndSprintRules env s),
              [TransitionCall.Crouch false dt])
          else if ¬ env.CanCrouchInCurrentState = true
              ∨ (Player.StateAfterJumpAndSprintRules env s).bWantsToSprint = true
              ∨ (¬ (Player.StateAfterJumpAndSprintRules env s).bWantsToCrouch = true
                  ∧ (s.bIsCrouched = true
                    ∨ (Player.StateAfterJumpAndSprintRules env s).CurrentTransition
                        ≠ Player.EMovementTransition.None)) then
            (Player.UnCrouch env false dt (Player.StateAfterJumpAndSprintRules env s),
              [TransitionCall.UnCrouch false dt])
          else (Player.StateAfterJumpAndSprintRules env s, []))
      ∧ ((Player.UpdateCharacterStateBeforeMovement env dt s).2 = [TransitionCall.Crouch false dt]
          ↔ (env.CanCrouchInCurrentState = true
              ∧ (Player.StateAfterJumpAndSprintRules env s).bWantsToCrouch = true
              ∧ ¬ (s.bIsCrouched = true
                    ∧ (Player.StateAfterJumpAndSprintRules env s).CurrentTransition
                        = Player.EMovementTransition.None)))
      ∧ ((Player.UpdateCharacterStateBeforeMovement env dt s).2
            = [TransitionCall.UnCrouch false dt]
          ↔ (¬ (env.CanCrouchInCurrentState = true
                ∧ (Player.StateAfterJumpAndSprintRules env s).bWantsToCrouch = true
                ∧ ¬ (s.bIsCrouched = true
                      ∧ (Player.StateAfterJumpAndSprintRules env s).CurrentTransition
                          = Player.EMovementTransition.None))
              ∧ (¬ env.CanCrouchInCurrentState = true
                  ∨ (Player.StateAfterJumpAndSprintRules env s).bWantsToSprint = true
                  ∨ (¬ (Player.StateAfterJumpAndSprintRules env s).bWantsToCrouch = true
                      ∧ (s.bIsCrouched = true
                        ∨ (Player.StateAfterJumpAndSprintRules env s).CurrentTransition
                            ≠ Player.EMovementTransition.None)))))
      ∧ (Player.UpdateCharacterStateBeforeMovement env dt s).2.length ≤ 1
      ∧ ¬ (TransitionCall.Crouch false dt ∈ (Player.UpdateCharacterStateBeforeMovement env dt s).2
            ∧ TransitionCall.UnCrouch false dt
                ∈ (Player.UpdateCharacterStateBeforeMovement env dt s).2) := by
  refine ⟨Player.UpdateCharacterStateBeforeMovement_eq env dt s, ?_⟩
  rw [Player.UpdateCharacterStateBeforeMovement_eq]
  exact dispatch_trace _ _ dt _ _ _

/-- C19: jump while crouched in the Player variant. If a jump is pending when
`UpdateCharacterStateBeforeMovement` starts and the character is crouched or
`CurrentTransition` is not `None`, then after the call `bWantsToCrouch` and `bPressedJump` are
both false; if the character is neither crouched nor mid-transition, `bPressedJump` is as it
was. -/
theorem C19_jump_while_crouched (env : Env) (dt : ℚ) (s : Player.State) :
    (s.bPressedJump = true →
        (s.bIsCrouched = true ∨ s.CurrentTransition ≠ Player.EMovementTransition.None) →
        (Player.UpdateCharacterStateBeforeMovement env dt s).1.bWantsToCrouch = false
          ∧ (Player.UpdateCharacterStateBeforeMovement env dt s).1.bPressedJump = false)
      ∧ (s.bIsCrouched = false → s.CurrentTransition = Player.EMovementTransition.None →
          (Player.UpdateCharacterStateBeforeMovement env dt s).1.bPressedJump
            = s.bPressedJump) := by
  have hI := Player.UpdateCharacterStateBeforeMovement_intent env dt s
  have hF := Player.StateAfterJumpAndSprintRules_fields env s
  refine ⟨fun hj hc => ⟨?_, ?_⟩, fun hcr htr => ?_⟩
  · rw [hI.1]
    by_contra hw
    exact ((hF.2.2.2.2.1 (by simpa using hw)).2) ⟨hj, hc.symm⟩
  · rw [hI.2.2.1, hF.2.2.2.1, hj]
    rcases hc with hc | hc <;> simp [hc]
  · rw [hI.2.2.1, hF.2.2.2.1, hcr, htr]
    simp

/-- C19 at concrete inputs: the crouched character holding crouch with a jump pending loses
both the crouch intent and the pending jump; the standing character keeps `bPressedJump`. -/
theorem C19_jump_while_crouched_witness :
    ((Player.UpdateCharacterStateBeforeMovement Env.Unobstructed (1 / 60)
          Player.CrouchedJump).1.bWantsToCrouch = false
        ∧ (Player.UpdateCharacterStateBeforeMovement Env.Unobstructed (1 / 60)
          Player.CrouchedJump).1.bPressedJump = false)
      ∧ (Player.UpdateCharacterStateBeforeMovement Env.Unobstructed (1 / 60)
          Player.Standing).1.bPressedJump = Player.Standing.bPressedJump :=
  ⟨(C19_jump_while_crouched Env.Unobstructed (1 / 60) Player.CrouchedJump).1 rfl (Or.inl rfl),
   (C19_jump_while_crouched Env.Unobstructed (1 / 60) Player.Standing).2 rfl rfl⟩

/-- A local `ShrinkCapsule` fails exactly when the target is above the current half-height
and the overlap test at the new size reports encroachment; when it succeeds and no proxy
shrink is pending, the capsule is the one set through the engine setter with the old
radius. -/
theorem Player.ShrinkCapsule_local_result (env : Env) (N : ℚ) (s : Player.State) :
    ((Player.ShrinkCapsule env N false s).1 = false
        ↔ (N > s.Capsule.CapsuleHalfHeight
            ∧ env.OverlapBlockingTestByChannel
                (s.Location.sub ⟨0, 0, (s.Capsule.CapsuleHalfHeight - N) * s.Capsule.ShapeScale⟩)
                (GetPawnCapsuleCollisionShape EShrinkCapsuleExtent.SHRINK_None 0
                  (s.Capsule.SetCapsuleSize s.Capsule.CapsuleRadius N)) = true))
      ∧ ((Player.ShrinkCapsule env N false s).1 = true →
          ¬ (s.bShrinkProxyCapsule = true ∧ s.Role = ENetRole.ROLE_SimulatedProxy) →
          (Player.ShrinkCapsule env N false s).2.Capsule
            = s.Capsule.SetCapsuleSize s.Capsule.CapsuleRadius N) := by
  unfold Player.ShrinkCapsule
  lift_lets
  extract_lets CS OldH OldR s1 HA SHA s2 s3 MeshAdjust HA2 SHA2 s4 s5 off
  have h2 : s2.Capsule = s1.Capsule ∧ s2.bShrinkProxyCapsule = s.bShrinkProxyCapsule
      ∧ s2.Role = s.Role := by
    unfold s2
    split_ifs <;> exact ⟨rfl, rfl, rfl⟩
  have hcap : ¬ (s.bShrinkProxyCapsule = true ∧ s.Role = ENetRole.ROLE_SimulatedProxy) →
      s5.Capsule = s.Capsule.SetCapsuleSize s.Capsule.CapsuleRadius N := by
    intro hp
    rw [(Player.CapsuleAdjusted_fields HA2 SHA2 s4).2.2.2.2.2.2.2.1]
    show (AdjustProxyCapsuleSizeOn s2.bShrinkProxyCapsule s2.Role _ _ s2.Capsule).2 = _
    rw [h2.2.1, h2.2.2, AdjustProxyCapsuleSizeOn_idle _ _ _ _ _ hp, h2.1]
    rfl
  split
  · rename_i h
    exact ⟨⟨fun _ => ⟨h.2.1, h.2.2⟩, fun _ => rfl⟩, fun x => absurd x (by simp)⟩
  · rename_i h
    have hn : ¬ (N > s.Capsule.CapsuleHalfHeight
        ∧ env.OverlapBlockingTestByChannel
            (s.Location.sub ⟨0, 0, (s.Capsule.CapsuleHalfHeight - N) * s.Capsule.ShapeScale⟩)
            (GetPawnCapsuleCollisionShape EShrinkCapsuleExtent.SHRINK_None 0
              (s.Capsule.SetCapsuleSize s.Capsule.CapsuleRadius N)) = true) :=
      fun x => h ⟨by simp, x.1, x.2⟩
    split
    · exact ⟨⟨fun x => absurd x (by simp), fun x => absurd x hn⟩, fun _ hp => hcap hp⟩
    · exact ⟨⟨fun x => absurd x (by simp), fun x => absurd x hn⟩, fun _ hp => hcap hp⟩

/-- When a local `ExpandCapsule` succeeds and no proxy shrink is pending, the capsule is the
one set through the engine setter with the default radius. -/
theorem Player.ExpandCapsule_local_capsule (env : Env) (N : ℚ) (s : Player.State)
    (hok : (Player.ExpandCapsule env N false s).1 = true)
    (hp : ¬ (s.bShrinkProxyCapsule = true ∧ s.Role = ENetRole.ROLE_SimulatedProxy)) :
    (Player.ExpandCapsule env N false s).2.Capsule
      = s.Capsule.SetCapsuleSize s.DefaultCapsule.CapsuleRadius N := by
  unfold Player.ExpandCapsule at hok ⊢
  lift_lets at hok ⊢
  extract_lets CurrentHalfHeight ComponentScale OldUnscaledHalfHeight HalfHeightAdjust
    ScaledHalfHeightAdjust PawnLocation SweepInflation StandingCapsuleShape bEnc1 PawnRadius
    ShrinkHalfHeight TraceDist Down ShortCapsuleShape Hit DistanceToBase NewLoc bEnc2
    StandingLocation bEnc3 Lowered q r s3 s4 MeshAdjust s5 s6 off at hok ⊢
  have hr : r.2.Capsule = s.Capsule ∧ r.2.DefaultCapsule = s.DefaultCapsule
      ∧ r.2.bShrinkProxyCapsule = s.bShrinkProxyCapsule ∧ r.2.Role = s.Role := by
    unfold r
    rw [if_pos (by simp)]
    split_ifs <;> exact ⟨rfl, rfl, rfl, rfl⟩
  have h6 : s6.Capsule = s.Capsule.SetCapsuleSize s.DefaultCapsule.CapsuleRadius N := by
    rw [(Player.CapsuleAdjusted_fields HalfHeightAdjust ScaledHalfHeightAdjust s5).2.2.2.2.2.2.2.1]
    show (AdjustProxyCapsuleSizeOn r.2.bShrinkProxyCapsule r.2.Role _ _
      (r.2.Capsule.SetCapsuleSize r.2.DefaultCapsule.CapsuleRadius N)).2 = _
    rw [hr.2.2.1, hr.2.2.2, AdjustProxyCapsuleSizeOn_idle _ _ _ _ _ hp, hr.1, hr.2.1]
  split at hok
  · exact absurd hok (by simp)
  · rename_i hne
    rw [if_neg hne]
    split
    · exact h6
    · exact h6

/-! ### Sprinting and intent after the resolver (Player variant) -/

/-- After the jump and sprint rules, a sprinting character has sprint intent set and crouch
intent clear. -/
theorem Player.StateAfterJumpAndSprintRules_sprinting (env : Env) (s : Player.State)
    (h : (Player.StateAfterJumpAndSprintRules env s).bIsSprinting = true) :
    (Player.StateAfterJumpAndSprintRules env s).bWantsToSprint = true
      ∧ (Player.StateAfterJumpAndSprintRules env s).bWantsToCrouch = false := by
  revert h
  unfold Player.StateAfterJumpAndSprintRules Player.IsCrouching Player.IsSprinting
  dsimp only
  split_ifs <;> simp_all

/-! ### The transition after an accepted local `UnCrouch` (Player variant) -/

/-- A local `UnCrouch` of the Player variant that is accepted and not blocked: the transition
afterwards is `None` exactly when the tracked half-height has reached the standing
half-height and `Crouch_to_Stand` otherwise; the configuration is untouched. -/
theorem Player.UnCrouch_local_transition (env : Env) (dt : ℚ) (s : Player.State)
    (hv : env.HasValidData = true)
    (hu : ¬ (s.bIsCrouched = true
      ∧ (Player.ExpandCapsule env s.DefaultCapsule.GetUnscaledCapsuleHalfHeight false s).1
          = false)) :
    (Player.UnCrouch env false dt s).CurrentTransition
        = (if (Player.UnCrouch env false dt s).InternalCapsuleHeight
              = s.DefaultCapsule.CapsuleHalfHeight then Player.EMovementTransition.None
            else Player.EMovementTransition.Crouch_to_Stand)
      ∧ (Player.UnCrouch env false dt s).DefaultCapsule = s.DefaultCapsule
      ∧ (Player.UnCrouch env false dt s).CrouchedHalfHeight = s.CrouchedHalfHeight := by
  unfold Player.UnCrouch
  rw [if_neg (not_not.mpr hv), if_neg (fun x => Bool.false_ne_true x.2)]
  lift_lets
  extract_lets e src r0 s1 OldR DefH IS0 r IS s3 Cl s4 NA s5
  have hE := Player.ExpandCapsule_track env s.DefaultCapsule.GetUnscaledCapsuleHalfHeight false s
  have hs1 : s1.CrouchedHalfHeight = s.CrouchedHalfHeight
      ∧ s1.DefaultCapsule = s.DefaultCapsule ∧ s1.bIsCrouched = false ∧ r0.1 = false := by
    unfold s1 r0
    by_cases hcr : s.bIsCrouched = true
    · rw [if_pos ⟨by simp, hcr⟩]
      by_cases he : e.1 = true
      · rw [if_pos he]
        exact ⟨hE.2.1, hE.2.2.2.1, rfl, rfl⟩
      · exact absurd ⟨hcr, by simpa using he⟩ hu
    · rw [if_neg (fun x => hcr x.2), if_neg (fun x => Bool.false_ne_true x.1)]
      exact ⟨rfl, rfl, by simpa using hcr, rfl⟩
  have hr : r.2.CurrentTransition = Player.EMovementTransition.Crouch_to_Stand
      ∧ r.2.DefaultCapsule = s1.DefaultCapsule
      ∧ r.2.CrouchedHalfHeight = s1.CrouchedHalfHeight := by
    unfold r
    by_cases hc : s1.CurrentTransition = Player.EMovementTransition.Stand_to_Crouch
        ∨ s1.CurrentTransition = Player.EMovementTransition.Crouch_to_Stand
        ∨ (¬ Player.IsCrouching s1 = true
          ∧ s1.CurrentTransition = Player.EMovementTransition.None)
    · rw [if_pos hc]
      exact ⟨rfl, rfl, rfl⟩
    · exfalso
      apply hc
      have hcr : ¬ Player.IsCrouching s1 = true := by
        show ¬ s1.bIsCrouched = true
        rw [hs1.2.2.1]
        exact Bool.false_ne_true
      cases htr : s1.CurrentTransition
      · exact Or.inr (Or.inr ⟨hcr, rfl⟩)
      · exact Or.inl rfl
      · exact Or.inr (Or.inl rfl)
  have h5 : s5.InternalCapsuleHeight = Cl
      ∧ s5.CurrentTransition = Player.EMovementTransition.Crouch_to_Stand
      ∧ s5.DefaultCapsule = s.DefaultCapsule
      ∧ s5.CrouchedHalfHeight = s.CrouchedHalfHeight := by
    unfold s5
    split_ifs
    · exact ⟨rfl, hr.1, hr.2.1.trans hs1.2.1, hr.2.2.trans hs1.1⟩
    · exact ⟨rfl, hr.1, hr.2.1.trans hs1.2.1, hr.2.2.trans hs1.1⟩
  have hD : DefH = s.DefaultCapsule.CapsuleHalfHeight := by
    show s1.DefaultCapsule.CapsuleHalfHeight = _
    rw [hs1.2.1]
  rw [if_neg (by rw [hs1.2.2.2]; exact Bool.false_ne_true)]
  by_cases hC : Cl ≠ DefH
  · rw [if_pos hC]
    rw [(Player.RecalculateBaseEyeHeight_fields s5).1,
      (Player.RecalculateBaseEyeHeight_fields s5).2.1,
      (Player.RecalculateBaseEyeHeight_fields s5).2.2.2.2.1,
      (Player.RecalculateBaseEyeHeight_fields s5).2.2.2.2.2.2.1, h5.1,
      if_neg (by rw [← hD]; exact hC)]
    exact ⟨h5.2.1, h5.2.2.1, h5.2.2.2⟩
  · rw [if_neg hC]
    have hC2 : Cl = DefH := not_not.mp hC
    refine ⟨?_, h5.2.2.1, h5.2.2.2⟩
    show Player.EMovementTransition.None = if s5.InternalCapsuleHeight = _ then _ else _
    rw [h5.1, if_pos (hC2.trans hD)]

/-! ### The pass count of the sub-step loop of `PhysProne` -/

/-- C22, counterexample to the claim as stated: with `bJustTeleported` already set and a zero
constrained adjustment, `ResolvePronePenetrationImpl` returns false and makes no
`MoveProneComponent` call, yet `ResolvePronePenetration` returns true. -/
theorem C22_returns_prior_flag :
    Prone.JustTeleported.bJustTeleported = true
      ∧ Prone.ZeroAdjustment.Adjustment.IsZero = true
      ∧ Prone.ResolvePronePenetrationImpl Prone.ZeroAdjustment = (false, [])
      ∧ (Prone.ResolvePronePenetration Prone.ZeroAdjustment Prone.JustTeleported).1 = true := by
  decide!

/-- C22, amended: `ResolvePronePenetration` returns the value of `bJustTeleported` after
or-ing in the result of `ResolvePronePenetrationImpl`: true if and only if `bJustTeleported`
was already set or `ResolvePronePenetrationImpl` moved the volume (returned true, having made
at least one `MoveProneComponent` call). With `bJustTeleported` clear before the call it
returns true exactly when the implementation moved the volume, and with a zero constrained
adjustment the implementation makes no move and the call returns the prior
`bJustTeleported`. -/
theorem C22_return_value (q : Prone.FPenetrationQuery) (s : Prone.State) :
    ((Prone.ResolvePronePenetration q s).1
        = (s.bJustTeleported || (Prone.ResolvePronePenetrationImpl q).1))
      ∧ ((Prone.ResolvePronePenetration q s).2.1
        = { s with bJustTeleported :=
              s.bJustTeleported || (Prone.ResolvePronePenetrationImpl q).1 })
      ∧ ((Prone.ResolvePronePenetrationImpl q).1 = true →
          (Prone.ResolvePronePenetrationImpl q).2 ≠ [])
      ∧ (s.bJustTeleported = false →
          ((Prone.ResolvePronePenetration q s).1 = true
            ↔ (Prone.ResolvePronePenetrationImpl q).1 = true))
      ∧ (q.Adjustment.IsZero = true →
          Prone.ResolvePronePenetrationImpl q = (false, [])
            ∧ (Prone.ResolvePronePenetration q s).1 = s.bJustTeleported) := by
  have hret : (Prone.ResolvePronePenetration q s).1
      = (s.bJustTeleported || (Prone.ResolvePronePenetrationImpl q).1) := rfl
  refine ⟨hret, rfl, ?_, ?_, ?_⟩
  · unfold Prone.ResolvePronePenetrationImpl
    dsimp only
    split_ifs <;> simp
  · intro h
    rw [hret, h, Bool.false_or]
  · intro h
    have hI : Prone.ResolvePronePenetrationImpl q = (false, []) := by
      unfold Prone.ResolvePronePenetrationImpl
      dsimp only
      rw [if_neg (fun x => x.1 h)]
    refine ⟨hI, ?_⟩
    rw [hret, hI, Bool.or_false]

/-- C22 at concrete inputs: from `bJustTeleported` clear, an adjustment `(0, 0, 1)` to a clear
destination is applied by one non-swept move and the call returns true; with a zero
adjustment nothing moves and the call returns false. -/
theorem C22_return_value_witness :
    (Prone.ResolvePronePenetrationImpl Prone.ClearAdjustment).2 ≠ []
      ∧ (Prone.ResolvePronePenetration Prone.ClearAdjustment Prone.MidCrouch).1 = true
      ∧ Prone.ResolvePronePenetrationImpl Prone.ZeroAdjustment = (false, [])
      ∧ (Prone.ResolvePronePenetration Prone.ZeroAdjustment Prone.MidCrouch).1 = false :=
  ⟨(C22_return_value Prone.ClearAdjustment Prone.MidCrouch).2.2.1 (by decide!),
   ((C22_return_value Prone.ClearAdjustment Prone.MidCrouch).2.2.2.1 rfl).2 (by decide!),
   ((C22_return_value Prone.ZeroAdjustment Prone.MidCrouch).2.2.2.2 (by decide!)).1,
   ((C22_return_value Prone.ZeroAdjustment Prone.MidCrouch).2.2.2.2 (by decide!)).2⟩

/-- C23, counterexamples to the claim as stated: `OnRep_OnCapsuleHalfHeight` invokes neither
`Crouch(true)` nor `UnCrouch(true)` when the replicated `CurrentMovementChange` is
`MOVE_CHANGE_NONE` (here with `bIsCrouched` set), nor when it is `STAND_TO_CROUCH` with
`bIsCrouched` already set. -/
theorem C23_no_call_without_transition :
    (Prone.Crouched.CurrentMovementChange = Prone.EMovementChange.MOVE_CHANGE_NONE
        ∧ (Prone.OnRep_OnCapsuleHalfHeight Env.Unobstructed Prone.Crouched).2 = [])
      ∧ (Prone.MidCrouchFlagged.CurrentMovementChange = Prone.EMovementChange.STAND_TO_CROUCH
        ∧ Prone.MidCrouchFlagged.bIsCrouched = true
        ∧ (Prone.OnRep_OnCapsuleHalfHeight Env.Unobstructed Prone.MidCrouchFlagged).2 = []) := by
  decide!

/-- C23, amended: `OnRep_OnCapsuleHalfHeight` re-invokes the transition algorithm with the
client-simulation flag set only while a transition is replicated. It sets `bWantsToCrouch`
and calls `Crouch(true)` exactly when `CurrentMovementChange` is `STAND_TO_CROUCH` and
`bIsCrouched` is clear; it clears `bWantsToCrouch` and calls `UnCrouch(true)` exactly when
`CurrentMovementChange` is `CROUCH_TO_STAND`, whatever `bIsCrouched`; it calls neither when
`CurrentMovementChange` is `MOVE_CHANGE_NONE` or when it is `STAND_TO_CROUCH` with
`bIsCrouched` set. It never makes more than one call and always sets
`bNetworkUpdateReceived`. -/
theorem C23_onrep_dispatch (env : Env) (s : Prone.State) :
    ((Prone.OnRep_OnCapsuleHalfHeight env s).2 = [TransitionCall.Crouch true 0]
        ↔ (s.CurrentMovementChange = Prone.EMovementChange.STAND_TO_CROUCH
            ∧ s.bIsCrouched = false))
      ∧ ((Prone.OnRep_OnCapsuleHalfHeight env s).2 = [TransitionCall.UnCrouch true 0]
        ↔ s.CurrentMovementChange = Prone.EMovementChange.CROUCH_TO_STAND)
      ∧ ((Prone.OnRep_OnCapsuleHalfHeight env s).2 = []
        ↔ (s.CurrentMovementChange = Prone.EMovementChange.MOVE_CHANGE_NONE
            ∨ (s.CurrentMovementChange = Prone.EMovementChange.STAND_TO_CROUCH
                ∧ s.bIsCrouched = true)))
      ∧ (Prone.OnRep_OnCapsuleHalfHeight env s).1
          = (if s.CurrentMovementChange = Prone.EMovementChange.STAND_TO_CROUCH
                ∧ s.bIsCrouched = false then
              { Prone.Crouch env true 0 { s with bWantsToCrouch := true } with
                  bNetworkUpdateReceived := true }
            else if s.CurrentMovementChange = Prone.EMovementChange.CROUCH_TO_STAND then
              { Prone.UnCrouch env true 0 { s with bWantsToCrouch := false } with
                  bNetworkUpdateReceived := true }
            else { s with bNetworkUpdateReceived := true })
      ∧ (Prone.OnRep_OnCapsuleHalfHeight env s).1.bNetworkUpdateReceived = true := by
  unfold Prone.OnRep_OnCapsuleHalfHeight
  dsimp only
  by_cases h1 : s.CurrentMovementChange = Prone.EMovementChange.STAND_TO_CROUCH
      ∧ s.bIsCrouched = false
  · have h1b : s.CurrentMovementChange = Prone.EMovementChange.STAND_TO_CROUCH
        ∧ ¬ s.bIsCrouched = true := ⟨h1.1, by simp [h1.2]⟩
    rw [if_pos h1b, if_pos h1]
    simp [h1.1, h1.2]
  · have h1b : ¬ (s.CurrentMovementChange = Prone.EMovementChange.STAND_TO_CROUCH
        ∧ ¬ s.bIsCrouched = true) := fun x => h1 ⟨x.1, by simpa using x.2⟩
    rw [if_neg h1b, if_neg h1]
    by_cases h2 : s.CurrentMovementChange = Prone.EMovementChange.CROUCH_TO_STAND
    · rw [if_pos h2]
      simp [h2]
    · rw [if_neg h2, if_neg h2]
      refine ⟨?_, ?_, ?_, rfl, rfl⟩
      · simpa using h1
      · simpa using h2
      · cases hm : s.CurrentMovementChange
        · simp
        · rw [hm] at h1
          simpa using h1
        · exact absurd hm h2

/-- C24: a misused `ShrinkCapsule` does neither what its comment says nor what
`ExpandCapsule` does. The comment on the growth-target branch reads "Crouching to a larger
height? return false, use ExpandCapsule for it", but the code only logs, makes one overlap
test and carries on: a local call returns false exactly when the target is above the current
half-height and that single overlap test reports encroachment, so with free space it grows
the capsule and returns true. On the crouched character (half-height 60, z = 62) in the
unobstructed world with target 88, `ShrinkCapsule` returns true and leaves the capsule at 88
and the component at z = 90, where `ExpandCapsule` leaves it at z = 90.001. A misused
`ExpandCapsule` is not redirected either: on the standing character with target 60, in the
world where every overlap test reports encroachment, it returns false and leaves the capsule
at 88, while `ShrinkCapsule` returns true and leaves it at 60. -/
theorem C24_shrink_grows_instead_of_failing :
    (∀ (env : Env) (N : ℚ) (s : Player.State),
        (Player.ShrinkCapsule env N false s).1 = false
          ↔ (N > s.Capsule.CapsuleHalfHeight
              ∧ env.OverlapBlockingTestByChannel
                  (s.Location.sub
                    ⟨0, 0, (s.Capsule.CapsuleHalfHeight - N) * s.Capsule.ShapeScale⟩)
                  (GetPawnCapsuleCollisionShape EShrinkCapsuleExtent.SHRINK_None 0
                    (s.Capsule.SetCapsuleSize s.Capsule.CapsuleRadius N)) = true))
      ∧ (Player.Crouched.Capsule.GetUnscaledCapsuleHalfHeight < 88
        ∧ (Player.ShrinkCapsule Env.Unobstructed 88 false Player.Crouched).1 = true
        ∧ (Player.ShrinkCapsule Env.Unobstructed 88 false
            Player.Crouched).2.Capsule.GetUnscaledCapsuleHalfHeight = 88
        ∧ (Player.ExpandCapsule Env.Unobstructed 88 false Player.Crouched).1 = true
        ∧ (Player.ShrinkCapsule Env.Unobstructed 88 false Player.Crouched).2.Location
            = ⟨0, 0, 90⟩
        ∧ (Player.ExpandCapsule Env.Unobstructed 88 false Player.Crouched).2.Location
            = ⟨0, 0, 90001 / 1000⟩)
      ∧ (60 < Player.Standing.Capsule.GetUnscaledCapsuleHalfHeight
        ∧ (Player.ExpandCapsule Env.Blocked 60 false Player.Standing).1 = false
        ∧ (Player.ExpandCapsule Env.Blocked 60 false
            Player.Standing).2.Capsule.GetUnscaledCapsuleHalfHeight = 88
        ∧ (Player.ShrinkCapsule Env.Blocked 60 false Player.Standing).1 = true
        ∧ (Player.ShrinkCapsule Env.Blocked 60 false
            Player.Standing).2.Capsule.GetUnscaledCapsuleHalfHeight = 60) := by
  refine ⟨fun env N s => (Player.ShrinkCapsule_local_result env N s).1, by decide!,
    by decide!⟩

/-- C25: `GetMaxSpeed` returns the base class's maximum speed when the character is not
sprinting, and when sprinting it returns the sprint setting itself (`MaxWalkSpeedSprint`,
respectively `MaxSprintSpeed`), not the walking speed multiplied by it as the comment on the
property says. With a base maximum speed of 600: the prone-supporting variant with the
setting at 2 returns 2, not 1200; the Player variant with the setting at its default 800
returns 800, not 480000. -/
theorem C25_GetMaxSpeed_assigns_setting :
    (∀ (env : Env) (s : Prone.State),
        Prone.GetMaxSpeed env s
          = if s.bIsSprinting = true then s.MaxWalkSpeedSprint else env.SuperGetMaxSpeed)
      ∧ (∀ (env : Env) (s : Player.State),
        Player.GetMaxSpeed env s
          = if s.bIsSprinting = true then s.MaxSprintSpeed else env.SuperGetMaxSpeed)
      ∧ (Prone.SprintingFactorTwo.bIsSprinting = true
        ∧ Env.Unobstructed.SuperGetMaxSpeed = 600
        ∧ Prone.GetMaxSpeed Env.Unobstructed Prone.SprintingFactorTwo = 2
        ∧ Prone.GetMaxSpeed Env.Unobstructed Prone.SprintingFactorTwo
            ≠ Env.Unobstructed.SuperGetMaxSpeed * Prone.SprintingFactorTwo.MaxWalkSpeedSprint)
      ∧ (Player.Sprinting.bIsSprinting = true
        ∧ Player.GetMaxSpeed Env.Unobstructed Player.Sprinting = 800
        ∧ Player.GetMaxSpeed Env.Unobstructed Player.Sprinting
            ≠ Env.Unobstructed.SuperGetMaxSpeed * Player.Sprinting.MaxSprintSpeed) := by
  refine ⟨fun env s => rfl, fun env s => rfl, by decide!, by decide!⟩

/-- C26: transition/height invariant of the Player variant. After an accepted local
`Crouch(false, dt)` (valid data, crouching allowed) the transition is `None` if and only if
the tracked half-height equals `CrouchedHalfHeight`, and it is `Stand_to_Crouch` otherwise.
After an accepted local `UnCrouch(false, dt)` that is not blocked (the character is not
crouched, or the capsule expansion succeeds) the transition is `None` if and only if the
tracked half-height equals the standing half-height, and it is `Crouch_to_Stand` otherwise.
Both hold for every transition value before the call, so also when the call reverses a
transition in the other direction; neither call changes its own target. -/
theorem C26_transition_height_invariant (env : Env) (dt : ℚ) (s : Player.State)
    (hv : env.HasValidData = true) :
    (env.CanCrouchInCurrentState = true →
        ((Player.Crouch env false dt s).CurrentTransition = Player.EMovementTransition.None
            ↔ (Player.Crouch env false dt s).InternalCapsuleHeight
                = (Player.Crouch env false dt s).CrouchedHalfHeight)
          ∧ ((Player.Crouch env false dt s).CurrentTransition ≠ Player.EMovementTransition.None →
              (Player.Crouch env false dt s).CurrentTransition
                = Player.EMovementTransition.Stand_to_Crouch)
          ∧ (Player.Crouch env false dt s).CrouchedHalfHeight = s.CrouchedHalfHeight)
      ∧ (¬ (s.bIsCrouched = true
            ∧ (Player.ExpandCapsule env s.DefaultCapsule.GetUnscaledCapsuleHalfHeight
                false s).1 = false) →
        ((Player.UnCrouch env false dt s).CurrentTransition = Player.EMovementTransition.None
            ↔ (Player.UnCrouch env false dt s).InternalCapsuleHeight
                = (Player.UnCrouch env false dt s).DefaultCapsule.GetUnscaledCapsuleHalfHeight)
          ∧ ((Player.UnCrouch env false dt s).CurrentTransition
                ≠ Player.EMovementTransition.None →
              (Player.UnCrouch env false dt s).CurrentTransition
                = Player.EMovementTransition.Crouch_to_Stand)
          ∧ (Player.UnCrouch env false dt s).DefaultCapsule = s.DefaultCapsule) := by
  refine ⟨fun hc => ?_, fun hu => ?_⟩
  · rw [Player.Crouch_local_eq env dt s hv hc]
    dsimp only
    by_cases h : FMath.Max3 0 s.Capsule.CapsuleRadius
        (FMath.FInterpConstantTo s.InternalCapsuleHeight s.CrouchedHalfHeight dt
          ((s.DefaultCapsule.CapsuleHalfHeight - s.CrouchedHalfHeight) / s.CrouchTime))
        ≠ s.CrouchedHalfHeight
    · rw [if_pos h, (Player.RecalculateBaseEyeHeight_fields _).1,
        (Player.RecalculateBaseEyeHeight_fields _).2.1,
        (Player.RecalculateBaseEyeHeight_fields _).2.2.2.2.1]
      exact ⟨⟨fun x => (by cases x), fun x => absurd x h⟩, fun _ => rfl, rfl⟩
    · rw [if_neg h]
      have h2 := not_not.mp h
      refine ⟨⟨fun _ => ?_, fun _ => rfl⟩, fun x => absurd rfl x, ?_⟩
      · show (Player.ShrinkCapsule env s.CrouchedHalfHeight false _).2.InternalCapsuleHeight
          = (Player.ShrinkCapsule env s.CrouchedHalfHeight false _).2.CrouchedHalfHeight
        rw [(Player.ShrinkCapsule_fields env _ false _).1,
          (Player.ShrinkCapsule_fields env _ false _).2.2.2.2.1]
        exact h2
      · show (Player.ShrinkCapsule env s.CrouchedHalfHeight false _).2.CrouchedHalfHeight = _
        rw [(Player.ShrinkCapsule_fields env _ false _).2.2.2.2.1]
  · have h := Player.UnCrouch_local_transition env dt s hv hu
    have hD : (Player.UnCrouch env false dt s).DefaultCapsule.GetUnscaledCapsuleHalfHeight
        = s.DefaultCapsule.CapsuleHalfHeight := by
      rw [h.2.1]
      rfl
    rw [hD, h.1]
    by_cases hx : (Player.UnCrouch env false dt s).InternalCapsuleHeight
        = s.DefaultCapsule.CapsuleHalfHeight
    · rw [if_pos hx]
      exact ⟨⟨fun _ => hx, fun _ => rfl⟩, fun x => absurd rfl x, h.2.1⟩
    · rw [if_neg hx]
      exact ⟨⟨fun x => (by cases x), fun x => absurd x hx⟩, fun _ => rfl, h.2.1⟩

/-- C26 at concrete inputs, in the unobstructed world with steps of 1/2 s: crouching from
standing leaves `Stand_to_Crouch`; reversing a stand-up by a `Crouch` of 1/4 s leaves
`Stand_to_Crouch`; standing up from fully crouched leaves `Crouch_to_Stand`; reversing a
crouch by `UnCrouch` from tracked height 81 reaches the standing height 88, so the
transition is `None`. -/
theorem C26_transition_height_invariant_witness :
    ((Player.Crouch Env.Unobstructed false (1 / 2) Player.Standing).CurrentTransition
          = Player.EMovementTransition.Stand_to_Crouch
        ∧ (Player.Crouch Env.Unobstructed false (1 / 4) Player.StandingUp).CurrentTransition
          = Player.EMovementTransition.Stand_to_Crouch)
      ∧ ((Player.UnCrouch Env.Unobstructed false (1 / 2) Player.Crouched).CurrentTransition
          = Player.EMovementTransition.Crouch_to_Stand
        ∧ (Player.UnCrouch Env.Unobstructed false (1 / 2)
            Player.CrouchingDown).CurrentTransition = Player.EMovementTransition.None) :=
  ⟨⟨((C26_transition_height_invariant Env.Unobstructed (1 / 2) Player.Standing rfl).1
        rfl).2.1 (by decide!),
    ((C26_transition_height_invariant Env.Unobstructed (1 / 4) Player.StandingUp rfl).1
        rfl).2.1 (by decide!)⟩,
   ⟨((C26_transition_height_invariant Env.Unobstructed (1 / 2) Player.Crouched rfl).2
        (by decide!)).2.1 (by decide!),
    ((C26_transition_height_invariant Env.Unobstructed (1 / 2) Player.CrouchingDown rfl).2
        (by decide!)).1.2 (by decide!)⟩⟩

/-- C28: resolver invariant of the Player variant. After every
`UpdateCharacterStateBeforeMovement` call, for every starting state, time step and
environment, if the character is sprinting then `bWantsToSprint` is set and `bWantsToCrouch`
is clear; so sprinting and crouch intent never hold together at the end of a tick. -/
theorem C28_sprinting_implies_intent (env : Env) (dt : ℚ) (s : Player.State)
    (h : (Player.UpdateCharacterStateBeforeMovement env dt s).1.bIsSprinting = true) :
    (Player.UpdateCharacterStateBeforeMovement env dt s).1.bWantsToSprint = true
      ∧ (Player.UpdateCharacterStateBeforeMovement env dt s).1.bWantsToCrouch = false := by
  have hi := Player.UpdateCharacterStateBeforeMovement_intent env dt s
  rw [hi.2.2.2.1] at h
  rw [hi.1, hi.2.1]
  exact Player.StateAfterJumpAndSprintRules_sprinting env s h

/-- C28 at concrete inputs: the standing character wanting to sprint at a forward alignment
of exactly `0.7071f` is sprinting after the call, with sprint intent set and crouch intent
clear. -/
theorem C28_sprinting_implies_intent_witness :
    ((Player.UpdateCharacterStateBeforeMovement Env.AtThreshold (1 / 60)
          Player.WantsSprint).1.bIsSprinting = true
        ∧ (Player.UpdateCharacterStateBeforeMovement Env.AtThreshold (1 / 60)
          Player.WantsSprint).1.bWantsToSprint = true
        ∧ (Player.UpdateCharacterStateBeforeMovement Env.AtThreshold (1 / 60)
          Player.WantsSprint).1.bWantsToCrouch = false) :=
  ⟨by decide!, C28_sprinting_implies_intent Env.AtThreshold (1 / 60) Player.WantsSprint
    (by decide!)⟩

/-- C29: local `UnCrouch` of the prone-supporting variant does not mirror `Crouch`. It
computes the updated alpha but interpolates the new half-height at the alpha from before the
step, so the capsule lags one call behind. In the unobstructed world with `CrouchTime` 2 and
steps of 1/2 s (4 steps make `CrouchTime`): four `Crouch` calls take the standing character
to the crouched half-height 50 with `bIsCrouched` set and no transition pending; four
`UnCrouch` calls from fully crouched leave the capsule at 78.5 instead of 88, `bIsCrouched`
still set and `CROUCH_TO_STAND` still pending, and a fifth call is needed to stand; after the
first `UnCrouch` call the alpha is 3/4 while `CurrentCapsuleHalfHeight` is 50, not the
interpolation 59.5 at 3/4. -/
theorem C29_uncrouch_lags_one_call :
    (Prone.Crouched.Capsule.GetUnscaledCapsuleHalfHeight = Prone.Crouched.CrouchedHalfHeight
        ∧ Prone.Crouched.bIsCrouched = true
        ∧ Prone.Crouched.CurrentMovementChange = Prone.EMovementChange.MOVE_CHANGE_NONE
        ∧ Prone.Crouched.bWantsToCrouch = false
        ∧ (4 : ℚ) * (1 / 2) = Prone.Crouched.CrouchTime)
      ∧ ((Prone.CrouchN Env.Unobstructed false (1 / 2) 4
            Prone.StandingWantsCrouch).Capsule.GetUnscaledCapsuleHalfHeight = 50
        ∧ (Prone.CrouchN Env.Unobstructed false (1 / 2) 4
            Prone.StandingWantsCrouch).bIsCrouched = true
        ∧ (Prone.CrouchN Env.Unobstructed false (1 / 2) 4
            Prone.StandingWantsCrouch).CurrentMovementChange
            = Prone.EMovementChange.MOVE_CHANGE_NONE)
      ∧ ((Prone.UnCrouchN Env.Unobstructed false (1 / 2) 4
            Prone.Crouched).Capsule.GetUnscaledCapsuleHalfHeight = 157 / 2
        ∧ Prone.Crouched.DefaultCapsule.GetUnscaledCapsuleHalfHeight = 88
        ∧ (Prone.UnCrouchN Env.Unobstructed false (1 / 2) 4 Prone.Crouched).bIsCrouched = true
        ∧ (Prone.UnCrouchN Env.Unobstructed false (1 / 2) 4
            Prone.Crouched).CurrentMovementChange = Prone.EMovementChange.CROUCH_TO_STAND)
      ∧ ((Prone.UnCrouchN Env.Unobstructed false (1 / 2) 5
            Prone.Crouched).Capsule.GetUnscaledCapsuleHalfHeight = 88
        ∧ (Prone.UnCrouchN Env.Unobstructed false (1 / 2) 5 Prone.Crouched).bIsCrouched = false
        ∧ (Prone.UnCrouchN Env.Unobstructed false (1 / 2) 5
            Prone.Crouched).CurrentMovementChange = Prone.EMovementChange.MOVE_CHANGE_NONE)
      ∧ ((Prone.UnCrouch Env.Unobstructed false (1 / 2) Prone.Crouched).CurrentCrouchAlpha
            = 3 / 4
        ∧ (Prone.UnCrouch Env.Unobstructed false (1 / 2)
            Prone.Crouched).CurrentCapsuleHalfHeight = 50
        ∧ FMath.Lerp 88 50 (3 / 4) = 119 / 2
        ∧ (Prone.Crouch Env.Unobstructed false (1 / 2)
            Prone.StandingWantsCrouch).CurrentCrouchAlpha = 1 / 4
        ∧ (Prone.Crouch Env.Unobstructed false (1 / 2)
            Prone.StandingWantsCrouch).CurrentCapsuleHalfHeight = FMath.Lerp 88 50 (1 / 4)) := by
  decide!

/-- C30: one `UpdateCharacterStateBeforeMovement` call of the prone-supporting variant can
invoke a transition step twice. The sprint branch calls `UnCrouch(false, DeltaSeconds)` when
the character was crouched at the start of the call, whether or not the crouch dispatch above
it has already called `Crouch` or `UnCrouch`. In the unobstructed world (on ground, moving
forward, sprint enabled) with `DeltaSeconds` 1/2 and `CrouchTime` 2: the fully crouched
character with sprint intent gets `UnCrouch` twice and its alpha drops from 1 to 1/2, twice
`DeltaSeconds/CrouchTime`; the character reversing a stand-up with both intents set gets
`Crouch` and then `UnCrouch`. A character that is not crouched at the start of the call gets
at most one invocation, in every world. -/
theorem C30_two_steps_in_one_tick :
    ((Prone.UpdateCharacterStateBeforeMovement Env.Unobstructed (1 / 2)
          Prone.CrouchedWantsSprint).2
        = [TransitionCall.UnCrouch false (1 / 2), TransitionCall.UnCrouch false (1 / 2)]
      ∧ Prone.CrouchedWantsSprint.CurrentCrouchAlpha = 1
      ∧ (Prone.UpdateCharacterStateBeforeMovement Env.Unobstructed (1 / 2)
          Prone.CrouchedWantsSprint).1.CurrentCrouchAlpha = 1 / 2
      ∧ (1 / 2 : ℚ) / Prone.CrouchedWantsSprint.CrouchTime = 1 / 4)
      ∧ (Prone.UpdateCharacterStateBeforeMovement Env.Unobstructed (1 / 2)
          Prone.RisingWantsBoth).2
        = [TransitionCall.Crouch false (1 / 2), TransitionCall.UnCrouch false (1 / 2)]
      ∧ (∀ (env : Env) (dt : ℚ) (s : Prone.State), s.bIsCrouched = false →
          (Prone.UpdateCharacterStateBeforeMovement env dt s).2.length ≤ 1) := by
  refine ⟨by decide!, by decide!, fun env dt s hc => ?_⟩
  unfold Prone.UpdateCharacterStateBeforeMovement
  lift_lets
  extract_lets bIsCrouching r s1 DirectionDot IsMovingForward s2 u s3
  have hr : r.2.length ≤ 1 := by
    unfold r
    split_ifs <;> simp
  have hb : bIsCrouching = false := hc
  have hu : u.2 = r.2 := by
    unfold u
    rw [hb]
    rfl
  split
  · exact hr
  · split
    · show u.2.length ≤ 1
      rw [hu]
      exact hr
    · exact hr

/-! ### Binary32 rounding -/

/-- Wherever the search moved on, the power of two it stops at is at most `a`. -/
theorem F32.expoFrom_lower (a : ℚ) : ∀ (n : ℕ) (e : ℤ),
    F32.expoFrom n e a = e ∨ (2 : ℚ) ^ F32.expoFrom n e a ≤ a := by
  intro n
  induction n with
  | zero =>
    intro e
    left
    rfl
  | succ n ih =>
    intro e
    rw [F32.expoFrom]
    split
    · left
      rfl
    · rename_i h
      right
      rcases ih (e + 1) with h1 | h1
      · rw [h1]
        exact not_lt.mp h
      · exact h1

/-- A magnitude below `2 ^ (k + 24)` has its unit in the last place at most `2 ^ k`, for `k`
from `-149` on. -/
theorem F32.ulpExp_le_of_lt {x : ℚ} {k : ℤ} (hk : -149 ≤ k) (h : |x| < 2 ^ (k + 24)) :
    F32.ulpExp x ≤ k := by
  unfold F32.ulpExp
  rcases F32.expoFrom_lower |x| 253 (-126) with h1 | h1
  · rw [h1]
    omega
  · have h2 := lt_of_le_of_lt h1 h
    have h3 := (zpow_lt_zpow_iff_right₀ (by norm_num : (1 : ℚ) < 2)).mp h2
    omega

/-- The thresholds of the two forward tests are the binary32 values of the literals `0.7071f`
and `0.2f`, and the world `Env.BelowThreshold` has the binary32 value just below the
first. -/
theorem F32.forward_thresholds :
    F32.round (7071 / 10000) = 11863169 / 16777216
      ∧ F32.round (2 / 10) = 13421773 / 67108864
      ∧ F32.IsFloat Env.BelowThreshold.DirectionDot
      ∧ Env.BelowThreshold.DirectionDot + 2 ^ F32.ulpExp (7071 / 10000)
          = Env.AtThreshold.DirectionDot := by
  decide!

/-! ### The interpolation helpers in binary32 -/

/-- The transition after the `n`-th accepted local `Crouch` call in binary32 (`n ≥ 1`) is
`None` when the height after that call is the crouched half-height and `Stand_to_Crouch`
otherwise. -/
theorem Player.CrouchTransitionNF32_eq (R H C T dt h : ℚ) (n : ℕ) (hn : 1 ≤ n) :
    Player.CrouchTransitionNF32 R H C T dt n h
      = (if Player.CrouchHeightNF32 R H C T dt n h = C then Player.EMovementTransition.None
          else Player.EMovementTransition.Stand_to_Crouch) := by
  obtain ⟨m, hm⟩ := Nat.exists_eq_add_of_le hn
  have hm' : n = m + 1 := by omega
  subst hm'
  have he : Player.CrouchHeightNF32 R H C T dt (m + 1) h
      = (Player.CrouchTrackF32 R H C T dt (Player.CrouchHeightNF32 R H C T dt m h)).1 := by
    unfold Player.CrouchHeightNF32
    rw [Function.iterate_succ_apply']
  rw [he]
  unfold Player.CrouchTransitionNF32
  rw [Nat.add_sub_cancel]
  show (if (Player.CrouchTrackF32 R H C T dt (Player.CrouchHeightNF32 R H C T dt m h)).1 ≠ C
    then Player.EMovementTransition.Stand_to_Crouch
    else Player.EMovementTransition.None) = _
  by_cases hx : (Player.CrouchTrackF32 R H C T dt (Player.CrouchHeightNF32 R H C T dt m h)).1
      = C
  · rw [if_neg (not_not.mpr hx), if_pos hx]
  · rw [if_pos hx, if_neg hx]

/-- In binary32 a step below half the spacing of the values around the height moves nothing:
with `CrouchTime` 2 and `DeltaTime` the binary32 value of `1e-7`, the height stays at the
standing half-height 88 for ever (the rounded step is about 1.4e-6, the spacing at 88 is
about 7.6e-6). -/
theorem Player.CrouchHeightNF32_stalls (n : ℕ) :
    Player.CrouchHeightNF32 34 88 60 2 (F32.round (1 / 10000000)) n 88 = 88
      ∧ Player.CrouchTransitionNF32 34 88 60 2 (F32.round (1 / 10000000)) (n + 1) 88
          = Player.EMovementTransition.Stand_to_Crouch := by
  have hfix : (fun x => (Player.CrouchTrackF32 34 88 60 2 (F32.round (1 / 10000000)) x).1) 88
      = 88 := by decide!
  have h1 : ∀ m : ℕ,
      Player.CrouchHeightNF32 34 88 60 2 (F32.round (1 / 10000000)) m 88 = 88 := by
    intro m
    unfold Player.CrouchHeightNF32
    exact Function.iterate_fixed hfix m
  refine ⟨h1 n, ?_⟩
  rw [Player.CrouchTransitionNF32_eq _ _ _ _ _ _ _ (by omega), h1]
  decide!

